import Mathlib

/-! # bleep sequencer: definition compiler and control messages

A shallow embedding of `sequencer/sequence_def.go` and `sequencer/sequencer.go`.

Conventions of the embedding

* Go `int` is a 64-bit signed integer and Go `uint` a 64-bit unsigned integer.
  An `int` is an `Int`, a `uint` is a `Nat`; every arithmetic result is reduced
  explicitly (`wrapInt`, `toUint`, `% UINT_SIZE`).
* A finite Go `float64` value is the rational it denotes; a value that is not finite
  (an infinity or NaN) is `none`. The float64 operations of the tick duration and of a
  float duration round their exact result to the nearest float64 (`roundFloat64`);
  the additions `bpm + 10` and `bpm - 10` of the control messages are exact.
* A Go `(value, error)` result is an `Except String value`; the error is the
  text of `err.Error()`.
* A Go pointer that may be `nil` is an `Option`.
* The node and automation constructors (`Every`, `After`, `IntCycleAutomation`, ...)
  are declared in source files that are not part of the development; a call to
  one of them is recorded as a constructor of `Sequence`, `IntAutomation`,
  `FloatAutomation` or `IntArrayAutomation`, arguments in call order.
* Diagnostic printing (`fmt.Println`) is not modelled.
-/

namespace Bleep

/-! ## Machine integers -/

/-- Number of values of a Go `uint` (2^64). -/
def UINT_SIZE : Nat := 18446744073709551616

/-- Half of `UINT_SIZE` (2^63): the Go `int` range is `[-INT_HALF, INT_HALF)`. -/
def INT_HALF : Int := 9223372036854775808

/-- Result of a Go `int` operation whose mathematical result is `x`:
two's complement wrap-around into `[-2^63, 2^63)`. -/
def wrapInt (x : Int) : Int := (x + INT_HALF) % (UINT_SIZE : Int) - INT_HALF

/-- Go conversion `uint(x)` of an `int`: the value modulo 2^64. -/
def toUint (x : Int) : Nat := (x % (UINT_SIZE : Int)).toNat

/-! ## float64 arithmetic -/

/-- Rounding of a rational to the nearest integer, a tie going to the even one. -/
def roundHalfEven (x : ℚ) : Int :=
  let f : Int := ⌊x⌋
  if x - f < 1 / 2 then f
  else if 1 / 2 < x - f then f + 1
  else if f % 2 = 0 then f else f + 1

/-- The spacing of the float64 values around `x`: `2^(e - 52)` when
`2^e ≤ |x| < 2^(e + 1)`, and `2^-1074` below the normal range (`e < -1022`). -/
def float64Quantum (x : ℚ) : ℚ := (2 : ℚ) ^ (max (Int.log 2 |x|) (-1022) - 52)

/-- The float64 value nearest to the real number `x` (IEEE 754 rounding to nearest, ties
to even), which is the result of a float64 operation whose exact result is `x`: `some y`
when it is finite, `none` when the rounded magnitude reaches `2^1024` (the operation
overflows to an infinity). The sign of a zero is not recorded. -/
def roundFloat64 (x : ℚ) : Option ℚ :=
  let y : ℚ := (roundHalfEven (x / float64Quantum x) : ℚ) * float64Quantum x
  if |y| < (2 : ℚ) ^ (1024 : Nat) then some y else none

/-- The float64 quotient `x / y` of two finite values; a division by zero gives an
infinity or NaN. -/
def float64Div (x y : ℚ) : Option ℚ := if y = 0 then none else roundFloat64 (x / y)

/-- The float64 product `x * y` of two finite values. -/
def float64Mul (x y : ℚ) : Option ℚ := roundFloat64 (x * y)

/-- Go conversion `uint(x)` of a `float64`: the fraction is discarded (truncation towards
zero). When the truncated value is outside the `uint` range, or `x` is not finite, Go
leaves the result to the implementation; the value taken here is the one of the code
generated for amd64, which converts `x` below 2^63 as a signed 64-bit integer (a
negative value in range is reinterpreted, a value out of range gives 2^63) and
converts `x - 2^63` otherwise, setting the top bit. -/
def floatToUint (x : Option ℚ) : Nat :=
  match x with
  | none => 9223372036854775808
  | some v =>
    let t : Int := if 0 ≤ v then ⌊v⌋ else ⌈v⌉
    if 0 ≤ t ∧ t < (UINT_SIZE : Int) then t.toNat
    else if -INT_HALF ≤ t ∧ t < 0 then (t + (UINT_SIZE : Int)).toNat
    else 9223372036854775808

/-! ## Values read from the document -/

/-- A Go `interface{}` holding a decoded document value. `other` is any value that
is not a `string`, `int` or `float64` (a missing field is `nil`); it carries the
text that the format verb `%v` prints for it. -/
inductive Value where
  | str (v : String)
  | int (n : Int)
  | float (x : ℚ)
  | other (shown : String)

/-- Text printed for a value by the format verb `%v`, as far as the error
messages need it: a string prints as itself. Numbers never reach an error message. -/
def Value.format : Value → String
  | .str v => v
  | .int n => toString n
  | .float _ => "<float>"
  | .other shown => shown

/-! ## Compiled automations and sequence nodes -/

/-- Modelled from the spec: the integer automation constructors, declared in a source
file that is absent; one constructor per call made by `AutomationDef.GetAutomation`
and by the `play_note` compiler. -/
inductive IntAutomation where
  | IntIdAutomation (k : Int)
  | IntBackAndForthAutomation (values : List Int)
  | IntCycleAutomation (values : List Int)
  | IntRangeAutomation (From To : Int)
  | IntSweepAutomation (From To ChangeEvery : Int)
  | IntFadeInAutomation (From To ChangeEvery : Int)

/-- Modelled from the spec: the float automation constructor, declared in a source
file that is absent. -/
inductive FloatAutomation where
  | FloatBackAndForthAutomation (values : List ℚ)

/-- Modelled from the spec: the array automation constructors, declared in a source
file that is absent. -/
inductive IntArrayAutomation where
  | IntArrayIdAutomation (notes : List Int)
  | ChordCycleArrayAutomation (count : Int) (chords : List (List Int))

/-- Modelled from the spec: the sequence node constructors, declared in a source file
that is absent; one constructor per call made by the definition compiler. -/
inductive Sequence where
  | Every (n : Nat) (s : Sequence)
  | EuclidianRhythm (pulses over : Int) (duration : Nat) (s : Sequence)
  | PlayNoteEveryAutomation (every duration : Nat) (channel : Int)
      (noteF velocityF : IntAutomation)
  | PlayNotesEveryAutomation (every duration : Nat) (channel : Int)
      (notesF : IntArrayAutomation) (velocityF : IntAutomation)
  | PanningAutomation (channel : Int) (f : IntAutomation)
  | ReverbAutomation (channel : Int) (f : IntAutomation)
  | ReverbTimeAutomation (channel : Int) (f : FloatAutomation)
  | LPF_CutoffAutomation (channel : Int) (f : IntAutomation)
  | TremeloAutomation (channel : Int) (f : IntAutomation)
  | ChannelVolumeAutomation (channel : Int) (f : IntAutomation)
  | GrainSizeAutomation (channel : Int) (f : FloatAutomation)
  | GrainBirthRateAutomation (channel : Int) (f : FloatAutomation)
  | GrainSpreadAutomation (channel : Int) (f : FloatAutomation)
  | GrainSpeedAutomation (channel : Int) (f : FloatAutomation)
  | After (n : Nat) (s : Sequence)
  | Before (n : Nat) (s : Sequence)
  | Offset (n : Nat) (s : Sequence)
  | Combine (children : List Sequence)

/-! ## Channel configuration (package `channels`) -/

/-- Generator configuration of a channel: the result of `Validate()` (an error text,
if any) and the instrument it builds. -/
structure GeneratorDef where
  Validate : Option String
  Generator : Nat

/-- Grain configuration of a channel. -/
structure GrainDef where
  File : String
  Gain : ℚ
  GrainSize : ℚ
  BirthRate : ℚ
  Spread : ℚ
  Speed : ℚ
  Density : Int

/-- Modelled from the spec: the channel configuration record of package `channels`,
whose declaration is absent; the fields are those read by `loadInstruments`. -/
structure ChannelDef where
  Channel : Int
  Generator : Option GeneratorDef
  Instrument : Int
  Tremelo : Int
  Reverb : Int
  LPF_Cutoff : Int
  HPF_Cutoff : Int
  Volume : Int
  Panning : Int
  ReverbFeedback : ℚ
  ReverbTime : Value
  Grain : Option GrainDef

/-- The inlined `channels` part of a sequencer definition. -/
structure ChannelsDef where
  Channels : List ChannelDef

/-! ## Sequencer state -/

/-- The kinds of control message. -/
inductive EventType where
  | RestartSequencer
  | ReloadSequencer
  | ForwardSequencer
  | BackwardSequencer
  | IncreaseBPM
  | DecreaseBPM
  | QuitSequencer
deriving DecidableEq, Repr

/-- A control message; `Type_` is the Go field `Type`. -/
structure SequencerEvent where
  Type_ : EventType
deriving DecidableEq, Repr

/-- The `Sequencer` record. `Inputs` is the content of the buffered channel, oldest
message first. -/
structure Sequencer where
  BPM : ℚ
  Granularity : Int
  Sequences : List Sequence
  Inputs : List SequencerEvent
  Time : Nat
  FromFile : String
  Started : Bool
  InitialChannelSetup : List ChannelDef
  IntRegisters : List Int
  IntArrayRegisters : List (List Int)
  FloatRegisters : List ℚ

/-- Constructor `NewSequencer`. -/
def NewSequencer (bpm : ℚ) (granularity : Int) : Sequencer :=
  { BPM := bpm
    Granularity := granularity
    Sequences := []
    Inputs := []
    Time := 0
    FromFile := ""
    Started := false
    InitialChannelSetup := []
    IntRegisters := List.replicate 128 0
    IntArrayRegisters := List.replicate 128 []
    FloatRegisters := List.replicate 128 0 }

/-! ## Named durations -/

/-- Duration `Whole`: `uint(seq.Granularity) * 4`. -/
def Whole (seq : Sequencer) : Nat := (toUint seq.Granularity * 4) % UINT_SIZE

/-- Duration `Half`: `uint(seq.Granularity) * 2`. -/
def Half (seq : Sequencer) : Nat := (toUint seq.Granularity * 2) % UINT_SIZE

/-- Duration `Quarter`: `uint(seq.Granularity)`. -/
def Quarter (seq : Sequencer) : Nat := toUint seq.Granularity

/-- Duration `Eight`: `uint(seq.Granularity / 2)`; Go integer division truncates towards zero. -/
def Eight (seq : Sequencer) : Nat := toUint (Int.tdiv seq.Granularity 2)

/-- Duration `Sixteenth`: `uint(seq.Granularity / 4)`. -/
def Sixteenth (seq : Sequencer) : Nat := toUint (Int.tdiv seq.Granularity 4)

/-- Duration `Thirtysecond`: `uint(seq.Granularity / 8)`. -/
def Thirtysecond (seq : Sequencer) : Nat := toUint (Int.tdiv seq.Granularity 8)

/-! ## Errors and durations -/

/-- Function `WrapError(in, err)`: the text `in > err`. -/
def WrapError (tag : String) (err : String) : String := tag ++ " > " ++ err

/-- Text of the error returned by `parseDuration`. -/
def unknownDuration (d : Value) : String := "Unknown duration type '" ++ d.format ++ "'"

/-- Function `parseDuration(d, seq)`: a type switch on the value. A string that is none of the
six names leaves the switch and reaches the final error. -/
def parseDuration (d : Value) (seq : Sequencer) : Except String Nat :=
  match d with
  | .str v =>
    if v = "Whole" then .ok (Whole seq)
    else if v = "Half" then .ok (Half seq)
    else if v = "Quarter" then .ok (Quarter seq)
    else if v = "Eight" then .ok (Eight seq)
    else if v = "Sixteenth" then .ok (Sixteenth seq)
    else if v = "Thirtysecond" then .ok (Thirtysecond seq)
    else .error (unknownDuration d)
  | .int n => .ok (toUint (wrapInt (n * seq.Granularity)))
  | .float x =>
    .ok (floatToUint
      ((roundFloat64 (seq.Granularity : ℚ)).bind fun granularity => float64Mul x granularity))
  | .other _ => .error (unknownDuration d)

/-! ## Definition records -/

/-- Record `RangeDef`. -/
structure RangeDef where
  From : Int
  To : Int
  ChangeEvery : Int

/-- Record `AutomationDef`: each field is a pointer, `none` when the document does not
name the variant. -/
structure AutomationDef where
  BackAndForth : Option (List Int)
  Cycle : Option (List Int)
  Range : Option RangeDef
  Sweep : Option RangeDef
  FadeIn : Option RangeDef

/-- Method `AutomationDef.GetAutomation`. -/
def AutomationDef.GetAutomation (a : AutomationDef) : Except String IntAutomation :=
  match a.BackAndForth with
  | some l => .ok (IntAutomation.IntBackAndForthAutomation l)
  | none =>
  match a.Cycle with
  | some l => .ok (IntAutomation.IntCycleAutomation l)
  | none =>
  match a.Range with
  | some r => .ok (IntAutomation.IntRangeAutomation r.From r.To)
  | none =>
  match a.Sweep with
  | some r => .ok (IntAutomation.IntSweepAutomation r.From r.To r.ChangeEvery)
  | none =>
  match a.FadeIn with
  | some r => .ok (IntAutomation.IntFadeInAutomation r.From r.To r.ChangeEvery)
  | none => .error "Missing automation"

/-- Record `FloatAutomationDef`. -/
structure FloatAutomationDef where
  BackAndForth : Option (List ℚ)

/-- Method `FloatAutomationDef.GetAutomation`. -/
def FloatAutomationDef.GetAutomation (a : FloatAutomationDef) : Except String FloatAutomation :=
  match a.BackAndForth with
  | some l => .ok (FloatAutomation.FloatBackAndForthAutomation l)
  | none => .error "Missing automation"

/-- Record `CycleChordsDef`. -/
structure CycleChordsDef where
  Count : Int
  Chords : List (List Int)

/-- Method `CycleChordsDef.GetAutomation`. -/
def CycleChordsDef.GetAutomation (c : CycleChordsDef) (_seq : Sequencer) :
    Except String IntArrayAutomation :=
  .ok (IntArrayAutomation.ChordCycleArrayAutomation c.Count c.Chords)

/-- Record `ArrayAutomationDef`. -/
structure ArrayAutomationDef where
  CycleChords : Option CycleChordsDef

/-- Method `ArrayAutomationDef.GetAutomation`. -/
def ArrayAutomationDef.GetAutomation (a : ArrayAutomationDef) (seq : Sequencer) :
    Except String IntArrayAutomation :=
  match a.CycleChords with
  | some c => c.GetAutomation seq
  | none => .error "Missing array automation"

/-- Record `PlayNoteEveryDef` (schema tag `play_note`). An absent integer field has
the zero value 0. -/
structure PlayNoteEveryDef where
  Note : Int
  NoteAutomation : Option AutomationDef
  Channel : Int
  Velocity : Int
  VelocityAutomation : Option AutomationDef
  Duration : Value
  Every : Value

/-- Method `PlayNoteEveryDef.GetSequence`. -/
def PlayNoteEveryDef.GetSequence (e : PlayNoteEveryDef) (seq : Sequencer) :
    Except String Sequence :=
  match parseDuration e.Every seq with
  | .error err => .error (WrapError "play_note" err)
  | .ok every =>
  match parseDuration e.Duration seq with
  | .error err => .error (WrapError "play_note" err)
  | .ok duration =>
  let noteF0 := IntAutomation.IntIdAutomation e.Note
  let noteR : Except String IntAutomation :=
    match e.NoteAutomation with
    | some a =>
      match a.GetAutomation with
      | .error err => .error (WrapError "play_note > auto_note" err)
      | .ok noteF_ => .ok noteF_
    | none => .ok noteF0
  match noteR with
  | .error err => .error err
  | .ok noteF =>
  if e.NoteAutomation.isNone ∧ e.Note = 0 then
    .error (WrapError "play_note" "missing note or auto_note")
  else
  let velocityF0 := IntAutomation.IntIdAutomation e.Velocity
  let velocityR : Except String IntAutomation :=
    match e.VelocityAutomation with
    | some a =>
      match a.GetAutomation with
      | .error err => .error (WrapError "play_note > auto_velocity" err)
      | .ok velocityF_ => .ok velocityF_
    | none => .ok velocityF0
  match velocityR with
  | .error err => .error err
  | .ok velocityF =>
  if e.VelocityAutomation.isNone ∧ e.Velocity = 0 then
    .error (WrapError "play_note" "missing velocity or auto_velocity")
  else
    .ok (Sequence.PlayNoteEveryAutomation every duration e.Channel noteF velocityF)

/-- Record `PlayNotesEveryDef` (schema tag `play_notes`). -/
structure PlayNotesEveryDef where
  Notes : List Int
  NotesAutomation : Option ArrayAutomationDef
  Channel : Int
  Velocity : Int
  VelocityAutomation : Option AutomationDef
  Duration : Value
  Every : Value

/-- Method `PlayNotesEveryDef.GetSequence`. The tag written in front of a failing
`auto_velocity` is the source text `play_note > auto_velocity`. -/
def PlayNotesEveryDef.GetSequence (e : PlayNotesEveryDef) (seq : Sequencer) :
    Except String Sequence :=
  match parseDuration e.Every seq with
  | .error err => .error (WrapError "play_notes" err)
  | .ok every =>
  match parseDuration e.Duration seq with
  | .error err => .error (WrapError "play_notes" err)
  | .ok duration =>
  let notesF0 := IntArrayAutomation.IntArrayIdAutomation e.Notes
  let notesR : Except String IntArrayAutomation :=
    match e.NotesAutomation with
    | some a =>
      match a.GetAutomation seq with
      | .error err => .error (WrapError "play_notes > auto_notes" err)
      | .ok notesF_ => .ok notesF_
    | none => .ok notesF0
  match notesR with
  | .error err => .error err
  | .ok notesF =>
  let velocityF0 := IntAutomation.IntIdAutomation e.Velocity
  let velocityR : Except String IntAutomation :=
    match e.VelocityAutomation with
    | some a =>
      match a.GetAutomation with
      | .error err => .error (WrapError "play_note > auto_velocity" err)
      | .ok velocityF_ => .ok velocityF_
    | none => .ok velocityF0
  match velocityR with
  | .error err => .error err
  | .ok velocityF =>
    .ok (Sequence.PlayNotesEveryAutomation every duration e.Channel notesF velocityF)

/-- Record `ChannelAutomationDef`: a channel and an inlined `AutomationDef`. -/
structure ChannelAutomationDef where
  Channel : Int
  Automation : AutomationDef

/-- Method `ChannelAutomationDef.GetSequence`; `automation` is the node constructor
handed in by the caller. -/
def ChannelAutomationDef.GetSequence (p : ChannelAutomationDef) (_seq : Sequencer)
    (automation : Int → IntAutomation → Sequence) : Except String Sequence :=
  match p.Automation.GetAutomation with
  | .error err => .error err
  | .ok automationF => .ok (automation p.Channel automationF)

/-- Record `FloatChannelAutomationDef`. -/
structure FloatChannelAutomationDef where
  Channel : Int
  Automation : FloatAutomationDef

/-- Method `FloatChannelAutomationDef.GetSequence`. -/
def FloatChannelAutomationDef.GetSequence (p : FloatChannelAutomationDef) (_seq : Sequencer)
    (automation : Int → FloatAutomation → Sequence) : Except String Sequence :=
  match p.Automation.GetAutomation with
  | .error err => .error err
  | .ok automationF => .ok (automation p.Channel automationF)

/-! ## The recursive definition records

`SequenceDef` and the records that contain a `SequenceDef` are declared together.
`RepeatDef.Sequence` and `EuclidianDef.Sequence` are pointers (`Option`), the
`Sequence` field of `AfterDef`, `BeforeDef` and `OffsetDef` is a record value, and
`SequenceDef.Combine` is a slice of pointers (`none` when the slice is `nil`). -/

mutual
/-- Record `RepeatDef` (schema tag `repeat`). -/
inductive RepeatDef where
  | mk (Every : Value) (Sequence : Option SequenceDef)
/-- Record `EuclidianDef` (schema tag `euclidian`). -/
inductive EuclidianDef where
  | mk (Pulses : Int) (Over : Int) (Duration : Value) (Sequence : Option SequenceDef)
/-- Record `AfterDef` (schema tag `after`). -/
inductive AfterDef where
  | mk (After : Value) (Sequence : SequenceDef)
/-- Record `BeforeDef` (schema tag `before`). -/
inductive BeforeDef where
  | mk (Before : Value) (Sequence : SequenceDef)
/-- Record `OffsetDef` (schema tag `offset`). -/
inductive OffsetDef where
  | mk (Offset : Value) (Sequence : SequenceDef)
/-- Record `SequenceDef`: one optional field per variant, in declaration order. -/
inductive SequenceDef where
  | mk (Every : Option RepeatDef)
       (Euclidian : Option EuclidianDef)
       (PlayNoteEvery : Option PlayNoteEveryDef)
       (PlayNotesEvery : Option PlayNotesEveryDef)
       (Panning : Option ChannelAutomationDef)
       (Reverb : Option ChannelAutomationDef)
       (ReverbTime : Option FloatChannelAutomationDef)
       (Tremelo : Option ChannelAutomationDef)
       (LPF_Cutoff : Option ChannelAutomationDef)
       (Volume : Option ChannelAutomationDef)
       (GrainSize : Option FloatChannelAutomationDef)
       (GrainBirthRate : Option FloatChannelAutomationDef)
       (GrainSpread : Option FloatChannelAutomationDef)
       (GrainSpeed : Option FloatChannelAutomationDef)
       (After : Option AfterDef)
       (Before : Option BeforeDef)
       (Offset : Option OffsetDef)
       (Combine : Option (List (Option SequenceDef)))
end

/-- Compile a channel automation variant and wrap its error with the variant tag. -/
def wrapTagged (tag : String) (r : Except String Sequence) : Except String Sequence :=
  match r with
  | .error err => .error (WrapError tag err)
  | .ok s => .ok s

mutual
/-- Method `RepeatDef.GetSequence`. -/
def RepeatDef.GetSequence (seq : Sequencer) : RepeatDef → Except String Sequence
  | .mk every body =>
    match parseDuration every seq with
    | .error err => .error (WrapError "repeat" err)
    | .ok duration =>
    match SequenceDef.GetSequencePtr seq body with
    | .error err => .error (WrapError "repeat" err)
    | .ok s => .ok (Sequence.Every duration s)
/-- Method `EuclidianDef.GetSequence`: the body is compiled before the duration is
parsed. -/
def EuclidianDef.GetSequence (seq : Sequencer) : EuclidianDef → Except String Sequence
  | .mk pulses over dur body =>
    match SequenceDef.GetSequencePtr seq body with
    | .error err => .error (WrapError "euclidian" err)
    | .ok s =>
    match parseDuration dur seq with
    | .error err => .error (WrapError "euclidian" err)
    | .ok duration => .ok (Sequence.EuclidianRhythm pulses over duration s)
/-- Method `AfterDef.GetSequence`. -/
def AfterDef.GetSequence (seq : Sequencer) : AfterDef → Except String Sequence
  | .mk after body =>
    match parseDuration after seq with
    | .error err => .error (WrapError "after" err)
    | .ok duration =>
    match SequenceDef.GetSequence seq body with
    | .error err => .error (WrapError "after" err)
    | .ok s => .ok (Sequence.After duration s)
/-- Method `BeforeDef.GetSequence`. -/
def BeforeDef.GetSequence (seq : Sequencer) : BeforeDef → Except String Sequence
  | .mk before body =>
    match parseDuration before seq with
    | .error err => .error (WrapError "before" err)
    | .ok duration =>
    match SequenceDef.GetSequence seq body with
    | .error err => .error (WrapError "before" err)
    | .ok s => .ok (Sequence.Before duration s)
/-- Method `OffsetDef.GetSequence`. -/
def OffsetDef.GetSequence (seq : Sequencer) : OffsetDef → Except String Sequence
  | .mk offset body =>
    match parseDuration offset seq with
    | .error err => .error (WrapError "offset" err)
    | .ok duration =>
    match SequenceDef.GetSequence seq body with
    | .error err => .error (WrapError "offset" err)
    | .ok s => .ok (Sequence.Offset duration s)
/-- Method `SequenceDef.GetSequence` called through a pointer: the `e == nil` test
comes first. -/
def SequenceDef.GetSequencePtr (seq : Sequencer) : Option SequenceDef → Except String Sequence
  | none => .error "Missing sequence"
  | some e => SequenceDef.GetSequence seq e
/-- Method `SequenceDef.GetSequence` on a record that exists: the first variant field
that is set, in the order of the `if ... else if` chain, is compiled. -/
def SequenceDef.GetSequence (seq : Sequencer) : SequenceDef → Except String Sequence
  | .mk every euclidian playNoteEvery playNotesEvery panning reverb reverbTime tremelo
      lpfCutoff volume grainSize grainBirthRate grainSpread grainSpeed after before
      offset combine =>
    match every with
    | some d => RepeatDef.GetSequence seq d
    | none =>
    match euclidian with
    | some d => EuclidianDef.GetSequence seq d
    | none =>
    match playNoteEvery with
    | some d => d.GetSequence seq
    | none =>
    match playNotesEvery with
    | some d => d.GetSequence seq
    | none =>
    match panning with
    | some d => wrapTagged "panning" (d.GetSequence seq Sequence.PanningAutomation)
    | none =>
    match reverb with
    | some d => wrapTagged "reverb" (d.GetSequence seq Sequence.ReverbAutomation)
    | none =>
    match reverbTime with
    | some d => wrapTagged "reverb_time" (d.GetSequence seq Sequence.ReverbTimeAutomation)
    | none =>
    match lpfCutoff with
    | some d => wrapTagged "lpf_cutoff" (d.GetSequence seq Sequence.LPF_CutoffAutomation)
    | none =>
    match tremelo with
    | some d => wrapTagged "tremelo" (d.GetSequence seq Sequence.TremeloAutomation)
    | none =>
    match volume with
    | some d => wrapTagged "volume" (d.GetSequence seq Sequence.ChannelVolumeAutomation)
    | none =>
    match grainSize with
    | some d => wrapTagged "grain_size" (d.GetSequence seq Sequence.GrainSizeAutomation)
    | none =>
    match grainBirthRate with
    | some d =>
      wrapTagged "grain_birth_rate" (d.GetSequence seq Sequence.GrainBirthRateAutomation)
    | none =>
    match grainSpread with
    | some d => wrapTagged "grain_spread" (d.GetSequence seq Sequence.GrainSpreadAutomation)
    | none =>
    match grainSpeed with
    | some d => wrapTagged "grain_speed" (d.GetSequence seq Sequence.GrainSpeedAutomation)
    | none =>
    match after with
    | some d => AfterDef.GetSequence seq d
    | none =>
    match before with
    | some d => BeforeDef.GetSequence seq d
    | none =>
    match offset with
    | some d => OffsetDef.GetSequence seq d
    | none =>
    match combine with
    | some children =>
      match SequenceDef.combineLoop seq children [] with
      | .error err => .error err
      | .ok sequences => .ok (Sequence.Combine sequences)
    | none => .error (WrapError "sequence" "Missing sequence")
/-- The `for ... range e.Combine` loop of `SequenceDef.GetSequence`: `sequences` is the
slice built so far. -/
def SequenceDef.combineLoop (seq : Sequencer) :
    List (Option SequenceDef) → List Sequence → Except String (List Sequence)
  | [], sequences => .ok sequences
  | s :: rest, sequences =>
    match SequenceDef.GetSequencePtr seq s with
    | .error err => .error (WrapError "combine" err)
    | .ok s_ => SequenceDef.combineLoop seq rest (sequences ++ [s_])
end

/-! ## Sequencer definitions -/

/-- Record `SequencerDef`. -/
structure SequencerDef where
  BPM : ℚ
  Granularity : Int
  Channels : ChannelsDef
  Sequences : List SequenceDef

/-- The `for i, se := range s.Sequences` loop of `SequencerDef.GetSequences`: `i` is the
index of the head of the remaining definitions, `sequences` the slice built so far. -/
def SequencerDef.getSequencesLoop (seq : Sequencer) :
    List SequenceDef → Nat → List Sequence → Except String (List Sequence)
  | [], _, sequences => .ok sequences
  | se :: rest, i, sequences =>
    match se.GetSequence seq with
    | .error err => .error (WrapError ("sequence [" ++ toString i ++ "]") err)
    | .ok sequence => SequencerDef.getSequencesLoop seq rest (i + 1) (sequences ++ [sequence])

/-- Method `SequencerDef.GetSequences`. -/
def SequencerDef.GetSequences (s : SequencerDef) (seq : Sequencer) :
    Except String (List Sequence) :=
  SequencerDef.getSequencesLoop seq s.Sequences 0 []

/-- The two library calls made by `NewSequencerDefFromFile`: reading a file
(`ioutil.ReadFile`) and decoding its contents (`yaml.Unmarshal`). -/
structure FileSystem where
  ReadFile : String → Except String String
  Unmarshal : String → Except String SequencerDef

/-- Function `NewSequencerDefFromFile`. -/
def NewSequencerDefFromFile (fs : FileSystem) (file : String) : Except String SequencerDef :=
  match fs.ReadFile file with
  | .error err => .error err
  | .ok contents =>
  match fs.Unmarshal contents with
  | .error err => .error err
  | .ok result =>
  if result.Sequences.length = 0 then
    .error ("No sequences in sequencer def " ++ file)
  else
    .ok result

/-- Function `NewSequencerFromFile`. -/
def NewSequencerFromFile (fs : FileSystem) (file : String) : Except String Sequencer :=
  match NewSequencerDefFromFile fs file with
  | .error err => .error (WrapError "sequencer" err)
  | .ok s =>
  let seq := NewSequencer s.BPM s.Granularity
  match s.GetSequences seq with
  | .error err => .error (WrapError "sequencer" err)
  | .ok seqs =>
    .ok { seq with Sequences := seqs, InitialChannelSetup := s.Channels.Channels,
                   FromFile := file }

/-! ## Control messages -/

/-- Method `Sequencer.dispatchEvent`: the state after the message has been processed. -/
def Sequencer.dispatchEvent (fs : FileSystem) (seq : Sequencer) (ev : SequencerEvent) :
    Sequencer :=
  if ev.Type_ = EventType.RestartSequencer then
    { seq with Time := 0 }
  else if ev.Type_ = EventType.ReloadSequencer then
    let seq1 := { seq with Time := 0 }
    if seq1.FromFile ≠ "" then
      match NewSequencerDefFromFile fs seq1.FromFile with
      | .error _ => seq1
      | .ok s =>
        let seq2 := { seq1 with BPM := s.BPM, Granularity := s.Granularity,
                                InitialChannelSetup := s.Channels.Channels }
        match s.GetSequences seq2 with
        | .error _ => seq2
        | .ok seqs => { seq2 with Sequences := seqs }
    else seq1
  else if ev.Type_ = EventType.ForwardSequencer then
    { seq with Time := (seq.Time + (toUint seq.Granularity * 16) % UINT_SIZE) % UINT_SIZE }
  else if ev.Type_ = EventType.BackwardSequencer then
    if seq.Time < (toUint seq.Granularity * 16) % UINT_SIZE then
      { seq with Time := 0 }
    else
      { seq with
        Time := (seq.Time + UINT_SIZE - (toUint seq.Granularity * 16) % UINT_SIZE) % UINT_SIZE }
  else if ev.Type_ = EventType.IncreaseBPM then
    { seq with BPM := seq.BPM + 10 }
  else if ev.Type_ = EventType.DecreaseBPM then
    let bpm := seq.BPM - 10
    if bpm ≤ 0 then { seq with BPM := 1 } else { seq with BPM := bpm }
  else if ev.Type_ = EventType.QuitSequencer then
    { seq with Time := 0 }
  else seq

/-! ## Concrete inputs used by the examples -/

/-- An `AutomationDef` that names no variant. -/
def AutomationDef.empty : AutomationDef :=
  { BackAndForth := none, Cycle := none, Range := none, Sweep := none, FadeIn := none }

/-- A `SequenceDef` with no variant field set. -/
def SequenceDef.empty : SequenceDef :=
  .mk none none none none none none none none none none none none none none none none none none

/-- The `play_note` of the end-to-end scenario: note 60, velocity 100, channel 0,
duration `Eight`, every `Quarter`. -/
def examplePlayNote : PlayNoteEveryDef :=
  { Note := 60, NoteAutomation := none, Channel := 0, Velocity := 100,
    VelocityAutomation := none, Duration := .str "Eight", Every := .str "Quarter" }

/-- A `SequenceDef` whose only set field is `play_note`. -/
def SequenceDef.ofPlayNote (p : PlayNoteEveryDef) : SequenceDef :=
  .mk none none (some p) none none none none none none none none none none none none none
    none none

/-- A sequencer state loaded from `song.yaml`: bpm 120, granularity 8, at tick 7, with
one compiled top-level sequence. -/
def exampleState : Sequencer :=
  { NewSequencer 120 8 with
    Time := 7
    FromFile := "song.yaml"
    Sequences := [Sequence.PlayNoteEveryAutomation 8 4 0
      (IntAutomation.IntIdAutomation 60) (IntAutomation.IntIdAutomation 100)] }

/-- A file system on which every read fails. -/
def unreadableFs : FileSystem :=
  { ReadFile := fun _ => .error "open song.yaml: no such file or directory"
    Unmarshal := fun _ => .error "unreachable" }

/-- A document with bpm 90 and granularity 16 whose only sequence sets no variant. -/
def brokenDocument : SequencerDef :=
  { BPM := 90, Granularity := 16, Channels := { Channels := [] },
    Sequences := [SequenceDef.empty] }

/-- A file system on which `song.yaml` decodes to `brokenDocument`. -/
def brokenDocumentFs : FileSystem :=
  { ReadFile := fun _ => .ok "bpm: 90"
    Unmarshal := fun _ => .ok brokenDocument }

/-! ## The variant of a definition that is compiled -/

/-- The variant that `SequenceDef.GetSequence` compiles, named by its schema tag;
`missing` when no variant field is set. -/
inductive Selected where
  | repeat_ (d : RepeatDef)
  | euclidian (d : EuclidianDef)
  | play_note (d : PlayNoteEveryDef)
  | play_notes (d : PlayNotesEveryDef)
  | panning (d : ChannelAutomationDef)
  | reverb (d : ChannelAutomationDef)
  | reverb_time (d : FloatChannelAutomationDef)
  | lpf_cutoff (d : ChannelAutomationDef)
  | tremelo (d : ChannelAutomationDef)
  | volume (d : ChannelAutomationDef)
  | grain_size (d : FloatChannelAutomationDef)
  | grain_birth_rate (d : FloatChannelAutomationDef)
  | grain_spread (d : FloatChannelAutomationDef)
  | grain_speed (d : FloatChannelAutomationDef)
  | after (d : AfterDef)
  | before (d : BeforeDef)
  | offset (d : OffsetDef)
  | combine (children : List (Option SequenceDef))
  | missing

/-- The first variant field of a definition that is set, in the order in which
`SequenceDef.GetSequence` tests the fields (`lpf_cutoff` is tested before `tremelo`). -/
def SequenceDef.selected : SequenceDef → Selected
  | .mk (some d) _ _ _ _ _ _ _ _ _ _ _ _ _ _ _ _ _ => .repeat_ d
  | .mk none (some d) _ _ _ _ _ _ _ _ _ _ _ _ _ _ _ _ => .euclidian d
  | .mk none none (some d) _ _ _ _ _ _ _ _ _ _ _ _ _ _ _ => .play_note d
  | .mk none none none (some d) _ _ _ _ _ _ _ _ _ _ _ _ _ _ => .play_notes d
  | .mk none none none none (some d) _ _ _ _ _ _ _ _ _ _ _ _ _ => .panning d
  | .mk none none none none none (some d) _ _ _ _ _ _ _ _ _ _ _ _ => .reverb d
  | .mk none none none none none none (some d) _ _ _ _ _ _ _ _ _ _ _ => .reverb_time d
  | .mk none none none none none none none _ (some d) _ _ _ _ _ _ _ _ _ => .lpf_cutoff d
  | .mk none none none none none none none (some d) none _ _ _ _ _ _ _ _ _ => .tremelo d
  | .mk none none none none none none none none none (some d) _ _ _ _ _ _ _ _ => .volume d
  | .mk none none none none none none none none none none (some d) _ _ _ _ _ _ _ =>
    .grain_size d
  | .mk none none none none none none none none none none none (some d) _ _ _ _ _ _ =>
    .grain_birth_rate d
  | .mk none none none none none none none none none none none none (some d) _ _ _ _ _ =>
    .grain_spread d
  | .mk none none none none none none none none none none none none none (some d) _ _ _ _ =>
    .grain_speed d
  | .mk none none none none none none none none none none none none none none (some d) _ _ _ =>
    .after d
  | .mk none none none none none none none none none none none none none none none (some d)
      _ _ => .before d
  | .mk none none none none none none none none none none none none none none none none
      (some d) _ => .offset d
  | .mk none none none none none none none none none none none none none none none none
      none (some l) => .combine l
  | .mk none none none none none none none none none none none none none none none none
      none none => .missing

/-- One if the pointer is set, zero if it is `nil`. -/
def isSet {α : Type} (o : Option α) : Nat := if o.isSome then 1 else 0

/-- The number of variant fields of a definition that are set. -/
def SequenceDef.setCount : SequenceDef → Nat
  | .mk every euclidian playNoteEvery playNotesEvery panning reverb reverbTime tremelo
      lpfCutoff volume grainSize grainBirthRate grainSpread grainSpeed after before
      offset combine =>
    isSet every + isSet euclidian + isSet playNoteEvery + isSet playNotesEvery
      + isSet panning + isSet reverb + isSet reverbTime + isSet tremelo + isSet lpfCutoff
      + isSet volume + isSet grainSize + isSet grainBirthRate + isSet grainSpread
      + isSet grainSpeed + isSet after + isSet before + isSet offset + isSet combine

/-- A `play_note` definition (the scenario's) that also sets `volume`. -/
def twoVariants : SequenceDef :=
  .mk none none (some examplePlayNote) none none none none none none
    (some { Channel := 0, Automation := { AutomationDef.empty with Cycle := some [64, 127] } })
    none none none none none none none none

/-! ## Breadcrumbs of compile errors -/

/-- The breadcrumb text of a failure: the tags in order, each followed by ` > `, and
then the failure description. -/
def breadcrumb : List String → String → String
  | [], desc => desc
  | tag :: tags, desc => tag ++ " > " ++ breadcrumb tags desc

/-- Tag and record of the selected variant when it is an integer channel parameter. -/
def Selected.intParameter : Selected → Option (String × ChannelAutomationDef)
  | .panning p => some ("panning", p)
  | .reverb p => some ("reverb", p)
  | .lpf_cutoff p => some ("lpf_cutoff", p)
  | .tremelo p => some ("tremelo", p)
  | .volume p => some ("volume", p)
  | _ => none

/-- Tag and record of the selected variant when it is a float channel parameter. -/
def Selected.floatParameter : Selected → Option (String × FloatChannelAutomationDef)
  | .reverb_time p => some ("reverb_time", p)
  | .grain_size p => some ("grain_size", p)
  | .grain_birth_rate p => some ("grain_birth_rate", p)
  | .grain_spread p => some ("grain_spread", p)
  | .grain_speed p => some ("grain_speed", p)
  | _ => none

/-- The relation `FailsAt seq d tags desc`: `tags` are the schema tags of the nodes on a
path from the definition `d` down to a place whose compilation fails, root first, and
`desc` is the description of that failure. A definition with no variant set has the tag
`sequence`; a missing (nil) body or child fails at its parent. The `auto_velocity` of a
`play_notes` node is not among the places described. -/
inductive FailsAt (seq : Sequencer) : SequenceDef → List String → String → Prop
  | missing {d : SequenceDef} (h : d.selected = .missing) :
      FailsAt seq d ["sequence"] "Missing sequence"
  | repeat_every {d : SequenceDef} {every : Value} {body : Option SequenceDef} {desc : String}
      (h : d.selected = .repeat_ (.mk every body))
      (herr : parseDuration every seq = .error desc) : FailsAt seq d ["repeat"] desc
  | repeat_nil {d : SequenceDef} {every : Value}
      (h : d.selected = .repeat_ (.mk every none)) :
      FailsAt seq d ["repeat"] "Missing sequence"
  | repeat_body {d : SequenceDef} {every : Value} {body : SequenceDef} {tags : List String}
      {desc : String} (h : d.selected = .repeat_ (.mk every (some body)))
      (hb : FailsAt seq body tags desc) : FailsAt seq d ("repeat" :: tags) desc
  | euclidian_duration {d : SequenceDef} {pulses over : Int} {dur : Value}
      {body : Option SequenceDef} {desc : String}
      (h : d.selected = .euclidian (.mk pulses over dur body))
      (herr : parseDuration dur seq = .error desc) : FailsAt seq d ["euclidian"] desc
  | euclidian_nil {d : SequenceDef} {pulses over : Int} {dur : Value}
      (h : d.selected = .euclidian (.mk pulses over dur none)) :
      FailsAt seq d ["euclidian"] "Missing sequence"
  | euclidian_body {d : SequenceDef} {pulses over : Int} {dur : Value} {body : SequenceDef}
      {tags : List String} {desc : String}
      (h : d.selected = .euclidian (.mk pulses over dur (some body)))
      (hb : FailsAt seq body tags desc) : FailsAt seq d ("euclidian" :: tags) desc
  | play_note_every {d : SequenceDef} {p : PlayNoteEveryDef} {desc : String}
      (h : d.selected = .play_note p)
      (herr : parseDuration p.Every seq = .error desc) : FailsAt seq d ["play_note"] desc
  | play_note_duration {d : SequenceDef} {p : PlayNoteEveryDef} {desc : String}
      (h : d.selected = .play_note p)
      (herr : parseDuration p.Duration seq = .error desc) : FailsAt seq d ["play_note"] desc
  | play_note_auto_note {d : SequenceDef} {p : PlayNoteEveryDef} {a : AutomationDef}
      {desc : String} (h : d.selected = .play_note p) (ha : p.NoteAutomation = some a)
      (herr : a.GetAutomation = .error desc) : FailsAt seq d ["play_note", "auto_note"] desc
  | play_note_note {d : SequenceDef} {p : PlayNoteEveryDef}
      (h : d.selected = .play_note p) (ha : p.NoteAutomation = none) (hn : p.Note = 0) :
      FailsAt seq d ["play_note"] "missing note or auto_note"
  | play_note_auto_velocity {d : SequenceDef} {p : PlayNoteEveryDef} {a : AutomationDef}
      {desc : String} (h : d.selected = .play_note p) (ha : p.VelocityAutomation = some a)
      (herr : a.GetAutomation = .error desc) :
      FailsAt seq d ["play_note", "auto_velocity"] desc
  | play_note_velocity {d : SequenceDef} {p : PlayNoteEveryDef}
      (h : d.selected = .play_note p) (ha : p.VelocityAutomation = none)
      (hn : p.Velocity = 0) : FailsAt seq d ["play_note"] "missing velocity or auto_velocity"
  | play_notes_every {d : SequenceDef} {p : PlayNotesEveryDef} {desc : String}
      (h : d.selected = .play_notes p)
      (herr : parseDuration p.Every seq = .error desc) : FailsAt seq d ["play_notes"] desc
  | play_notes_duration {d : SequenceDef} {p : PlayNotesEveryDef} {desc : String}
      (h : d.selected = .play_notes p)
      (herr : parseDuration p.Duration seq = .error desc) : FailsAt seq d ["play_notes"] desc
  | play_notes_auto_notes {d : SequenceDef} {p : PlayNotesEveryDef} {a : ArrayAutomationDef}
      {desc : String} (h : d.selected = .play_notes p) (ha : p.NotesAutomation = some a)
      (herr : a.GetAutomation seq = .error desc) :
      FailsAt seq d ["play_notes", "auto_notes"] desc
  | int_parameter {d : SequenceDef} {tag : String} {p : ChannelAutomationDef} {desc : String}
      (h : d.selected.intParameter = some (tag, p))
      (herr : p.Automation.GetAutomation = .error desc) : FailsAt seq d [tag] desc
  | float_parameter {d : SequenceDef} {tag : String} {p : FloatChannelAutomationDef}
      {desc : String} (h : d.selected.floatParameter = some (tag, p))
      (herr : p.Automation.GetAutomation = .error desc) : FailsAt seq d [tag] desc
  | after_duration {d : SequenceDef} {dur : Value} {body : SequenceDef} {desc : String}
      (h : d.selected = .after (.mk dur body))
      (herr : parseDuration dur seq = .error desc) : FailsAt seq d ["after"] desc
  | after_body {d : SequenceDef} {dur : Value} {body : SequenceDef} {tags : List String}
      {desc : String} (h : d.selected = .after (.mk dur body))
      (hb : FailsAt seq body tags desc) : FailsAt seq d ("after" :: tags) desc
  | before_duration {d : SequenceDef} {dur : Value} {body : SequenceDef} {desc : String}
      (h : d.selected = .before (.mk dur body))
      (herr : parseDuration dur seq = .error desc) : FailsAt seq d ["before"] desc
  | before_body {d : SequenceDef} {dur : Value} {body : SequenceDef} {tags : List String}
      {desc : String} (h : d.selected = .before (.mk dur body))
      (hb : FailsAt seq body tags desc) : FailsAt seq d ("before" :: tags) desc
  | offset_duration {d : SequenceDef} {dur : Value} {body : SequenceDef} {desc : String}
      (h : d.selected = .offset (.mk dur body))
      (herr : parseDuration dur seq = .error desc) : FailsAt seq d ["offset"] desc
  | offset_body {d : SequenceDef} {dur : Value} {body : SequenceDef} {tags : List String}
      {desc : String} (h : d.selected = .offset (.mk dur body))
      (hb : FailsAt seq body tags desc) : FailsAt seq d ("offset" :: tags) desc
  | combine_nil {d : SequenceDef} {children : List (Option SequenceDef)}
      (h : d.selected = .combine children) (hm : none ∈ children) :
      FailsAt seq d ["combine"] "Missing sequence"
  | combine_child {d : SequenceDef} {children : List (Option SequenceDef)}
      {child : SequenceDef} {tags : List String} {desc : String}
      (h : d.selected = .combine children) (hm : some child ∈ children)
      (hc : FailsAt seq child tags desc) : FailsAt seq d ("combine" :: tags) desc

/-- The relation `FailsAtAutoVelocity seq d tags desc`: the compilation of `d` stops at
the `auto_velocity` of a `play_notes` node, everything compiled before it having
succeeded. `tags` are the schema tags of the nodes above that `play_notes` node, root
first, and `desc` is the failure description of the automation. -/
inductive FailsAtAutoVelocity (seq : Sequencer) : SequenceDef → List String → String → Prop
  | here {d : SequenceDef} {p : PlayNotesEveryDef} {a : AutomationDef} {every duration : Nat}
      {desc : String} (h : d.selected = .play_notes p)
      (hevery : parseDuration p.Every seq = .ok every)
      (hdur : parseDuration p.Duration seq = .ok duration)
      (hnotes : ∀ n, p.NotesAutomation = some n → ∃ f, n.GetAutomation seq = .ok f)
      (ha : p.VelocityAutomation = some a)
      (herr : a.GetAutomation = .error desc) : FailsAtAutoVelocity seq d [] desc
  | repeat_body {d : SequenceDef} {every : Value} {n : Nat} {body : SequenceDef}
      {tags : List String} {desc : String}
      (h : d.selected = .repeat_ (.mk every (some body)))
      (hevery : parseDuration every seq = .ok n)
      (hb : FailsAtAutoVelocity seq body tags desc) :
      FailsAtAutoVelocity seq d ("repeat" :: tags) desc
  | euclidian_body {d : SequenceDef} {pulses over : Int} {dur : Value} {body : SequenceDef}
      {tags : List String} {desc : String}
      (h : d.selected = .euclidian (.mk pulses over dur (some body)))
      (hb : FailsAtAutoVelocity seq body tags desc) :
      FailsAtAutoVelocity seq d ("euclidian" :: tags) desc
  | after_body {d : SequenceDef} {dur : Value} {n : Nat} {body : SequenceDef}
      {tags : List String} {desc : String}
      (h : d.selected = .after (.mk dur body)) (hdur : parseDuration dur seq = .ok n)
      (hb : FailsAtAutoVelocity seq body tags desc) :
      FailsAtAutoVelocity seq d ("after" :: tags) desc
  | before_body {d : SequenceDef} {dur : Value} {n : Nat} {body : SequenceDef}
      {tags : List String} {desc : String}
      (h : d.selected = .before (.mk dur body)) (hdur : parseDuration dur seq = .ok n)
      (hb : FailsAtAutoVelocity seq body tags desc) :
      FailsAtAutoVelocity seq d ("before" :: tags) desc
  | offset_body {d : SequenceDef} {dur : Value} {n : Nat} {body : SequenceDef}
      {tags : List String} {desc : String}
      (h : d.selected = .offset (.mk dur body)) (hdur : parseDuration dur seq = .ok n)
      (hb : FailsAtAutoVelocity seq body tags desc) :
      FailsAtAutoVelocity seq d ("offset" :: tags) desc
  | combine_child {d : SequenceDef} {pre post : List (Option SequenceDef)}
      {child : SequenceDef} {tags : List String} {desc : String}
      (h : d.selected = .combine (pre ++ some child :: post))
      (hpre : ∀ c ∈ pre, ∃ s, SequenceDef.GetSequencePtr seq c = .ok s)
      (hc : FailsAtAutoVelocity seq child tags desc) :
      FailsAtAutoVelocity seq d ("combine" :: tags) desc

/-- A `play_note` whose `auto_note` names no automation variant. -/
def playNoteBadAutoNote : PlayNoteEveryDef :=
  { examplePlayNote with Note := 0, NoteAutomation := some AutomationDef.empty }

/-- A `combine` of the scenario's `play_note` and of `playNoteBadAutoNote`. -/
def combineBadAutoNote : SequenceDef :=
  .mk none none none none none none none none none none none none none none none none none
    (some [some (SequenceDef.ofPlayNote examplePlayNote),
           some (SequenceDef.ofPlayNote playNoteBadAutoNote)])

/-- A document whose sequences 0, 1 and 2 compile and whose sequence 3 is
`combineBadAutoNote`. -/
def documentBadAutoNote : SequencerDef :=
  { BPM := 120, Granularity := 8, Channels := { Channels := [] },
    Sequences := [SequenceDef.ofPlayNote examplePlayNote, SequenceDef.ofPlayNote examplePlayNote,
      SequenceDef.ofPlayNote examplePlayNote, combineBadAutoNote] }

/-- A `play_notes` definition whose `auto_velocity` names no automation variant. -/
def playNotesBadAutoVelocity : PlayNotesEveryDef :=
  { Notes := [60, 64, 67], NotesAutomation := none, Channel := 0, Velocity := 0,
    VelocityAutomation := some AutomationDef.empty, Duration := .str "Eight",
    Every := .str "Quarter" }

/-- A document whose only sequence is the `play_notes` node `playNotesBadAutoVelocity`. -/
def documentBadAutoVelocity : SequencerDef :=
  { BPM := 120, Granularity := 8, Channels := { Channels := [] },
    Sequences := [.mk none none none (some playNotesBadAutoVelocity) none none none none none
      none none none none none none none none none] }

/-- A document whose sequences 0 and 1 both fail to compile. -/
def documentTwoFailures : SequencerDef :=
  { BPM := 120, Granularity := 8, Channels := { Channels := [] },
    Sequences := [SequenceDef.empty, SequenceDef.ofPlayNote playNoteBadAutoNote] }

/-- A `play_notes` definition whose `every` is no duration and whose `auto_velocity`
names no automation variant. -/
def playNotesBogusEvery : PlayNotesEveryDef :=
  { playNotesBadAutoVelocity with Every := .str "Bogus" }

/-- The definition whose `play_notes` field is `playNotesBogusEvery`. -/
def sequenceBogusEvery : SequenceDef :=
  .mk none none none (some playNotesBogusEvery) none none none none none none none none none
    none none none none none

/-- A document whose only sequence is `sequenceBogusEvery`. -/
def documentBogusEvery : SequencerDef :=
  { BPM := 120, Granularity := 8, Channels := { Channels := [] },
    Sequences := [sequenceBogusEvery] }

/-- A `repeat` of the `play_notes` node `playNotesBadAutoVelocity`. -/
def repeatBadAutoVelocity : SequenceDef :=
  .mk (some (.mk (.str "Whole")
    (some (.mk none none none (some playNotesBadAutoVelocity) none none none none none
      none none none none none none none none none)))) none none none none none none none
    none none none none none none none none none none

/-- A document whose only sequence is `repeatBadAutoVelocity`. -/
def documentRepeatBadAutoVelocity : SequencerDef :=
  { BPM := 120, Granularity := 8, Channels := { Channels := [] },
    Sequences := [repeatBadAutoVelocity] }

/-! ## Synthesizer events (package `synth`) -/

/-- Modelled from the spec: the event types of package `synth`, whose declaration is
absent; the list is the one of the data model. -/
inductive Synth.EventType where
  | SilenceAllChannels
  | NoteOn
  | NoteOff
  | ProgramChange
  | SetInstrument
  | SetTremelo
  | SetReverb
  | SetReverbTime
  | SetReverbFeedback
  | SetLPFCutoff
  | SetHPFCutoff
  | SetChannelVolume
  | SetChannelPanning
  | SetGrain
  | SetGrainGain
  | SetGrainSize
  | SetGrainBirthRate
  | SetGrainSpread
  | SetGrainSpeed
  | SetGrainDensity
deriving DecidableEq, Repr

/-- Modelled from the spec: an event handed to the synthesizer, recorded as the call of
the constructor of package `synth` that builds it (type, channel, payload). -/
inductive Synth.Event where
  | NewEvent (ty : Synth.EventType) (channel : Int) (values : List Int)
  | NewFloatEvent (ty : Synth.EventType) (channel : Int) (values : List ℚ)
  | NewStringEvent (ty : Synth.EventType) (channel : Int) (value : String)
  | NewInstrumentEvent (ty : Synth.EventType) (channel : Int) (instr : Nat)
deriving DecidableEq

/-- The type of an event. -/
def Synth.Event.Type_ : Synth.Event → Synth.EventType
  | .NewEvent ty _ _ => ty
  | .NewFloatEvent ty _ _ => ty
  | .NewStringEvent ty _ _ => ty
  | .NewInstrumentEvent ty _ _ => ty

/-- The channel of an event. -/
def Synth.Event.Channel : Synth.Event → Int
  | .NewEvent _ ch _ => ch
  | .NewFloatEvent _ ch _ => ch
  | .NewStringEvent _ ch _ => ch
  | .NewInstrumentEvent _ ch _ => ch

/-! ## The tick task -/

/-- Modelled from the spec: the two things the tick task calls that are declared in
absent files. `Invoke sequence seq counter t` is the list of events that the compiled
node `sequence` pushes when it is called as `sequence(seq, counter, t, s)`; a node is
referentially transparent with respect to `(seq, t)` except for those events.
`ParseDuration d bpm` is `channels.ParseDuration`, which turns the reverb-time field of
a channel into a time or fails. -/
structure Runtime where
  Invoke : Sequence → Sequencer → Nat → Nat → List Synth.Event
  ParseDuration : Value → ℚ → Except String ℚ

/-- The body of the `for ... range seq.InitialChannelSetup` loop of `loadInstruments`,
for one channel config: `s` is the content of the outbound channel before, the result
its content after. -/
def Sequencer.loadChannel (rt : Runtime) (seq : Sequencer) (channelDef : ChannelDef)
    (s : List Synth.Event) : List Synth.Event :=
  let ch := channelDef.Channel
  let s1 :=
    if ch ≠ 9 then
      match channelDef.Generator with
      | none => s ++ [Synth.Event.NewEvent .ProgramChange ch [channelDef.Instrument]]
      | some generator =>
        match generator.Validate with
        | some _ => s
        | none => s ++ [Synth.Event.NewInstrumentEvent .SetInstrument ch generator.Generator]
    else s
  let s2 := s1 ++ [Synth.Event.NewEvent .SetTremelo ch [channelDef.Tremelo]]
  let s3 := s2 ++ [Synth.Event.NewEvent .SetReverb ch [channelDef.Reverb]]
  let s4 := s3 ++ [Synth.Event.NewEvent .SetLPFCutoff ch [channelDef.LPF_Cutoff]]
  let s5 := s4 ++ [Synth.Event.NewEvent .SetHPFCutoff ch [channelDef.HPF_Cutoff]]
  let s6 := s5 ++ [Synth.Event.NewEvent .SetChannelVolume ch [channelDef.Volume]]
  let s7 := s6 ++ [Synth.Event.NewEvent .SetChannelPanning ch [channelDef.Panning]]
  let s8 := s7 ++ [Synth.Event.NewFloatEvent .SetReverbFeedback ch [channelDef.ReverbFeedback]]
  let s9 :=
    match rt.ParseDuration channelDef.ReverbTime seq.BPM with
    | .ok d => s8 ++ [Synth.Event.NewFloatEvent .SetReverbTime ch [d]]
    | .error _ => s8
  match channelDef.Grain with
  | some g =>
    s9 ++ [Synth.Event.NewStringEvent .SetGrain ch g.File]
       ++ [Synth.Event.NewFloatEvent .SetGrainGain ch [g.Gain]]
       ++ [Synth.Event.NewFloatEvent .SetGrainSize ch [g.GrainSize]]
       ++ [Synth.Event.NewFloatEvent .SetGrainBirthRate ch [g.BirthRate]]
       ++ [Synth.Event.NewFloatEvent .SetGrainSpread ch [g.Spread]]
       ++ [Synth.Event.NewFloatEvent .SetGrainSpeed ch [g.Speed]]
       ++ [Synth.Event.NewEvent .SetGrainDensity ch [g.Density]]
  | none => s9

/-- The loop of `loadInstruments` over the remaining channel configs. -/
def Sequencer.loadInstrumentsLoop (rt : Runtime) (seq : Sequencer) :
    List ChannelDef → List Synth.Event → List Synth.Event
  | [], s => s
  | channelDef :: rest, s =>
    Sequencer.loadInstrumentsLoop rt seq rest (seq.loadChannel rt channelDef s)

/-- Method `Sequencer.loadInstruments`: the content of the outbound channel after the
call, given its content `s` before. -/
def Sequencer.loadInstruments (rt : Runtime) (seq : Sequencer) (s : List Synth.Event) :
    List Synth.Event :=
  Sequencer.loadInstrumentsLoop rt seq seq.InitialChannelSetup s

/-- The `for _, sequence := range seq.Sequences` loop of the tick task: every remaining
top-level sequence is called with `counter = t = seq.Time`. -/
def Sequencer.invokeLoop (rt : Runtime) (seq : Sequencer) :
    List Sequence → List Synth.Event → List Synth.Event
  | [], s => s
  | sequence :: rest, s =>
    Sequencer.invokeLoop rt seq rest (s ++ rt.Invoke sequence seq seq.Time seq.Time)

/-- The first part of one iteration of the loop of `Sequencer.start`, up to and including
`seq.Time += 1`: the new state and the content of the outbound channel. -/
def Sequencer.tick (rt : Runtime) (seq : Sequencer) (s : List Synth.Event) :
    Sequencer × List Synth.Event :=
  let s1 :=
    if seq.Time = 0 then
      seq.loadInstruments rt (s ++ [Synth.Event.NewEvent .SilenceAllChannels 0 []])
    else s
  let s2 := Sequencer.invokeLoop rt seq seq.Sequences s1
  ({ seq with Time := (seq.Time + 1) % UINT_SIZE }, s2)

/-- The `for canRead` loop of `Sequencer.start` on the queue content `q` (oldest message
first): the state after the drain, with the messages left in the queue, and whether the
task has returned. A `QuitSequencer` message is received and makes the task return
without being dispatched; when nothing can be read the loop ends. -/
def Sequencer.drainLoop (fs : FileSystem) :
    List SequencerEvent → Sequencer → Sequencer × Bool
  | [], seq => ({ seq with Inputs := [] }, false)
  | ev :: rest, seq =>
    if ev.Type_ = EventType.QuitSequencer then
      ({ seq with Inputs := rest }, true)
    else
      Sequencer.drainLoop fs rest (seq.dispatchEvent fs ev)

/-- The drain step of one iteration, on the queue held by the state. -/
def Sequencer.drain (fs : FileSystem) (seq : Sequencer) : Sequencer × Bool :=
  Sequencer.drainLoop fs seq.Inputs seq

/-- Go conversion of a `float64` to the 64-bit integer type `time.Duration`: the
fraction is discarded (truncation towards zero). When the truncated value is outside the
range of the type, or the value is not finite, Go leaves the result to the
implementation (it is some 64-bit integer); the value taken here is the smallest one,
-2^63, which the conversion instruction of amd64 produces. -/
def floatToInt64 (x : Option ℚ) : Int :=
  match x with
  | none => -INT_HALF
  | some v =>
    let t : Int := if 0 ≤ v then ⌊v⌋ else ⌈v⌉
    if -INT_HALF ≤ t ∧ t < INT_HALF then t else -INT_HALF

/-- The value `millisecondsPerTick` computed by the tick task, a `time.Duration` in
nanoseconds: two float64 divisions and a float64 multiplication, then the conversion.
A result that is not finite stays so in the operations that follow it. -/
def Sequencer.millisecondsPerTick (seq : Sequencer) : Int :=
  let millisecondsPerBeat : Option ℚ := float64Div 60000 seq.BPM
  floatToInt64
    (millisecondsPerBeat.bind fun b =>
      (roundFloat64 (seq.Granularity : ℚ)).bind fun g =>
        (float64Div b g).bind fun q => float64Mul q 1000000)

/-- The end of one iteration: `none` when the underrun warning is printed, `some d` when
the task sleeps for `d` nanoseconds; `elapsed` is the measured duration of the
iteration. -/
def Sequencer.sleepFor (seq : Sequencer) (elapsed : Int) : Option Int :=
  if elapsed > seq.millisecondsPerTick then none
  else some (wrapInt (seq.millisecondsPerTick - elapsed))

/-- One iteration of the loop of `Sequencer.start` without the sleep: tick, then drain. -/
def Sequencer.iteration (fs : FileSystem) (rt : Runtime) (seq : Sequencer)
    (s : List Synth.Event) : Sequencer × List Synth.Event × Bool :=
  let r := seq.tick rt s
  let d := r.1.drain fs
  (d.1, r.2, d.2)

/-- Method `Sequencer.Start`: the new state and the number of tick tasks spawned by the
call. -/
def Sequencer.Start (seq : Sequencer) : Sequencer × Nat :=
  if seq.Started then (seq, 0)
  else ({ seq with Started := true }, 1)

/-- The state and the total number of tick tasks spawned after `n` consecutive calls of
`Start`, `spawned` tasks having been spawned before. -/
def Sequencer.startCalls : Nat → Sequencer → Nat → Sequencer × Nat
  | 0, seq, spawned => (seq, spawned)
  | n + 1, seq, spawned =>
    Sequencer.startCalls n (seq.Start).1 (spawned + (seq.Start).2)

/-- The first statement of the tick task `Sequencer.start`: `seq.Time = uint(0)`. -/
def Sequencer.startInit (seq : Sequencer) : Sequencer := { seq with Time := 0 }

/-- A document with bpm 90 and granularity 16 whose only sequence is the scenario's
`play_note`. -/
def goodDocument : SequencerDef :=
  { BPM := 90, Granularity := 16, Channels := { Channels := [] },
    Sequences := [SequenceDef.ofPlayNote examplePlayNote] }

/-- A file system on which `song.yaml` decodes to `goodDocument`. -/
def goodDocumentFs : FileSystem :=
  { ReadFile := fun _ => .ok "bpm: 90"
    Unmarshal := fun _ => .ok goodDocument }

/-! ## The channel blocks of the initial setup, as the spec lists them -/

/-- Whether an event assigns an instrument to a channel: `ProgramChange` or
`SetInstrument`. -/
def Synth.Event.isInstrumentAssignment (e : Synth.Event) : Bool :=
  e.Type_ = Synth.EventType.ProgramChange ∨ e.Type_ = Synth.EventType.SetInstrument

/-- The parameter events of a channel config in the order of the spec: `SetTremelo`,
`SetReverb`, `SetLPFCutoff`, `SetHPFCutoff`, `SetChannelVolume`, `SetChannelPanning`,
`SetReverbFeedback`, and `SetReverbTime` when the reverb-time field is valid; each carries
the channel's number and the configured value (for `SetReverbTime`, the parsed time). -/
def parameterEvents (rt : Runtime) (bpm : ℚ) (c : ChannelDef) : List Synth.Event :=
  [ Synth.Event.NewEvent .SetTremelo c.Channel [c.Tremelo],
    Synth.Event.NewEvent .SetReverb c.Channel [c.Reverb],
    Synth.Event.NewEvent .SetLPFCutoff c.Channel [c.LPF_Cutoff],
    Synth.Event.NewEvent .SetHPFCutoff c.Channel [c.HPF_Cutoff],
    Synth.Event.NewEvent .SetChannelVolume c.Channel [c.Volume],
    Synth.Event.NewEvent .SetChannelPanning c.Channel [c.Panning],
    Synth.Event.NewFloatEvent .SetReverbFeedback c.Channel [c.ReverbFeedback] ]
  ++ (match rt.ParseDuration c.ReverbTime bpm with
      | .ok d => [Synth.Event.NewFloatEvent .SetReverbTime c.Channel [d]]
      | .error _ => [])

/-- The grain events of a channel config in the order of the spec, none when the config
has no grain. -/
def grainEvents (c : ChannelDef) : List Synth.Event :=
  match c.Grain with
  | some g =>
    [ Synth.Event.NewStringEvent .SetGrain c.Channel g.File,
      Synth.Event.NewFloatEvent .SetGrainGain c.Channel [g.Gain],
      Synth.Event.NewFloatEvent .SetGrainSize c.Channel [g.GrainSize],
      Synth.Event.NewFloatEvent .SetGrainBirthRate c.Channel [g.BirthRate],
      Synth.Event.NewFloatEvent .SetGrainSpread c.Channel [g.Spread],
      Synth.Event.NewFloatEvent .SetGrainSpeed c.Channel [g.Speed],
      Synth.Event.NewEvent .SetGrainDensity c.Channel [g.Density] ]
  | none => []

/-- A runtime in which a sequence pushes no event and the reverb time is valid exactly
when it is the string "Quarter" (then 0.5 seconds). -/
def exampleRuntime : Runtime :=
  { Invoke := fun _ _ _ _ => []
    ParseDuration := fun d _ =>
      match d with
      | .str "Quarter" => .ok (1 / 2)
      | _ => .error "Unknown duration" }

/-- A channel config on channel 1 with instrument 5, no generator, no grain and an
invalid reverb time. -/
def exampleChannel : ChannelDef :=
  { Channel := 1, Generator := none, Instrument := 5, Tremelo := 1, Reverb := 2,
    LPF_Cutoff := 3, HPF_Cutoff := 4, Volume := 100, Panning := 64, ReverbFeedback := 1 / 4,
    ReverbTime := .other "<nil>", Grain := none }

/-- The document `brokenDocument` with `exampleChannel` as channel setup. -/
def brokenChannelDocument : SequencerDef :=
  { brokenDocument with Channels := { Channels := [exampleChannel] } }

/-- A file system on which `song.yaml` decodes to `brokenChannelDocument`. -/
def brokenChannelDocumentFs : FileSystem :=
  { ReadFile := fun _ => .ok "bpm: 90"
    Unmarshal := fun _ => .ok brokenChannelDocument }

/-- The config `exampleChannel` with a generator that fails validation. -/
def invalidGeneratorChannel : ChannelDef :=
  { exampleChannel with
    Generator := some { Validate := some "unknown generator", Generator := 0 } }

/-- The state `exampleState` at tick 2^64 - 1, the largest value of the counter. -/
def lastTickState : Sequencer := { exampleState with Time := 18446744073709551615 }

/-- The state `exampleState` with a configured channel, after its tick task has run to
tick 8, with a Restart followed by an IncreaseBPM waiting in the queue. -/
def restartQueuedState : Sequencer :=
  { exampleState with
    InitialChannelSetup := [exampleChannel]
    Inputs := [⟨EventType.RestartSequencer⟩, ⟨EventType.IncreaseBPM⟩] }

/-- The state `exampleState` (tick 7, bpm 120) with an IncreaseBPM, a Quit and a Restart
waiting in the queue, in this order. -/
def quitQueuedState : Sequencer :=
  { exampleState with
    Inputs := [⟨EventType.IncreaseBPM⟩, ⟨EventType.QuitSequencer⟩,
      ⟨EventType.RestartSequencer⟩] }

/-- The state `exampleState` with bpm 2^-30 and granularity 1: one beat every
60000 * 2^30 milliseconds. -/
def slowState : Sequencer := { exampleState with BPM := 1 / 1073741824, Granularity := 1 }

/-- The state `exampleState` with bpm 3125 and granularity 24. -/
def roundedState : Sequencer := { exampleState with BPM := 3125, Granularity := 24 }

/-- The state `exampleState` with bpm 120 and granularity 4. -/
def cadenceState : Sequencer := { exampleState with BPM := 120, Granularity := 4 }

/-- A document that does not give a bpm (the field has its zero value 0), with granularity
8 and the scenario's `play_note` as only sequence. -/
def zeroBpmDocument : SequencerDef :=
  { BPM := 0, Granularity := 8, Channels := { Channels := [] },
    Sequences := [SequenceDef.ofPlayNote examplePlayNote] }

/-- A file system on which `song.yaml` decodes to `zeroBpmDocument`. -/
def zeroBpmDocumentFs : FileSystem :=
  { ReadFile := fun _ => .ok "granularity: 8"
    Unmarshal := fun _ => .ok zeroBpmDocument }

/-- Whether an `AutomationDef` names at least one automation variant (`back_and_forth`,
`cycle`, `range`, `sweep` or `fade_in`). -/
def AutomationDef.namesVariant (a : AutomationDef) : Bool :=
  a.BackAndForth.isSome || a.Cycle.isSome || a.Range.isSome || a.Sweep.isSome
    || a.FadeIn.isSome

/-- The scenario's `play_note` with no velocity given (zero value 0) and no
`auto_velocity`. -/
def playNoteNoVelocity : PlayNoteEveryDef := { examplePlayNote with Velocity := 0 }

/-- The scenario's `play_note` with an `auto_note` that cycles through three notes and a
literal velocity. -/
def playNoteCycle : PlayNoteEveryDef :=
  { examplePlayNote with
    Note := 0
    NoteAutomation := some { AutomationDef.empty with Cycle := some [60, 64, 67] } }

/-- The state `restartQueuedState` with a Restart followed by a Forward waiting in the
queue (granularity 8). -/
def restartForwardState : Sequencer :=
  { restartQueuedState with
    Inputs := [⟨EventType.RestartSequencer⟩, ⟨EventType.ForwardSequencer⟩] }

/-- The state `restartQueuedState` with a Restart followed by a Quit waiting in the
queue. -/
def restartQuitState : Sequencer :=
  { restartQueuedState with
    Inputs := [⟨EventType.RestartSequencer⟩, ⟨EventType.QuitSequencer⟩] }

/-! # Theorems -/

/-! ## The compiler reads only the granularity -/

theorem parseDuration_congr (d : Value) (seq seq1 : Sequencer)
    (h : seq.Granularity = seq1.Granularity) : parseDuration d seq = parseDuration d seq1 := by
  cases d <;> simp [parseDuration, Whole, Half, Quarter, Eight, Sixteenth, Thirtysecond, h]

theorem PlayNoteEveryDef_GetSequence_congr (seq seq1 : Sequencer)
    (h : seq.Granularity = seq1.Granularity) (d : PlayNoteEveryDef) :
    d.GetSequence seq = d.GetSequence seq1 := by
  simp only [PlayNoteEveryDef.GetSequence, parseDuration_congr _ seq seq1 h]

theorem PlayNotesEveryDef_GetSequence_congr (seq seq1 : Sequencer)
    (h : seq.Granularity = seq1.Granularity) (d : PlayNotesEveryDef) :
    d.GetSequence seq = d.GetSequence seq1 := by
  simp only [PlayNotesEveryDef.GetSequence, parseDuration_congr _ seq seq1 h,
    ArrayAutomationDef.GetAutomation, CycleChordsDef.GetAutomation]

mutual
theorem RepeatDef_GetSequence_congr (seq seq1 : Sequencer)
    (h : seq.Granularity = seq1.Granularity) :
    ∀ d : RepeatDef, RepeatDef.GetSequence seq d = RepeatDef.GetSequence seq1 d
  | .mk every body => by
    simp only [RepeatDef.GetSequence]
    rw [parseDuration_congr every seq seq1 h, SequenceDef.GetSequencePtr_congr seq seq1 h body]
theorem EuclidianDef_GetSequence_congr (seq seq1 : Sequencer)
    (h : seq.Granularity = seq1.Granularity) :
    ∀ d : EuclidianDef, EuclidianDef.GetSequence seq d = EuclidianDef.GetSequence seq1 d
  | .mk _ _ dur body => by
    simp only [EuclidianDef.GetSequence]
    rw [parseDuration_congr dur seq seq1 h, SequenceDef.GetSequencePtr_congr seq seq1 h body]
theorem AfterDef_GetSequence_congr (seq seq1 : Sequencer)
    (h : seq.Granularity = seq1.Granularity) :
    ∀ d : AfterDef, AfterDef.GetSequence seq d = AfterDef.GetSequence seq1 d
  | .mk dur body => by
    simp only [AfterDef.GetSequence]
    rw [parseDuration_congr dur seq seq1 h, SequenceDef_GetSequence_congr seq seq1 h body]
theorem BeforeDef_GetSequence_congr (seq seq1 : Sequencer)
    (h : seq.Granularity = seq1.Granularity) :
    ∀ d : BeforeDef, BeforeDef.GetSequence seq d = BeforeDef.GetSequence seq1 d
  | .mk dur body => by
    simp only [BeforeDef.GetSequence]
    rw [parseDuration_congr dur seq seq1 h, SequenceDef_GetSequence_congr seq seq1 h body]
theorem OffsetDef_GetSequence_congr (seq seq1 : Sequencer)
    (h : seq.Granularity = seq1.Granularity) :
    ∀ d : OffsetDef, OffsetDef.GetSequence seq d = OffsetDef.GetSequence seq1 d
  | .mk dur body => by
    simp only [OffsetDef.GetSequence]
    rw [parseDuration_congr dur seq seq1 h, SequenceDef_GetSequence_congr seq seq1 h body]
theorem SequenceDef.GetSequencePtr_congr (seq seq1 : Sequencer)
    (h : seq.Granularity = seq1.Granularity) :
    ∀ d : Option SequenceDef, SequenceDef.GetSequencePtr seq d = SequenceDef.GetSequencePtr seq1 d
  | none => by simp only [SequenceDef.GetSequencePtr]
  | some e => by
    simp only [SequenceDef.GetSequencePtr]
    exact SequenceDef_GetSequence_congr seq seq1 h e
theorem SequenceDef_GetSequence_congr (seq seq1 : Sequencer)
    (h : seq.Granularity = seq1.Granularity) :
    ∀ d : SequenceDef, SequenceDef.GetSequence seq d = SequenceDef.GetSequence seq1 d
  | .mk (some d) _ _ _ _ _ _ _ _ _ _ _ _ _ _ _ _ _ => by
    simp only [SequenceDef.GetSequence]
    exact RepeatDef_GetSequence_congr seq seq1 h d
  | .mk none (some d) _ _ _ _ _ _ _ _ _ _ _ _ _ _ _ _ => by
    simp only [SequenceDef.GetSequence]
    exact EuclidianDef_GetSequence_congr seq seq1 h d
  | .mk none none (some d) _ _ _ _ _ _ _ _ _ _ _ _ _ _ _ => by
    simp only [SequenceDef.GetSequence]
    exact PlayNoteEveryDef_GetSequence_congr seq seq1 h d
  | .mk none none none (some d) _ _ _ _ _ _ _ _ _ _ _ _ _ _ => by
    simp only [SequenceDef.GetSequence]
    exact PlayNotesEveryDef_GetSequence_congr seq seq1 h d
  | .mk none none none none (some d) _ _ _ _ _ _ _ _ _ _ _ _ _ => by
    simp only [SequenceDef.GetSequence, ChannelAutomationDef.GetSequence]
  | .mk none none none none none (some d) _ _ _ _ _ _ _ _ _ _ _ _ => by
    simp only [SequenceDef.GetSequence, ChannelAutomationDef.GetSequence]
  | .mk none none none none none none (some d) _ _ _ _ _ _ _ _ _ _ _ => by
    simp only [SequenceDef.GetSequence, FloatChannelAutomationDef.GetSequence]
  | .mk none none none none none none none tremelo (some d) _ _ _ _ _ _ _ _ _ => by
    simp only [SequenceDef.GetSequence, ChannelAutomationDef.GetSequence]
  | .mk none none none none none none none (some d) none _ _ _ _ _ _ _ _ _ => by
    simp only [SequenceDef.GetSequence, ChannelAutomationDef.GetSequence]
  | .mk none none none none none none none none none (some d) _ _ _ _ _ _ _ _ => by
    simp only [SequenceDef.GetSequence, ChannelAutomationDef.GetSequence]
  | .mk none none none none none none none none none none (some d) _ _ _ _ _ _ _ => by
    simp only [SequenceDef.GetSequence, FloatChannelAutomationDef.GetSequence]
  | .mk none none none none none none none none none none none (some d) _ _ _ _ _ _ => by
    simp only [SequenceDef.GetSequence, FloatChannelAutomationDef.GetSequence]
  | .mk none none none none none none none none none none none none (some d) _ _ _ _ _ => by
    simp only [SequenceDef.GetSequence, FloatChannelAutomationDef.GetSequence]
  | .mk none none none none none none none none none none none none none (some d) _ _ _ _ => by
    simp only [SequenceDef.GetSequence, FloatChannelAutomationDef.GetSequence]
  | .mk none none none none none none none none none none none none none none (some d) _ _ _ => by
    simp only [SequenceDef.GetSequence]
    exact AfterDef_GetSequence_congr seq seq1 h d
  | .mk none none none none none none none none none none none none none none none (some d) _ _ => by
    simp only [SequenceDef.GetSequence]
    exact BeforeDef_GetSequence_congr seq seq1 h d
  | .mk none none none none none none none none none none none none none none none none (some d) _ => by
    simp only [SequenceDef.GetSequence]
    exact OffsetDef_GetSequence_congr seq seq1 h d
  | .mk none none none none none none none none none none none none none none none none none (some l) => by
    simp only [SequenceDef.GetSequence]
    rw [SequenceDef.combineLoop_congr seq seq1 h l []]
  | .mk none none none none none none none none none none none none none none none none none none => by
    simp only [SequenceDef.GetSequence]
theorem SequenceDef.combineLoop_congr (seq seq1 : Sequencer)
    (h : seq.Granularity = seq1.Granularity) :
    ∀ (l : List (Option SequenceDef)) (acc : List Sequence),
      SequenceDef.combineLoop seq l acc = SequenceDef.combineLoop seq1 l acc
  | [], acc => by simp only [SequenceDef.combineLoop]
  | s :: rest, acc => by
    simp only [SequenceDef.combineLoop]
    rw [SequenceDef.GetSequencePtr_congr seq seq1 h s]
    cases SequenceDef.GetSequencePtr seq1 s with
    | error e => rfl
    | ok s_ => exact SequenceDef.combineLoop_congr seq seq1 h rest _
end

theorem SequencerDef.getSequencesLoop_congr (seq seq1 : Sequencer)
    (h : seq.Granularity = seq1.Granularity) :
    ∀ (l : List SequenceDef) (i : Nat) (acc : List Sequence),
      SequencerDef.getSequencesLoop seq l i acc = SequencerDef.getSequencesLoop seq1 l i acc
  | [], _, _ => by simp only [SequencerDef.getSequencesLoop]
  | se :: rest, i, acc => by
    simp only [SequencerDef.getSequencesLoop]
    rw [SequenceDef_GetSequence_congr seq seq1 h se]
    cases SequenceDef.GetSequence seq1 se with
    | error e => rfl
    | ok s_ => exact SequencerDef.getSequencesLoop_congr seq seq1 h rest _ _

/-- Compiling a document reads nothing of the sequencer but its granularity. -/
theorem SequencerDef.GetSequences_congr (s : SequencerDef) (seq seq1 : Sequencer)
    (h : seq.Granularity = seq1.Granularity) : s.GetSequences seq = s.GetSequences seq1 :=
  SequencerDef.getSequencesLoop_congr seq seq1 h s.Sequences 0 []

/-! ## Reload failure (C1) -/

/-- C1, counterexample. The state before a failing Reload is not kept whole. On
`exampleState` (tick 7, bpm 120, granularity 8): when the file cannot be read the
Reload leaves time at 0, not 7; when the document decodes but its sequences do not
compile, the Reload leaves bpm 90 and granularity 16, the values of the document, and
the channel setup of the document in place of the empty one. -/
theorem reload_failure_not_intact :
    exampleState.FromFile ≠ "" ∧
    (∃ err, NewSequencerDefFromFile unreadableFs exampleState.FromFile = .error err) ∧
    exampleState.Time = 7 ∧
    (exampleState.dispatchEvent unreadableFs ⟨EventType.ReloadSequencer⟩).Time = 0 ∧
    NewSequencerDefFromFile brokenDocumentFs exampleState.FromFile = .ok brokenDocument ∧
    (∃ err, brokenDocument.GetSequences
        (NewSequencer brokenDocument.BPM brokenDocument.Granularity) = .error err) ∧
    exampleState.BPM = 120 ∧ exampleState.Granularity = 8 ∧
    (exampleState.dispatchEvent brokenDocumentFs ⟨EventType.ReloadSequencer⟩).BPM = 90 ∧
    (exampleState.dispatchEvent brokenDocumentFs ⟨EventType.ReloadSequencer⟩).Granularity
      = 16 ∧
    NewSequencerDefFromFile brokenChannelDocumentFs exampleState.FromFile
      = .ok brokenChannelDocument ∧
    (∃ err, brokenChannelDocument.GetSequences
        (NewSequencer brokenChannelDocument.BPM brokenChannelDocument.Granularity)
          = .error err) ∧
    exampleState.InitialChannelSetup = [] ∧
    (exampleState.dispatchEvent brokenChannelDocumentFs
        ⟨EventType.ReloadSequencer⟩).InitialChannelSetup = [exampleChannel] := by
  refine ⟨by decide, ⟨_, rfl⟩, rfl, rfl, rfl, ⟨_, rfl⟩, rfl, rfl, rfl, rfl, rfl, ⟨_, rfl⟩,
    rfl, rfl⟩

/-- C1, amended. For a state with a source file, a Reload whose re-parse fails changes
nothing but `time`, which becomes 0; a Reload whose document parses but whose sequences
fail to compile (against the document's granularity) sets `time` to 0 and changes no
field other than `time`, `bpm`, `granularity` and the initial channel setup: the
sequences, the source file, `started`, the three register banks and the queue are
unchanged. -/
theorem reload_failure_keeps_sequences (fs : FileSystem) (seq : Sequencer)
    (hfile : seq.FromFile ≠ "") :
    (∀ err, NewSequencerDefFromFile fs seq.FromFile = .error err →
      seq.dispatchEvent fs ⟨EventType.ReloadSequencer⟩ = { seq with Time := 0 }) ∧
    (∀ s err, NewSequencerDefFromFile fs seq.FromFile = .ok s →
      s.GetSequences (NewSequencer s.BPM s.Granularity) = .error err →
      (∃ (bpm : ℚ) (granularity : Int) (setup : List ChannelDef),
        seq.dispatchEvent fs ⟨EventType.ReloadSequencer⟩
          = { seq with Time := 0, BPM := bpm, Granularity := granularity,
                       InitialChannelSetup := setup }) ∧
      (seq.dispatchEvent fs ⟨EventType.ReloadSequencer⟩).Time = 0 ∧
      (seq.dispatchEvent fs ⟨EventType.ReloadSequencer⟩).Sequences = seq.Sequences ∧
      (seq.dispatchEvent fs ⟨EventType.ReloadSequencer⟩).FromFile = seq.FromFile ∧
      (seq.dispatchEvent fs ⟨EventType.ReloadSequencer⟩).Started = seq.Started ∧
      (seq.dispatchEvent fs ⟨EventType.ReloadSequencer⟩).IntRegisters = seq.IntRegisters ∧
      (seq.dispatchEvent fs ⟨EventType.ReloadSequencer⟩).IntArrayRegisters
        = seq.IntArrayRegisters ∧
      (seq.dispatchEvent fs ⟨EventType.ReloadSequencer⟩).FloatRegisters
        = seq.FloatRegisters ∧
      (seq.dispatchEvent fs ⟨EventType.ReloadSequencer⟩).Inputs = seq.Inputs) := by
  constructor
  · intro err hparse
    simp [Sequencer.dispatchEvent, hfile, hparse]
  · intro s err hparse hcompile
    have hc : s.GetSequences
        { seq with Time := 0, BPM := s.BPM, Granularity := s.Granularity,
                   InitialChannelSetup := s.Channels.Channels } = .error err := by
      rw [← hcompile]
      exact SequencerDef.GetSequences_congr s _ _ rfl
    have hstate : seq.dispatchEvent fs ⟨EventType.ReloadSequencer⟩
        = { seq with Time := 0, BPM := s.BPM, Granularity := s.Granularity,
                     InitialChannelSetup := s.Channels.Channels } := by
      simp [Sequencer.dispatchEvent, hfile, hparse, hc]
    refine ⟨⟨s.BPM, s.Granularity, s.Channels.Channels, hstate⟩, ?_⟩
    rw [hstate]
    exact ⟨rfl, rfl, rfl, rfl, rfl, rfl, rfl, rfl⟩

/-- C1, witness: both failure cases of the amended statement at `exampleState`. -/
theorem reload_failure_keeps_sequences_witness :
    exampleState.dispatchEvent unreadableFs ⟨EventType.ReloadSequencer⟩
      = { exampleState with Time := 0 } ∧
    (∃ (bpm : ℚ) (granularity : Int) (setup : List ChannelDef),
      exampleState.dispatchEvent brokenDocumentFs ⟨EventType.ReloadSequencer⟩
        = { exampleState with Time := 0, BPM := bpm, Granularity := granularity,
                              InitialChannelSetup := setup }) ∧
    (exampleState.dispatchEvent brokenDocumentFs ⟨EventType.ReloadSequencer⟩).Sequences
      = exampleState.Sequences :=
  ⟨(reload_failure_keeps_sequences unreadableFs exampleState (by decide)).1 _ rfl,
   ((reload_failure_keeps_sequences brokenDocumentFs exampleState (by decide)).2
      brokenDocument _ rfl rfl).1,
   ((reload_failure_keeps_sequences brokenDocumentFs exampleState (by decide)).2
      brokenDocument _ rfl rfl).2.2.1⟩

/-! ## Tempo and seek messages (C2, C3, C4) -/

/-- C2, counterexample. At bpm 10.5 a DecreaseBPM leaves bpm 0.5, which is below 1 and
is not max(1, 10.5 - 10) = 1. -/
theorem decrease_bpm_below_one :
    (0 : ℚ) < ({ exampleState with BPM := 21 / 2 } : Sequencer).BPM ∧
    (({ exampleState with BPM := 21 / 2 } : Sequencer).dispatchEvent unreadableFs
        ⟨EventType.DecreaseBPM⟩).BPM = 1 / 2 ∧
    (({ exampleState with BPM := 21 / 2 } : Sequencer).dispatchEvent unreadableFs
        ⟨EventType.DecreaseBPM⟩).BPM ≠ max 1 ((21 / 2 : ℚ) - 10) ∧
    (({ exampleState with BPM := 21 / 2 } : Sequencer).dispatchEvent unreadableFs
        ⟨EventType.DecreaseBPM⟩).BPM < 1 := by
  have h : (({ exampleState with BPM := 21 / 2 } : Sequencer).dispatchEvent unreadableFs
        ⟨EventType.DecreaseBPM⟩).BPM = 1 / 2 := by
    simp [Sequencer.dispatchEvent]
    norm_num
  refine ⟨by norm_num, h, ?_, ?_⟩
  · rw [h]; norm_num
  · rw [h]; norm_num

/-- C2, amended. For every bpm (positive or not), DecreaseBPM sets bpm to bpm - 10 when that is
positive and to 1 otherwise; the result is always positive, and it is max(1, bpm - 10)
whenever bpm is at most 10 or at least 11. -/
theorem decrease_bpm_result (fs : FileSystem) (seq : Sequencer) :
    (seq.dispatchEvent fs ⟨EventType.DecreaseBPM⟩).BPM
      = (if seq.BPM - 10 ≤ 0 then 1 else seq.BPM - 10) ∧
    0 < (seq.dispatchEvent fs ⟨EventType.DecreaseBPM⟩).BPM ∧
    (seq.BPM ≤ 10 ∨ 11 ≤ seq.BPM →
      (seq.dispatchEvent fs ⟨EventType.DecreaseBPM⟩).BPM = max 1 (seq.BPM - 10)) := by
  have h : (seq.dispatchEvent fs ⟨EventType.DecreaseBPM⟩).BPM
      = (if seq.BPM - 10 ≤ 0 then 1 else seq.BPM - 10) := by
    simp only [Sequencer.dispatchEvent]
    split_ifs <;> simp_all
  refine ⟨h, ?_, ?_⟩
  · rw [h]; split_ifs with hc
    · norm_num
    · linarith
  · intro hr
    rw [h]; split_ifs with hc
    · rw [max_eq_left]; linarith
    · rcases hr with hr | hr
      · exact absurd (by linarith) hc
      · rw [max_eq_right]; linarith

/-- C3, counterexample. With granularity 2^60 the product `uint(granularity) * 16`
wraps to 0, so Backward at tick 5 leaves the counter at 5, while
max(0, 5 - 16 * 2^60) is 0. -/
theorem backward_wraps_at_large_granularity :
    ({ exampleState with Time := 5, Granularity := 1152921504606846976 } : Sequencer).Time
      < UINT_SIZE ∧
    (0 : Int) <
      ({ exampleState with Time := 5, Granularity := 1152921504606846976 } : Sequencer).Granularity ∧
    (({ exampleState with Time := 5, Granularity := 1152921504606846976 } : Sequencer).dispatchEvent
        unreadableFs ⟨EventType.BackwardSequencer⟩).Time = 5 ∧
    max (0 : Int) (5 - 16 * 1152921504606846976) = 0 := by
  refine ⟨by decide, by decide, ?_, by decide⟩
  decide

/-- C3, amended. For every tick counter value `time` and every positive granularity G
with 16 * G within the unsigned range, Backward sets `time` to max(0, time - 16 * G):
to time - 16 * G when time >= 16 * G and to 0 otherwise; the result is never above the
old value, so the counter does not wrap. -/
theorem backward_time (fs : FileSystem) (seq : Sequencer) (htime : seq.Time < UINT_SIZE)
    (hpos : 0 < seq.Granularity) (hrange : 16 * seq.Granularity < (UINT_SIZE : Int)) :
    (((seq.dispatchEvent fs ⟨EventType.BackwardSequencer⟩).Time : Int)
      = max 0 ((seq.Time : Int) - 16 * seq.Granularity)) ∧
    (16 * seq.Granularity ≤ (seq.Time : Int) →
      ((seq.dispatchEvent fs ⟨EventType.BackwardSequencer⟩).Time : Int)
        = (seq.Time : Int) - 16 * seq.Granularity) ∧
    ((seq.Time : Int) < 16 * seq.Granularity →
      (seq.dispatchEvent fs ⟨EventType.BackwardSequencer⟩).Time = 0) ∧
    (seq.dispatchEvent fs ⟨EventType.BackwardSequencer⟩).Time ≤ seq.Time := by
  have hu : ((toUint seq.Granularity * 16) % UINT_SIZE : Nat) = (16 * seq.Granularity).toNat := by
    unfold toUint UINT_SIZE at *
    omega
  have hT : (seq.dispatchEvent fs ⟨EventType.BackwardSequencer⟩).Time
      = if seq.Time < (16 * seq.Granularity).toNat then 0
        else (seq.Time + UINT_SIZE - (16 * seq.Granularity).toNat) % UINT_SIZE := by
    simp only [Sequencer.dispatchEvent, hu]
    split_ifs <;> simp_all
  rw [hT]
  unfold UINT_SIZE at *
  refine ⟨?_, ?_, ?_, ?_⟩
  · split_ifs with hc
    · rw [max_eq_left] <;> omega
    · rw [max_eq_right] <;> omega
  · intro h; split_ifs with hc <;> omega
  · intro h; split_ifs with hc <;> omega
  · split_ifs with hc <;> omega

/-- C3, witness: at tick 7 with granularity 8 a Backward gives 0; the range conditions
hold there. -/
theorem backward_time_witness :
    ((exampleState.dispatchEvent unreadableFs ⟨EventType.BackwardSequencer⟩).Time : Int)
      = max 0 ((exampleState.Time : Int) - 16 * exampleState.Granularity) :=
  (backward_time unreadableFs exampleState (by decide) (by decide) (by decide)).1

/-- C4. For every tick counter value `time` and every positive granularity G with
time + 16 * G within the unsigned range, Forward sets `time` to exactly time + 16 * G. -/
theorem forward_time (fs : FileSystem) (seq : Sequencer) (hpos : 0 < seq.Granularity)
    (hrange : (seq.Time : Int) + 16 * seq.Granularity < (UINT_SIZE : Int)) :
    ((seq.dispatchEvent fs ⟨EventType.ForwardSequencer⟩).Time : Int)
      = (seq.Time : Int) + 16 * seq.Granularity := by
  have hT : (seq.dispatchEvent fs ⟨EventType.ForwardSequencer⟩).Time
      = (seq.Time + (toUint seq.Granularity * 16) % UINT_SIZE) % UINT_SIZE := by
    simp [Sequencer.dispatchEvent]
  rw [hT]
  unfold toUint UINT_SIZE at *
  omega

/-- C4, witness: from tick 7 with granularity 8 a Forward gives 135. -/
theorem forward_time_witness :
    ((exampleState.dispatchEvent unreadableFs ⟨EventType.ForwardSequencer⟩).Time : Int)
      = (exampleState.Time : Int) + 16 * exampleState.Granularity :=
  forward_time unreadableFs exampleState (by decide) (by decide)

/-! ## Durations (C5, C6, C7) -/

/-- C5, counterexample. At granularity 2^62, a positive multiple of 8, the product
`uint(granularity) * 4` wraps: "Whole" parses to 0 ticks, not to 4 * 2^62. -/
theorem whole_wraps_at_large_granularity :
    (0 : Int) < (NewSequencer 120 4611686018427387904).Granularity ∧
    (8 : Int) ∣ (NewSequencer 120 4611686018427387904).Granularity ∧
    (NewSequencer 120 4611686018427387904).Granularity < INT_HALF ∧
    parseDuration (.str "Whole") (NewSequencer 120 4611686018427387904) = .ok 0 ∧
    (0 : Nat) ≠ 4 * 4611686018427387904 := by
  exact ⟨by decide, by decide, by decide, rfl, by decide⟩

/-- C5, amended. For every granularity G (a Go int) that is a positive multiple of 8,
`parseDuration` maps "Half", "Quarter", "Eight", "Sixteenth", "Thirtysecond" to exactly
2*G, G, G/2, G/4 and G/8 ticks without error and without rounding (2*Eight = G,
4*Sixteenth = G, 8*Thirtysecond = G), and maps "Whole" to 4*G reduced modulo 2^64,
which is exactly 4*G when 4*G is within the unsigned range. -/
theorem named_durations (seq : Sequencer) (hpos : 0 < seq.Granularity)
    (hdiv : (8 : Int) ∣ seq.Granularity) (hint : seq.Granularity < INT_HALF) :
    parseDuration (.str "Whole") seq = .ok ((4 * seq.Granularity.toNat) % UINT_SIZE) ∧
    (4 * seq.Granularity < (UINT_SIZE : Int) →
      parseDuration (.str "Whole") seq = .ok (4 * seq.Granularity.toNat)) ∧
    parseDuration (.str "Half") seq = .ok (2 * seq.Granularity.toNat) ∧
    parseDuration (.str "Quarter") seq = .ok seq.Granularity.toNat ∧
    parseDuration (.str "Eight") seq = .ok (seq.Granularity.toNat / 2) ∧
    parseDuration (.str "Sixteenth") seq = .ok (seq.Granularity.toNat / 4) ∧
    parseDuration (.str "Thirtysecond") seq = .ok (seq.Granularity.toNat / 8) ∧
    2 * (seq.Granularity.toNat / 2) = seq.Granularity.toNat ∧
    4 * (seq.Granularity.toNat / 4) = seq.Granularity.toNat ∧
    8 * (seq.Granularity.toNat / 8) = seq.Granularity.toNat := by
  obtain ⟨k, hk⟩ := hdiv
  have h2 : Int.tdiv seq.Granularity 2 = 4 * k := by
    rw [Int.tdiv_eq_ediv (by omega) (by omega)]; omega
  have h4 : Int.tdiv seq.Granularity 4 = 2 * k := by
    rw [Int.tdiv_eq_ediv (by omega) (by omega)]; omega
  have h8 : Int.tdiv seq.Granularity 8 = k := by
    rw [Int.tdiv_eq_ediv (by omega) (by omega)]; omega
  simp only [parseDuration, Whole, Half, Quarter, Eight, Sixteenth, Thirtysecond, h2, h4, h8]
  unfold toUint UINT_SIZE INT_HALF at *
  refine ⟨?_, ?_, ?_, ?_, ?_, ?_, ?_, ?_, ?_, ?_⟩
  · simp; omega
  · intro h; simp; omega
  · simp; omega
  · simp; omega
  · simp; omega
  · simp; omega
  · simp; omega
  · omega
  · omega
  · omega

/-- C5, witness: granularity 8, where Whole is 32 ticks. -/
theorem named_durations_witness :
    parseDuration (.str "Whole") exampleState = .ok (4 * exampleState.Granularity.toNat) :=
  (named_durations exampleState (by decide) (by decide) (by decide)).2.1 (by decide)

/-- C6, counterexample. The integer duration 2^62 at granularity 4: the Go int product
2^64 wraps, and `parseDuration` returns 0 ticks, not 2^62 * 4. -/
theorem int_duration_wraps :
    (0 : Int) ≤ 4611686018427387904 ∧ (0 : Int) < (NewSequencer 120 4).Granularity ∧
    parseDuration (.int 4611686018427387904) (NewSequencer 120 4) = .ok 0 ∧
    (0 : Int) ≠ 4611686018427387904 * (NewSequencer 120 4).Granularity :=
  ⟨by decide, by decide, rfl, by decide⟩

/-- C6, amended. For every non-negative integer n and every positive granularity G,
`parseDuration` applied to the integer duration n succeeds and returns n*G reduced
modulo 2^64, which is exactly n*G ticks when n*G is within the unsigned range. -/
theorem int_duration (n : Int) (seq : Sequencer) (hn : 0 ≤ n) (hpos : 0 < seq.Granularity) :
    parseDuration (.int n) seq = .ok ((n * seq.Granularity).toNat % UINT_SIZE) ∧
    (n * seq.Granularity < (UINT_SIZE : Int) →
      parseDuration (.int n) seq = .ok (n * seq.Granularity).toNat) := by
  have hx : 0 ≤ n * seq.Granularity := mul_nonneg hn (le_of_lt hpos)
  simp only [parseDuration, Except.ok.injEq]
  generalize n * seq.Granularity = x at hx ⊢
  unfold toUint wrapInt UINT_SIZE INT_HALF
  constructor
  · omega
  · intro h; omega

/-- C6, witness: the integer duration 3 at granularity 8 is 24 ticks. -/
theorem int_duration_witness :
    parseDuration (.int 3) exampleState = .ok (3 * exampleState.Granularity).toNat :=
  (int_duration 3 exampleState (by decide) (by decide)).2 (by decide)

/-- C7. A string parses as a duration if and only if it is one of the six names; every
other string, and every value that is not a string, an integer or a float (such as a
missing field), yields the error and no tick count. -/
theorem duration_tokens (seq : Sequencer) :
    (∀ s : String, (∃ n, parseDuration (.str s) seq = .ok n) ↔
      (s = "Whole" ∨ s = "Half" ∨ s = "Quarter" ∨ s = "Eight" ∨ s = "Sixteenth"
        ∨ s = "Thirtysecond")) ∧
    (∀ s : String,
      ¬ (s = "Whole" ∨ s = "Half" ∨ s = "Quarter" ∨ s = "Eight" ∨ s = "Sixteenth"
        ∨ s = "Thirtysecond") →
      parseDuration (.str s) seq = .error ("Unknown duration type '" ++ s ++ "'")) ∧
    (∀ shown : String,
      parseDuration (.other shown) seq = .error ("Unknown duration type '" ++ shown ++ "'")) := by
  refine ⟨?_, ?_, ?_⟩
  · intro s
    simp only [parseDuration]
    constructor
    · rintro ⟨n, hn⟩
      split_ifs at hn <;> simp_all
    · rintro (h | h | h | h | h | h) <;> subst h <;> simp
  · intro s hs
    simp only [not_or] at hs
    simp [parseDuration, hs, unknownDuration, Value.format]
  · intro shown
    simp [parseDuration, unknownDuration, Value.format]

/-! ## The play_note compiler (C8) -/

/-- C8. A `play_note` definition with no `auto_note` and literal note 0 (the zero value
of an absent field) is rejected: `GetSequence` returns an error and no node, whatever
the other fields and the sequencer are. -/
theorem play_note_zero_note_rejected (e : PlayNoteEveryDef) (seq : Sequencer)
    (hauto : e.NoteAutomation = none) (hnote : e.Note = 0) :
    ∃ err, e.GetSequence seq = .error err := by
  simp only [PlayNoteEveryDef.GetSequence, hauto, hnote]
  cases parseDuration e.Every seq with
  | error err => exact ⟨_, rfl⟩
  | ok every =>
    cases parseDuration e.Duration seq with
    | error err => exact ⟨_, rfl⟩
    | ok duration => exact ⟨WrapError "play_note" "missing note or auto_note", by simp⟩

/-- C8, witness: the scenario's `play_note` with its note replaced by 0 is rejected, while
the scenario's own `play_note` (note 60) compiles. -/
theorem play_note_zero_note_rejected_witness :
    (∃ err, ({ examplePlayNote with Note := 0 } : PlayNoteEveryDef).GetSequence exampleState
      = .error err) ∧
    examplePlayNote.GetSequence exampleState
      = .ok (Sequence.PlayNoteEveryAutomation 8 4 0
          (IntAutomation.IntIdAutomation 60) (IntAutomation.IntIdAutomation 100)) :=
  ⟨play_note_zero_note_rejected { examplePlayNote with Note := 0 } exampleState rfl rfl, rfl⟩

/-! ## Variant dispatch (C9) -/

/-- What `SequenceDef.GetSequence` does with the selected variant. -/
theorem SequenceDef.GetSequence_selected (seq : Sequencer) :
    ∀ d : SequenceDef, d.GetSequence seq =
      match d.selected with
      | .repeat_ r => RepeatDef.GetSequence seq r
      | .euclidian r => EuclidianDef.GetSequence seq r
      | .play_note p => p.GetSequence seq
      | .play_notes p => p.GetSequence seq
      | .panning p => wrapTagged "panning" (p.GetSequence seq Sequence.PanningAutomation)
      | .reverb p => wrapTagged "reverb" (p.GetSequence seq Sequence.ReverbAutomation)
      | .reverb_time p =>
        wrapTagged "reverb_time" (p.GetSequence seq Sequence.ReverbTimeAutomation)
      | .lpf_cutoff p =>
        wrapTagged "lpf_cutoff" (p.GetSequence seq Sequence.LPF_CutoffAutomation)
      | .tremelo p => wrapTagged "tremelo" (p.GetSequence seq Sequence.TremeloAutomation)
      | .volume p => wrapTagged "volume" (p.GetSequence seq Sequence.ChannelVolumeAutomation)
      | .grain_size p =>
        wrapTagged "grain_size" (p.GetSequence seq Sequence.GrainSizeAutomation)
      | .grain_birth_rate p =>
        wrapTagged "grain_birth_rate" (p.GetSequence seq Sequence.GrainBirthRateAutomation)
      | .grain_spread p =>
        wrapTagged "grain_spread" (p.GetSequence seq Sequence.GrainSpreadAutomation)
      | .grain_speed p =>
        wrapTagged "grain_speed" (p.GetSequence seq Sequence.GrainSpeedAutomation)
      | .after r => AfterDef.GetSequence seq r
      | .before r => BeforeDef.GetSequence seq r
      | .offset r => OffsetDef.GetSequence seq r
      | .combine children =>
        (match SequenceDef.combineLoop seq children [] with
          | .error err => .error err
          | .ok sequences => .ok (Sequence.Combine sequences))
      | .missing => .error (WrapError "sequence" "Missing sequence")
  | .mk (some d) _ _ _ _ _ _ _ _ _ _ _ _ _ _ _ _ _ => by
    simp only [SequenceDef.GetSequence, SequenceDef.selected]
  | .mk none (some d) _ _ _ _ _ _ _ _ _ _ _ _ _ _ _ _ => by
    simp only [SequenceDef.GetSequence, SequenceDef.selected]
  | .mk none none (some d) _ _ _ _ _ _ _ _ _ _ _ _ _ _ _ => by
    simp only [SequenceDef.GetSequence, SequenceDef.selected]
  | .mk none none none (some d) _ _ _ _ _ _ _ _ _ _ _ _ _ _ => by
    simp only [SequenceDef.GetSequence, SequenceDef.selected]
  | .mk none none none none (some d) _ _ _ _ _ _ _ _ _ _ _ _ _ => by
    simp only [SequenceDef.GetSequence, SequenceDef.selected]
  | .mk none none none none none (some d) _ _ _ _ _ _ _ _ _ _ _ _ => by
    simp only [SequenceDef.GetSequence, SequenceDef.selected]
  | .mk none none none none none none (some d) _ _ _ _ _ _ _ _ _ _ _ => by
    simp only [SequenceDef.GetSequence, SequenceDef.selected]
  | .mk none none none none none none none _ (some d) _ _ _ _ _ _ _ _ _ => by
    simp only [SequenceDef.GetSequence, SequenceDef.selected]
  | .mk none none none none none none none (some d) none _ _ _ _ _ _ _ _ _ => by
    simp only [SequenceDef.GetSequence, SequenceDef.selected]
  | .mk none none none none none none none none none (some d) _ _ _ _ _ _ _ _ => by
    simp only [SequenceDef.GetSequence, SequenceDef.selected]
  | .mk none none none none none none none none none none (some d) _ _ _ _ _ _ _ => by
    simp only [SequenceDef.GetSequence, SequenceDef.selected]
  | .mk none none none none none none none none none none none (some d) _ _ _ _ _ _ => by
    simp only [SequenceDef.GetSequence, SequenceDef.selected]
  | .mk none none none none none none none none none none none none (some d) _ _ _ _ _ => by
    simp only [SequenceDef.GetSequence, SequenceDef.selected]
  | .mk none none none none none none none none none none none none none (some d) _ _ _ _ => by
    simp only [SequenceDef.GetSequence, SequenceDef.selected]
  | .mk none none none none none none none none none none none none none none (some d) _ _ _ => by
    simp only [SequenceDef.GetSequence, SequenceDef.selected]
  | .mk none none none none none none none none none none none none none none none (some d)
      _ _ => by
    simp only [SequenceDef.GetSequence, SequenceDef.selected]
  | .mk none none none none none none none none none none none none none none none none
      (some d) _ => by
    simp only [SequenceDef.GetSequence, SequenceDef.selected]
  | .mk none none none none none none none none none none none none none none none none
      none (some l) => by
    simp only [SequenceDef.GetSequence, SequenceDef.selected]
  | .mk none none none none none none none none none none none none none none none none
      none none => by
    simp only [SequenceDef.GetSequence, SequenceDef.selected]

/-- A definition with no field set selects nothing, and conversely. -/
theorem SequenceDef.selected_missing_iff :
    ∀ d : SequenceDef, d.selected = Selected.missing ↔ d.setCount = 0
  | .mk (some d) _ _ _ _ _ _ _ _ _ _ _ _ _ _ _ _ _ => by
    simp [SequenceDef.selected, SequenceDef.setCount, isSet]
  | .mk none (some d) _ _ _ _ _ _ _ _ _ _ _ _ _ _ _ _ => by
    simp [SequenceDef.selected, SequenceDef.setCount, isSet]
  | .mk none none (some d) _ _ _ _ _ _ _ _ _ _ _ _ _ _ _ => by
    simp [SequenceDef.selected, SequenceDef.setCount, isSet]
  | .mk none none none (some d) _ _ _ _ _ _ _ _ _ _ _ _ _ _ => by
    simp [SequenceDef.selected, SequenceDef.setCount, isSet]
  | .mk none none none none (some d) _ _ _ _ _ _ _ _ _ _ _ _ _ => by
    simp [SequenceDef.selected, SequenceDef.setCount, isSet]
  | .mk none none none none none (some d) _ _ _ _ _ _ _ _ _ _ _ _ => by
    simp [SequenceDef.selected, SequenceDef.setCount, isSet]
  | .mk none none none none none none (some d) _ _ _ _ _ _ _ _ _ _ _ => by
    simp [SequenceDef.selected, SequenceDef.setCount, isSet]
  | .mk none none none none none none none _ (some d) _ _ _ _ _ _ _ _ _ => by
    simp [SequenceDef.selected, SequenceDef.setCount, isSet]
  | .mk none none none none none none none (some d) none _ _ _ _ _ _ _ _ _ => by
    simp [SequenceDef.selected, SequenceDef.setCount, isSet]
  | .mk none none none none none none none none none (some d) _ _ _ _ _ _ _ _ => by
    simp [SequenceDef.selected, SequenceDef.setCount, isSet]
  | .mk none none none none none none none none none none (some d) _ _ _ _ _ _ _ => by
    simp [SequenceDef.selected, SequenceDef.setCount, isSet]
  | .mk none none none none none none none none none none none (some d) _ _ _ _ _ _ => by
    simp [SequenceDef.selected, SequenceDef.setCount, isSet]
  | .mk none none none none none none none none none none none none (some d) _ _ _ _ _ => by
    simp [SequenceDef.selected, SequenceDef.setCount, isSet]
  | .mk none none none none none none none none none none none none none (some d) _ _ _ _ => by
    simp [SequenceDef.selected, SequenceDef.setCount, isSet]
  | .mk none none none none none none none none none none none none none none (some d) _ _ _ => by
    simp [SequenceDef.selected, SequenceDef.setCount, isSet]
  | .mk none none none none none none none none none none none none none none none (some d) _ _
      => by
    simp [SequenceDef.selected, SequenceDef.setCount, isSet]
  | .mk none none none none none none none none none none none none none none none none (some d) _
      => by
    simp [SequenceDef.selected, SequenceDef.setCount, isSet]
  | .mk none none none none none none none none none none none none none none none none none
      (some l) => by
    simp [SequenceDef.selected, SequenceDef.setCount, isSet]
  | .mk none none none none none none none none none none none none none none none none none none
      => by
    simp [SequenceDef.selected, SequenceDef.setCount, isSet]

/-- C9, counterexample. The definition `twoVariants` sets two variant fields, `play_note`
and `volume`, and is not rejected: it compiles to the `play_note` node. -/
theorem two_variants_compile :
    twoVariants.setCount = 2 ∧
    twoVariants.GetSequence exampleState
      = .ok (Sequence.PlayNoteEveryAutomation 8 4 0
          (IntAutomation.IntIdAutomation 60) (IntAutomation.IntIdAutomation 100)) :=
  ⟨rfl, rfl⟩

/-- C9, amended. `SequenceDef.GetSequence` succeeds only if at least one variant field is
set, and a definition with none set is rejected with the error
`sequence > Missing sequence`; a definition with two or more set is not rejected for
that: the result is decided by the first set field in the order of the tests alone, so
two definitions that agree on that field compile alike. -/
theorem variant_dispatch (seq : Sequencer) (d : SequenceDef) :
    ((∃ s, d.GetSequence seq = .ok s) → 1 ≤ d.setCount) ∧
    (d.setCount = 0 → d.GetSequence seq = .error "sequence > Missing sequence") ∧
    (∀ d1 : SequenceDef, d1.selected = d.selected → d1.GetSequence seq = d.GetSequence seq) := by
  have hmiss : d.setCount = 0 → d.GetSequence seq = .error "sequence > Missing sequence" := by
    intro h0
    rw [SequenceDef.GetSequence_selected, (SequenceDef.selected_missing_iff d).2 h0]
    rfl
  refine ⟨?_, hmiss, ?_⟩
  · rintro ⟨s, hs⟩
    by_contra hlt
    have h0 : d.setCount = 0 := by omega
    rw [hmiss h0] at hs
    cases hs
  · intro d1 hsel
    rw [SequenceDef.GetSequence_selected seq d1, SequenceDef.GetSequence_selected seq d, hsel]

/-! ## Breadcrumbs (C10) -/

theorem breadcrumb_two (t1 t2 desc : String) (t12 : String) (h : t1 ++ " > " ++ t2 = t12) :
    WrapError t12 desc = breadcrumb [t1, t2] desc := by
  subst h
  simp only [WrapError, breadcrumb, String.append_assoc]

theorem PlayNoteEveryDef_error_breadcrumb (seq : Sequencer) (d : SequenceDef)
    (p : PlayNoteEveryDef) (e : String) (hsel : d.selected = .play_note p)
    (herr : p.GetSequence seq = .error e) :
    ∃ tags desc, FailsAt seq d tags desc ∧ e = breadcrumb tags desc := by
  unfold PlayNoteEveryDef.GetSequence at herr
  cases hev : parseDuration p.Every seq with
  | error err =>
    simp only [hev, Except.error.injEq] at herr
    exact ⟨_, _, FailsAt.play_note_every hsel hev, herr.symm⟩
  | ok every =>
    cases hdur : parseDuration p.Duration seq with
    | error err =>
      simp only [hev, hdur, Except.error.injEq] at herr
      exact ⟨_, _, FailsAt.play_note_duration hsel hdur, herr.symm⟩
    | ok duration =>
      simp only [hev, hdur] at herr
      cases hna : p.NoteAutomation with
      | some a =>
        cases hga : a.GetAutomation with
        | error err =>
          simp only [hna, hga, Except.error.injEq] at herr
          exact ⟨_, _, FailsAt.play_note_auto_note hsel hna hga,
            herr.symm.trans (breadcrumb_two _ _ _ _ rfl)⟩
        | ok noteF =>
          simp only [hna, hga, Option.isNone_some, Bool.false_eq_true, false_and,
            if_false] at herr
          cases hva : p.VelocityAutomation with
          | some v =>
            cases hgv : v.GetAutomation with
            | error err =>
              simp only [hva, hgv, Except.error.injEq] at herr
              exact ⟨_, _, FailsAt.play_note_auto_velocity hsel hva hgv,
                herr.symm.trans (breadcrumb_two _ _ _ _ rfl)⟩
            | ok velocityF =>
              simp [hva, hgv] at herr
          | none =>
            simp only [hva, Option.isNone_none, true_and] at herr
            by_cases hv0 : p.Velocity = 0
            · simp only [hv0, if_true, Except.error.injEq] at herr
              exact ⟨_, _, FailsAt.play_note_velocity hsel hva hv0, herr.symm⟩
            · simp [hv0] at herr
      | none =>
        simp only [hna, Option.isNone_none, true_and] at herr
        by_cases hn0 : p.Note = 0
        · simp only [hn0, if_true, Except.error.injEq] at herr
          exact ⟨_, _, FailsAt.play_note_note hsel hna hn0, herr.symm⟩
        · simp only [hn0, if_false] at herr
          cases hva : p.VelocityAutomation with
          | some v =>
            cases hgv : v.GetAutomation with
            | error err =>
              simp only [hva, hgv, Except.error.injEq] at herr
              exact ⟨_, _, FailsAt.play_note_auto_velocity hsel hva hgv,
                herr.symm.trans (breadcrumb_two _ _ _ _ rfl)⟩
            | ok velocityF =>
              simp [hva, hgv] at herr
          | none =>
            simp only [hva, Option.isNone_none, true_and] at herr
            by_cases hv0 : p.Velocity = 0
            · simp only [hv0, if_true, Except.error.injEq] at herr
              exact ⟨_, _, FailsAt.play_note_velocity hsel hva hv0, herr.symm⟩
            · simp [hv0] at herr

theorem PlayNotesEveryDef_error_breadcrumb (seq : Sequencer) (d : SequenceDef)
    (p : PlayNotesEveryDef) (e : String) (hsel : d.selected = .play_notes p)
    (hvel : ∀ tags desc, ¬ FailsAtAutoVelocity seq d tags desc)
    (herr : p.GetSequence seq = .error e) :
    ∃ tags desc, FailsAt seq d tags desc ∧ e = breadcrumb tags desc := by
  unfold PlayNotesEveryDef.GetSequence at herr
  cases hev : parseDuration p.Every seq with
  | error err =>
    simp only [hev, Except.error.injEq] at herr
    exact ⟨_, _, FailsAt.play_notes_every hsel hev, herr.symm⟩
  | ok every =>
    cases hdur : parseDuration p.Duration seq with
    | error err =>
      simp only [hev, hdur, Except.error.injEq] at herr
      exact ⟨_, _, FailsAt.play_notes_duration hsel hdur, herr.symm⟩
    | ok duration =>
      simp only [hev, hdur] at herr
      have hv : (∀ n, p.NotesAutomation = some n → ∃ f, n.GetAutomation seq = .ok f) →
          ∀ (notesF : IntArrayAutomation),
          (match (match p.VelocityAutomation with
              | some a =>
                match a.GetAutomation with
                | .error err => Except.error (WrapError "play_note > auto_velocity" err)
                | .ok velocityF_ => .ok velocityF_
              | none => .ok (IntAutomation.IntIdAutomation p.Velocity)) with
            | .error err => Except.error err
            | .ok velocityF =>
              .ok (Sequence.PlayNotesEveryAutomation every duration p.Channel notesF velocityF))
            ≠ .error e := by
        intro hnotes notesF
        cases hva : p.VelocityAutomation with
        | none => simp
        | some v =>
          cases hgv : v.GetAutomation with
          | error err =>
            exact absurd (FailsAtAutoVelocity.here hsel hev hdur hnotes hva hgv) (hvel _ _)
          | ok velocityF => simp [hgv]
      cases hna : p.NotesAutomation with
      | some a =>
        cases hga : a.GetAutomation seq with
        | error err =>
          simp only [hna, hga, Except.error.injEq] at herr
          exact ⟨_, _, FailsAt.play_notes_auto_notes hsel hna hga,
            herr.symm.trans (breadcrumb_two _ _ _ _ rfl)⟩
        | ok notesF =>
          simp only [hna, hga] at herr
          refine absurd herr (hv ?_ notesF)
          intro n hn
          rw [hna] at hn
          cases hn
          exact ⟨_, hga⟩
      | none =>
        simp only [hna] at herr
        refine absurd herr (hv ?_ _)
        intro n hn
        rw [hna] at hn
        cases hn

theorem ChannelAutomationDef_error_breadcrumb (seq : Sequencer) (d : SequenceDef)
    (tag : String) (p : ChannelAutomationDef) (node : Int → IntAutomation → Sequence)
    (e : String) (hsel : d.selected.intParameter = some (tag, p))
    (herr : wrapTagged tag (p.GetSequence seq node) = .error e) :
    ∃ tags desc, FailsAt seq d tags desc ∧ e = breadcrumb tags desc := by
  unfold wrapTagged ChannelAutomationDef.GetSequence at herr
  cases hga : p.Automation.GetAutomation with
  | error err =>
    simp only [hga, Except.error.injEq] at herr
    exact ⟨_, _, FailsAt.int_parameter hsel hga, herr.symm⟩
  | ok f => simp [hga] at herr

theorem FloatChannelAutomationDef_error_breadcrumb (seq : Sequencer) (d : SequenceDef)
    (tag : String) (p : FloatChannelAutomationDef) (node : Int → FloatAutomation → Sequence)
    (e : String) (hsel : d.selected.floatParameter = some (tag, p))
    (herr : wrapTagged tag (p.GetSequence seq node) = .error e) :
    ∃ tags desc, FailsAt seq d tags desc ∧ e = breadcrumb tags desc := by
  unfold wrapTagged FloatChannelAutomationDef.GetSequence at herr
  cases hga : p.Automation.GetAutomation with
  | error err =>
    simp only [hga, Except.error.injEq] at herr
    exact ⟨_, _, FailsAt.float_parameter hsel hga, herr.symm⟩
  | ok f => simp [hga] at herr

mutual
theorem RepeatDef_error_breadcrumb (seq : Sequencer) :
    ∀ (r : RepeatDef) (d : SequenceDef) (e : String), d.selected = .repeat_ r →
      (∀ tags desc, ¬ FailsAtAutoVelocity seq d tags desc) → RepeatDef.GetSequence seq r = .error e →
      ∃ tags desc, FailsAt seq d tags desc ∧ e = breadcrumb tags desc
  | .mk every none, d, e, hsel, _, herr => by
    simp only [RepeatDef.GetSequence, SequenceDef.GetSequencePtr] at herr
    cases hdur : parseDuration every seq with
    | error err =>
      simp only [hdur, Except.error.injEq] at herr
      exact ⟨_, _, FailsAt.repeat_every hsel hdur, herr.symm⟩
    | ok duration =>
      simp only [hdur, Except.error.injEq] at herr
      exact ⟨_, _, FailsAt.repeat_nil hsel, herr.symm⟩
  | .mk every (some body), d, e, hsel, hvel, herr => by
    simp only [RepeatDef.GetSequence, SequenceDef.GetSequencePtr] at herr
    cases hdur : parseDuration every seq with
    | error err =>
      simp only [hdur, Except.error.injEq] at herr
      exact ⟨_, _, FailsAt.repeat_every hsel hdur, herr.symm⟩
    | ok duration =>
      cases hb : SequenceDef.GetSequence seq body with
      | error err =>
        simp only [hdur, hb, Except.error.injEq] at herr
        obtain ⟨tags, desc, hf, he⟩ := SequenceDef_error_breadcrumb seq body err
          (fun _ _ h => hvel _ _ (FailsAtAutoVelocity.repeat_body hsel hdur h)) hb
        exact ⟨_, _, FailsAt.repeat_body hsel hf, by rw [← herr, he]; rfl⟩
      | ok s => simp [hdur, hb] at herr
theorem EuclidianDef_error_breadcrumb (seq : Sequencer) :
    ∀ (r : EuclidianDef) (d : SequenceDef) (e : String), d.selected = .euclidian r →
      (∀ tags desc, ¬ FailsAtAutoVelocity seq d tags desc) → EuclidianDef.GetSequence seq r = .error e →
      ∃ tags desc, FailsAt seq d tags desc ∧ e = breadcrumb tags desc
  | .mk pulses over dur none, d, e, hsel, _, herr => by
    simp only [EuclidianDef.GetSequence, SequenceDef.GetSequencePtr,
      Except.error.injEq] at herr
    exact ⟨_, _, FailsAt.euclidian_nil hsel, herr.symm⟩
  | .mk pulses over dur (some body), d, e, hsel, hvel, herr => by
    simp only [EuclidianDef.GetSequence, SequenceDef.GetSequencePtr] at herr
    cases hb : SequenceDef.GetSequence seq body with
    | error err =>
      simp only [hb, Except.error.injEq] at herr
      obtain ⟨tags, desc, hf, he⟩ := SequenceDef_error_breadcrumb seq body err
        (fun _ _ h => hvel _ _ (FailsAtAutoVelocity.euclidian_body hsel h)) hb
      exact ⟨_, _, FailsAt.euclidian_body hsel hf, by rw [← herr, he]; rfl⟩
    | ok s =>
      cases hdur : parseDuration dur seq with
      | error err =>
        simp only [hb, hdur, Except.error.injEq] at herr
        exact ⟨_, _, FailsAt.euclidian_duration hsel hdur, herr.symm⟩
      | ok duration => simp [hdur, hb] at herr
theorem AfterDef_error_breadcrumb (seq : Sequencer) :
    ∀ (r : AfterDef) (d : SequenceDef) (e : String), d.selected = .after r →
      (∀ tags desc, ¬ FailsAtAutoVelocity seq d tags desc) → AfterDef.GetSequence seq r = .error e →
      ∃ tags desc, FailsAt seq d tags desc ∧ e = breadcrumb tags desc
  | .mk dur body, d, e, hsel, hvel, herr => by
    simp only [AfterDef.GetSequence] at herr
    cases hdur : parseDuration dur seq with
    | error err =>
      simp only [hdur, Except.error.injEq] at herr
      exact ⟨_, _, FailsAt.after_duration hsel hdur, herr.symm⟩
    | ok duration =>
      cases hb : SequenceDef.GetSequence seq body with
      | error err =>
        simp only [hdur, hb, Except.error.injEq] at herr
        obtain ⟨tags, desc, hf, he⟩ := SequenceDef_error_breadcrumb seq body err
          (fun _ _ h => hvel _ _ (FailsAtAutoVelocity.after_body hsel hdur h)) hb
        exact ⟨_, _, FailsAt.after_body hsel hf, by rw [← herr, he]; rfl⟩
      | ok s => simp [hdur, hb] at herr
theorem BeforeDef_error_breadcrumb (seq : Sequencer) :
    ∀ (r : BeforeDef) (d : SequenceDef) (e : String), d.selected = .before r →
      (∀ tags desc, ¬ FailsAtAutoVelocity seq d tags desc) → BeforeDef.GetSequence seq r = .error e →
      ∃ tags desc, FailsAt seq d tags desc ∧ e = breadcrumb tags desc
  | .mk dur body, d, e, hsel, hvel, herr => by
    simp only [BeforeDef.GetSequence] at herr
    cases hdur : parseDuration dur seq with
    | error err =>
      simp only [hdur, Except.error.injEq] at herr
      exact ⟨_, _, FailsAt.before_duration hsel hdur, herr.symm⟩
    | ok duration =>
      cases hb : SequenceDef.GetSequence seq body with
      | error err =>
        simp only [hdur, hb, Except.error.injEq] at herr
        obtain ⟨tags, desc, hf, he⟩ := SequenceDef_error_breadcrumb seq body err
          (fun _ _ h => hvel _ _ (FailsAtAutoVelocity.before_body hsel hdur h)) hb
        exact ⟨_, _, FailsAt.before_body hsel hf, by rw [← herr, he]; rfl⟩
      | ok s => simp [hdur, hb] at herr
theorem OffsetDef_error_breadcrumb (seq : Sequencer) :
    ∀ (r : OffsetDef) (d : SequenceDef) (e : String), d.selected = .offset r →
      (∀ tags desc, ¬ FailsAtAutoVelocity seq d tags desc) → OffsetDef.GetSequence seq r = .error e →
      ∃ tags desc, FailsAt seq d tags desc ∧ e = breadcrumb tags desc
  | .mk dur body, d, e, hsel, hvel, herr => by
    simp only [OffsetDef.GetSequence] at herr
    cases hdur : parseDuration dur seq with
    | error err =>
      simp only [hdur, Except.error.injEq] at herr
      exact ⟨_, _, FailsAt.offset_duration hsel hdur, herr.symm⟩
    | ok duration =>
      cases hb : SequenceDef.GetSequence seq body with
      | error err =>
        simp only [hdur, hb, Except.error.injEq] at herr
        obtain ⟨tags, desc, hf, he⟩ := SequenceDef_error_breadcrumb seq body err
          (fun _ _ h => hvel _ _ (FailsAtAutoVelocity.offset_body hsel hdur h)) hb
        exact ⟨_, _, FailsAt.offset_body hsel hf, by rw [← herr, he]; rfl⟩
      | ok s => simp [hdur, hb] at herr
/-- A compile error of a definition whose compilation does not stop at the `auto_velocity`
of a `play_notes` node is the breadcrumb of a failing place of the definition. -/
theorem SequenceDef_error_breadcrumb (seq : Sequencer) :
    ∀ (d : SequenceDef) (e : String), (∀ tags desc, ¬ FailsAtAutoVelocity seq d tags desc) → d.GetSequence seq = .error e →
      ∃ tags desc, FailsAt seq d tags desc ∧ e = breadcrumb tags desc
  | .mk (some d) _ _ _ _ _ _ _ _ _ _ _ _ _ _ _ _ _, e, hvel, herr => by
    simp only [SequenceDef.GetSequence] at herr
    exact RepeatDef_error_breadcrumb seq d _ e rfl hvel herr
  | .mk none (some d) _ _ _ _ _ _ _ _ _ _ _ _ _ _ _ _, e, hvel, herr => by
    simp only [SequenceDef.GetSequence] at herr
    exact EuclidianDef_error_breadcrumb seq d _ e rfl hvel herr
  | .mk none none (some d) _ _ _ _ _ _ _ _ _ _ _ _ _ _ _, e, hvel, herr => by
    simp only [SequenceDef.GetSequence] at herr
    exact PlayNoteEveryDef_error_breadcrumb seq _ d e rfl herr
  | .mk none none none (some d) _ _ _ _ _ _ _ _ _ _ _ _ _ _, e, hvel, herr => by
    simp only [SequenceDef.GetSequence] at herr
    exact PlayNotesEveryDef_error_breadcrumb seq _ d e rfl hvel herr
  | .mk none none none none (some d) _ _ _ _ _ _ _ _ _ _ _ _ _, e, hvel, herr => by
    simp only [SequenceDef.GetSequence] at herr
    exact ChannelAutomationDef_error_breadcrumb seq _ _ d _ e rfl herr
  | .mk none none none none none (some d) _ _ _ _ _ _ _ _ _ _ _ _, e, hvel, herr => by
    simp only [SequenceDef.GetSequence] at herr
    exact ChannelAutomationDef_error_breadcrumb seq _ _ d _ e rfl herr
  | .mk none none none none none none (some d) _ _ _ _ _ _ _ _ _ _ _, e, hvel, herr => by
    simp only [SequenceDef.GetSequence] at herr
    exact FloatChannelAutomationDef_error_breadcrumb seq _ _ d _ e rfl herr
  | .mk none none none none none none none _ (some d) _ _ _ _ _ _ _ _ _, e, hvel, herr => by
    simp only [SequenceDef.GetSequence] at herr
    exact ChannelAutomationDef_error_breadcrumb seq _ "lpf_cutoff" d _ e
      (by simp only [SequenceDef.selected, Selected.intParameter]) herr
  | .mk none none none none none none none (some d) none _ _ _ _ _ _ _ _ _, e, hvel, herr => by
    simp only [SequenceDef.GetSequence] at herr
    exact ChannelAutomationDef_error_breadcrumb seq _ _ d _ e rfl herr
  | .mk none none none none none none none none none (some d) _ _ _ _ _ _ _ _, e, hvel, herr => by
    simp only [SequenceDef.GetSequence] at herr
    exact ChannelAutomationDef_error_breadcrumb seq _ _ d _ e rfl herr
  | .mk none none none none none none none none none none (some d) _ _ _ _ _ _ _, e, hvel, herr =>
      by
    simp only [SequenceDef.GetSequence] at herr
    exact FloatChannelAutomationDef_error_breadcrumb seq _ _ d _ e rfl herr
  | .mk none none none none none none none none none none none (some d) _ _ _ _ _ _, e, hvel, herr
      => by
    simp only [SequenceDef.GetSequence] at herr
    exact FloatChannelAutomationDef_error_breadcrumb seq _ _ d _ e rfl herr
  | .mk none none none none none none none none none none none none (some d) _ _ _ _
      _, e, hvel, herr => by
    simp only [SequenceDef.GetSequence] at herr
    exact FloatChannelAutomationDef_error_breadcrumb seq _ _ d _ e rfl herr
  | .mk none none none none none none none none none none none none none (some d) _ _ _
      _, e, hvel, herr => by
    simp only [SequenceDef.GetSequence] at herr
    exact FloatChannelAutomationDef_error_breadcrumb seq _ _ d _ e rfl herr
  | .mk none none none none none none none none none none none none none none (some d) _ _
      _, e, hvel, herr => by
    simp only [SequenceDef.GetSequence] at herr
    exact AfterDef_error_breadcrumb seq d _ e rfl hvel herr
  | .mk none none none none none none none none none none none none none none none (some d) _
      _, e, hvel, herr => by
    simp only [SequenceDef.GetSequence] at herr
    exact BeforeDef_error_breadcrumb seq d _ e rfl hvel herr
  | .mk none none none none none none none none none none none none none none none none (some d)
      _, e, hvel, herr => by
    simp only [SequenceDef.GetSequence] at herr
    exact OffsetDef_error_breadcrumb seq d _ e rfl hvel herr
  | .mk none none none none none none none none none none none none none none none none none
      (some l), e, hvel, herr => by
    simp only [SequenceDef.GetSequence] at herr
    cases hloop : SequenceDef.combineLoop seq l [] with
    | error err =>
      simp only [hloop, Except.error.injEq] at herr
      subst herr
      exact SequenceDef.combine_error_breadcrumb seq l _ [] [] err rfl
        (fun _ hx => absurd hx (List.not_mem_nil _)) hvel hloop
    | ok sequences => simp [hloop] at herr
  | .mk none none none none none none none none none none none none none none none none none
      none, e, hvel, herr => by
    simp only [SequenceDef.GetSequence, Except.error.injEq] at herr
    exact ⟨_, _, FailsAt.missing rfl, herr.symm⟩
theorem SequenceDef.combine_error_breadcrumb (seq : Sequencer) :
    ∀ (l : List (Option SequenceDef)) (d : SequenceDef) (pre : List (Option SequenceDef))
      (acc : List Sequence) (e : String), d.selected = .combine (pre ++ l) →
      (∀ c ∈ pre, ∃ s, SequenceDef.GetSequencePtr seq c = .ok s) →
      (∀ tags desc, ¬ FailsAtAutoVelocity seq d tags desc) →
      SequenceDef.combineLoop seq l acc = .error e →
      ∃ tags desc, FailsAt seq d tags desc ∧ e = breadcrumb tags desc
  | [], d, pre, acc, e, _, _, _, herr => by
    simp [SequenceDef.combineLoop] at herr
  | none :: rest, d, pre, acc, e, hsel, _, _, herr => by
    simp only [SequenceDef.combineLoop, SequenceDef.GetSequencePtr,
      Except.error.injEq] at herr
    exact ⟨_, _, FailsAt.combine_nil hsel (by simp), herr.symm⟩
  | some child :: rest, d, pre, acc, e, hsel, hpre, hvel, herr => by
    simp only [SequenceDef.combineLoop, SequenceDef.GetSequencePtr] at herr
    cases hc : SequenceDef.GetSequence seq child with
    | error err =>
      simp only [hc, Except.error.injEq] at herr
      obtain ⟨tags, desc, hf, he⟩ := SequenceDef_error_breadcrumb seq child err
        (fun _ _ h => hvel _ _ (FailsAtAutoVelocity.combine_child hsel hpre h)) hc
      exact ⟨_, _, FailsAt.combine_child hsel (by simp) hf, by rw [← herr, he]; rfl⟩
    | ok s_ =>
      simp only [hc] at herr
      refine SequenceDef.combine_error_breadcrumb seq rest d (pre ++ [some child]) _ e
        (by rw [hsel]; simp) ?_ hvel herr
      intro c hcm
      rcases List.mem_append.1 hcm with h | h
      · exact hpre c h
      · rw [List.mem_singleton] at h
        subst h
        exact ⟨s_, hc⟩
end

theorem SequencerDef.getSequencesLoop_first_failure (seq : Sequencer) (d : SequenceDef)
    (e0 : String) (hfail : d.GetSequence seq = .error e0) :
    ∀ (l : List SequenceDef) (k i : Nat) (acc : List Sequence), l[k]? = some d →
      (∀ j, j < k → ∃ d1 n, l[j]? = some d1 ∧ d1.GetSequence seq = .ok n) →
      SequencerDef.getSequencesLoop seq l i acc
        = .error (WrapError ("sequence [" ++ toString (i + k) ++ "]") e0)
  | [], k, i, acc, hk, _ => by simp at hk
  | x :: rest, 0, i, acc, hk, _ => by
    simp only [List.getElem?_cons_zero, Option.some.injEq] at hk
    subst hk
    simp only [SequencerDef.getSequencesLoop, hfail, Nat.add_zero]
  | x :: rest, k + 1, i, acc, hk, hfirst => by
    obtain ⟨d1, n, h0, hok⟩ := hfirst 0 (Nat.succ_pos k)
    simp only [List.getElem?_cons_zero, Option.some.injEq] at h0
    subst h0
    simp only [List.getElem?_cons_succ] at hk
    simp only [SequencerDef.getSequencesLoop, hok]
    have hrest := SequencerDef.getSequencesLoop_first_failure seq d e0 hfail rest k (i + 1)
      (acc ++ [n]) hk (fun j hj => by
        obtain ⟨d2, m, h2, hok2⟩ := hfirst (j + 1) (Nat.succ_lt_succ hj)
        exact ⟨d2, m, by simpa using h2, hok2⟩)
    rw [hrest]
    have harith : i + 1 + k = i + (k + 1) := by omega
    rw [harith]

theorem SequenceDef.combineLoop_fails (seq : Sequencer) (c : Option SequenceDef)
    (hc : ∃ e, SequenceDef.GetSequencePtr seq c = .error e) :
    ∀ (l : List (Option SequenceDef)) (acc : List Sequence), c ∈ l →
      ∃ e, SequenceDef.combineLoop seq l acc = .error e
  | [], _, hm => by simp at hm
  | x :: rest, acc, hm => by
    simp only [SequenceDef.combineLoop]
    cases hx : SequenceDef.GetSequencePtr seq x with
    | error err => exact ⟨_, rfl⟩
    | ok s_ =>
      rcases List.mem_cons.1 hm with rfl | hr
      · obtain ⟨e, he⟩ := hc
        rw [hx] at he
        cases he
      · exact SequenceDef.combineLoop_fails seq c hc rest _ hr

/-- Every place described by `FailsAt` makes the compilation of the definition fail. -/
theorem FailsAt.compile_fails {seq : Sequencer} {d : SequenceDef} {tags : List String}
    {desc : String} (h : FailsAt seq d tags desc) : ∃ e, d.GetSequence seq = .error e := by
  induction h with
  | missing h => rw [SequenceDef.GetSequence_selected, h]; exact ⟨_, rfl⟩
  | repeat_every h herr =>
    rw [SequenceDef.GetSequence_selected, h]
    simp only [RepeatDef.GetSequence, herr]; exact ⟨_, rfl⟩
  | repeat_nil h =>
    rw [SequenceDef.GetSequence_selected, h]
    simp only [RepeatDef.GetSequence, SequenceDef.GetSequencePtr]
    split <;> exact ⟨_, rfl⟩
  | repeat_body h _ ih =>
    obtain ⟨e, he⟩ := ih
    rw [SequenceDef.GetSequence_selected, h]
    simp only [RepeatDef.GetSequence, SequenceDef.GetSequencePtr, he]
    split <;> exact ⟨_, rfl⟩
  | euclidian_duration h herr =>
    rw [SequenceDef.GetSequence_selected, h]
    simp only [EuclidianDef.GetSequence, herr]
    split <;> exact ⟨_, rfl⟩
  | euclidian_nil h =>
    rw [SequenceDef.GetSequence_selected, h]
    simp only [EuclidianDef.GetSequence, SequenceDef.GetSequencePtr]; exact ⟨_, rfl⟩
  | euclidian_body h _ ih =>
    obtain ⟨e, he⟩ := ih
    rw [SequenceDef.GetSequence_selected, h]
    simp only [EuclidianDef.GetSequence, SequenceDef.GetSequencePtr, he]; exact ⟨_, rfl⟩
  | play_note_every h herr =>
    rw [SequenceDef.GetSequence_selected, h]
    simp only [PlayNoteEveryDef.GetSequence, herr]; exact ⟨_, rfl⟩
  | play_note_duration h herr =>
    rw [SequenceDef.GetSequence_selected, h]
    simp only [PlayNoteEveryDef.GetSequence, herr]
    split <;> exact ⟨_, rfl⟩
  | play_note_auto_note h ha herr =>
    rw [SequenceDef.GetSequence_selected, h]
    simp only [PlayNoteEveryDef.GetSequence, ha, herr]
    split
    · exact ⟨_, rfl⟩
    · split <;> exact ⟨_, rfl⟩
  | play_note_note h ha hn =>
    rw [SequenceDef.GetSequence_selected, h]
    simp only [PlayNoteEveryDef.GetSequence, ha, hn]
    split
    · exact ⟨_, rfl⟩
    · split
      · exact ⟨_, rfl⟩
      · simp
  | play_note_auto_velocity h ha herr =>
    rw [SequenceDef.GetSequence_selected, h]
    simp only [PlayNoteEveryDef.GetSequence, ha, herr]
    split
    · exact ⟨_, rfl⟩
    · split
      · exact ⟨_, rfl⟩
      · split
        · exact ⟨_, rfl⟩
        · split <;> exact ⟨_, rfl⟩
  | play_note_velocity h ha hn =>
    rw [SequenceDef.GetSequence_selected, h]
    simp only [PlayNoteEveryDef.GetSequence, ha, hn]
    split
    · exact ⟨_, rfl⟩
    · split
      · exact ⟨_, rfl⟩
      · split
        · exact ⟨_, rfl⟩
        · split
          · exact ⟨_, rfl⟩
          · simp
  | play_notes_every h herr =>
    rw [SequenceDef.GetSequence_selected, h]
    simp only [PlayNotesEveryDef.GetSequence, herr]; exact ⟨_, rfl⟩
  | play_notes_duration h herr =>
    rw [SequenceDef.GetSequence_selected, h]
    simp only [PlayNotesEveryDef.GetSequence, herr]
    split <;> exact ⟨_, rfl⟩
  | play_notes_auto_notes h ha herr =>
    rw [SequenceDef.GetSequence_selected, h]
    simp only [PlayNotesEveryDef.GetSequence, ha, herr]
    split
    · exact ⟨_, rfl⟩
    · split <;> exact ⟨_, rfl⟩
  | int_parameter h herr =>
    rw [SequenceDef.GetSequence_selected]
    cases hs : SequenceDef.selected _ <;> simp only [hs, Selected.intParameter] at h <;>
      first
      | (cases h; done)
      | (cases h
         simp only [wrapTagged, ChannelAutomationDef.GetSequence, herr]
         exact ⟨_, rfl⟩)
  | float_parameter h herr =>
    rw [SequenceDef.GetSequence_selected]
    cases hs : SequenceDef.selected _ <;> simp only [hs, Selected.floatParameter] at h <;>
      first
      | (cases h; done)
      | (cases h
         simp only [wrapTagged, FloatChannelAutomationDef.GetSequence, herr]
         exact ⟨_, rfl⟩)
  | after_duration h herr =>
    rw [SequenceDef.GetSequence_selected, h]
    simp only [AfterDef.GetSequence, herr]; exact ⟨_, rfl⟩
  | after_body h _ ih =>
    obtain ⟨e, he⟩ := ih
    rw [SequenceDef.GetSequence_selected, h]
    simp only [AfterDef.GetSequence, he]
    split <;> exact ⟨_, rfl⟩
  | before_duration h herr =>
    rw [SequenceDef.GetSequence_selected, h]
    simp only [BeforeDef.GetSequence, herr]; exact ⟨_, rfl⟩
  | before_body h _ ih =>
    obtain ⟨e, he⟩ := ih
    rw [SequenceDef.GetSequence_selected, h]
    simp only [BeforeDef.GetSequence, he]
    split <;> exact ⟨_, rfl⟩
  | offset_duration h herr =>
    rw [SequenceDef.GetSequence_selected, h]
    simp only [OffsetDef.GetSequence, herr]; exact ⟨_, rfl⟩
  | offset_body h _ ih =>
    obtain ⟨e, he⟩ := ih
    rw [SequenceDef.GetSequence_selected, h]
    simp only [OffsetDef.GetSequence, he]
    split <;> exact ⟨_, rfl⟩
  | combine_nil h hm =>
    rw [SequenceDef.GetSequence_selected, h]
    obtain ⟨e, he⟩ := SequenceDef.combineLoop_fails seq none ⟨_, rfl⟩ _ [] hm
    simp only [he]; exact ⟨_, rfl⟩
  | combine_child h hm _ ih =>
    rw [SequenceDef.GetSequence_selected, h]
    obtain ⟨e, he⟩ := SequenceDef.combineLoop_fails seq (some _) ih _ [] hm
    simp only [he]; exact ⟨_, rfl⟩

/-- C10, counterexample. (1) For a failing `auto_note` of a `play_note` inside a `combine`
at index 3 the error is `sequence [3] > combine > play_note > auto_note > Missing automation`,
not `sequence[3] > combine > play_note > auto_note: missing automation`. (2) When
sequences 0 and 1 both fail to compile the error names index 0, not index 1. (3) A
failing `auto_velocity` of a `play_notes` node is tagged `play_note`. -/
theorem breadcrumb_text_differs :
    documentBadAutoNote.GetSequences exampleState
      = .error "sequence [3] > combine > play_note > auto_note > Missing automation" ∧
    "sequence [3] > combine > play_note > auto_note > Missing automation"
      ≠ "sequence[3] > combine > play_note > auto_note: missing automation" ∧
    (∃ err, (SequenceDef.ofPlayNote playNoteBadAutoNote).GetSequence exampleState
      = .error err) ∧
    documentTwoFailures.Sequences[1]? = some (SequenceDef.ofPlayNote playNoteBadAutoNote) ∧
    documentTwoFailures.GetSequences exampleState
      = .error "sequence [0] > sequence > Missing sequence" ∧
    documentBadAutoVelocity.GetSequences exampleState
      = .error "sequence [0] > play_note > auto_velocity > Missing automation" :=
  ⟨rfl, by decide, ⟨_, rfl⟩, rfl, rfl, rfl⟩

theorem SequenceDef.combineLoop_stops (seq : Sequencer) (child : Option SequenceDef)
    (post : List (Option SequenceDef)) (e : String)
    (hc : SequenceDef.GetSequencePtr seq child = .error e) :
    ∀ (pre : List (Option SequenceDef)) (acc : List Sequence),
      (∀ c ∈ pre, ∃ s, SequenceDef.GetSequencePtr seq c = .ok s) →
      SequenceDef.combineLoop seq (pre ++ child :: post) acc = .error (WrapError "combine" e)
  | [], acc, _ => by
    simp only [List.nil_append, SequenceDef.combineLoop, hc]
  | x :: rest, acc, hpre => by
    obtain ⟨s_, hx⟩ := hpre x (List.mem_cons_self _ _)
    simp only [List.cons_append, SequenceDef.combineLoop, hx]
    exact SequenceDef.combineLoop_stops seq child post e hc rest _
      (fun c hcm => hpre c (List.mem_cons_of_mem _ hcm))

/-- When the compilation stops at the `auto_velocity` of a `play_notes` node, the error is
made of the tags of the nodes above that node, the text the source writes for the
failing `auto_velocity`, and the failure description. -/
theorem FailsAtAutoVelocity.compile_error {seq : Sequencer} {d : SequenceDef}
    {tags : List String} {desc : String} (h : FailsAtAutoVelocity seq d tags desc) :
    d.GetSequence seq = .error (breadcrumb (tags ++ ["play_note", "auto_velocity"]) desc) := by
  induction h with
  | here h hevery hdur hnotes ha herr =>
    rename_i d p a every duration desc
    rw [SequenceDef.GetSequence_selected, h]
    simp only [PlayNotesEveryDef.GetSequence, hevery, hdur, ha, herr]
    cases hna : p.NotesAutomation with
    | none =>
      simp only [List.nil_append]
      exact congrArg Except.error (breadcrumb_two _ _ _ _ rfl)
    | some n =>
      obtain ⟨f, hf⟩ := hnotes n hna
      simp only [hf, List.nil_append]
      exact congrArg Except.error (breadcrumb_two _ _ _ _ rfl)
  | repeat_body h hevery _ ih =>
    rw [SequenceDef.GetSequence_selected, h]
    simp only [RepeatDef.GetSequence, SequenceDef.GetSequencePtr, hevery, ih]
    rfl
  | euclidian_body h _ ih =>
    rw [SequenceDef.GetSequence_selected, h]
    simp only [EuclidianDef.GetSequence, SequenceDef.GetSequencePtr, ih]
    rfl
  | after_body h hdur _ ih =>
    rw [SequenceDef.GetSequence_selected, h]
    simp only [AfterDef.GetSequence, hdur, ih]
    rfl
  | before_body h hdur _ ih =>
    rw [SequenceDef.GetSequence_selected, h]
    simp only [BeforeDef.GetSequence, hdur, ih]
    rfl
  | offset_body h hdur _ ih =>
    rw [SequenceDef.GetSequence_selected, h]
    simp only [OffsetDef.GetSequence, hdur, ih]
    rfl
  | combine_child h hpre _ ih =>
    rw [SequenceDef.GetSequence_selected, h]
    simp only [SequenceDef.combineLoop_stops seq (some _) _ _ ih _ [] hpre]
    rfl

/-- C10, amended. If the top-level sequence at index i is the first that fails to compile,
then: (1) unless its compilation stops at the `auto_velocity` of a `play_notes` node,
`GetSequences` returns the error text made of `sequence [i]` (with a space), the schema
tags of the nodes on a path from that top-level node down to a failing place, root
first, and the failure description, every part separated by ` > `; (2) when its
compilation stops at the `auto_velocity` of a `play_notes` node, the error text is made
in the same way of `sequence [i]`, the schema tags of the nodes above that `play_notes`
node, some tags for the failing place, which are not stated, and the failure
description. -/
theorem compile_error_breadcrumb (s : SequencerDef) (seq : Sequencer) (i : Nat)
    (d : SequenceDef) (e0 : String) (hi : s.Sequences[i]? = some d)
    (hfirst : ∀ j, j < i → ∃ d1 n, s.Sequences[j]? = some d1 ∧ d1.GetSequence seq = .ok n)
    (hfail : d.GetSequence seq = .error e0) :
    ((∀ tags desc, ¬ FailsAtAutoVelocity seq d tags desc) →
      ∃ tags desc, FailsAt seq d tags desc ∧
        s.GetSequences seq
          = .error (breadcrumb (("sequence [" ++ toString i ++ "]") :: tags) desc)) ∧
    (∀ tags desc, FailsAtAutoVelocity seq d tags desc →
      ∃ placeTags : List String,
        s.GetSequences seq
          = .error (breadcrumb (("sequence [" ++ toString i ++ "]") :: (tags ++ placeTags))
              desc)) := by
  have h := SequencerDef.getSequencesLoop_first_failure seq d e0 hfail s.Sequences i 0 []
    hi hfirst
  rw [Nat.zero_add] at h
  constructor
  · intro hvel
    obtain ⟨tags, desc, hf, he⟩ := SequenceDef_error_breadcrumb seq d e0 hvel hfail
    refine ⟨tags, desc, hf, ?_⟩
    rw [SequencerDef.GetSequences, h, he]
    rfl
  · intro tags desc hslip
    refine ⟨["play_note", "auto_velocity"], ?_⟩
    have he := hslip.compile_error
    rw [hfail] at he
    cases he
    rw [SequencerDef.GetSequences, h]
    rfl

theorem FailsAtAutoVelocity.not_ofPlayNote (seq : Sequencer) (p : PlayNoteEveryDef)
    (tags : List String) (desc : String) :
    ¬ FailsAtAutoVelocity seq (SequenceDef.ofPlayNote p) tags desc := by
  intro h
  cases h <;> simp_all [SequenceDef.ofPlayNote, SequenceDef.selected]

theorem FailsAtAutoVelocity.not_combineBadAutoNote (seq : Sequencer) (tags : List String)
    (desc : String) : ¬ FailsAtAutoVelocity seq combineBadAutoNote tags desc := by
  intro h
  cases h with
  | combine_child hsel hpre hc =>
    rename_i pre post child tags
    simp only [combineBadAutoNote, SequenceDef.selected, Selected.combine.injEq] at hsel
    have hm : some child ∈ pre ++ some child :: post := by simp
    rw [← hsel] at hm
    simp only [List.mem_cons, Option.some.injEq, List.mem_singleton, List.not_mem_nil,
      or_false] at hm
    rcases hm with rfl | rfl
    · exact FailsAtAutoVelocity.not_ofPlayNote _ _ _ _ hc
    · exact FailsAtAutoVelocity.not_ofPlayNote _ _ _ _ hc
  | here hsel => simp [combineBadAutoNote, SequenceDef.selected] at hsel
  | repeat_body hsel => simp [combineBadAutoNote, SequenceDef.selected] at hsel
  | euclidian_body hsel => simp [combineBadAutoNote, SequenceDef.selected] at hsel
  | after_body hsel => simp [combineBadAutoNote, SequenceDef.selected] at hsel
  | before_body hsel => simp [combineBadAutoNote, SequenceDef.selected] at hsel
  | offset_body hsel => simp [combineBadAutoNote, SequenceDef.selected] at hsel

theorem FailsAtAutoVelocity.not_sequenceBogusEvery (tags : List String) (desc : String) :
    ¬ FailsAtAutoVelocity exampleState sequenceBogusEvery tags desc := by
  intro h
  cases h with
  | here hsel hevery =>
    simp only [sequenceBogusEvery, SequenceDef.selected, Selected.play_notes.injEq] at hsel
    subst hsel
    cases hevery
  | combine_child hsel => simp [sequenceBogusEvery, SequenceDef.selected] at hsel
  | repeat_body hsel => simp [sequenceBogusEvery, SequenceDef.selected] at hsel
  | euclidian_body hsel => simp [sequenceBogusEvery, SequenceDef.selected] at hsel
  | after_body hsel => simp [sequenceBogusEvery, SequenceDef.selected] at hsel
  | before_body hsel => simp [sequenceBogusEvery, SequenceDef.selected] at hsel
  | offset_body hsel => simp [sequenceBogusEvery, SequenceDef.selected] at hsel

/-- C10, witness. (1) The document whose sequence 3 is a `combine` holding a `play_note`
with a failing `auto_note`; sequences 0, 1 and 2 compile. (2) A `play_notes` node whose
`every` is no duration and whose `auto_velocity` names no variant: the compilation stops
at `every`, and the error is the breadcrumb of that place. (3) A `repeat` of a
`play_notes` node with a failing `auto_velocity`: the error starts with `sequence [0]`
and `repeat` and ends with the failure description. -/
theorem compile_error_breadcrumb_witness :
    ((∃ tags desc, FailsAt exampleState combineBadAutoNote tags desc ∧
      documentBadAutoNote.GetSequences exampleState
        = .error (breadcrumb (("sequence [" ++ toString 3 ++ "]") :: tags) desc)) ∧
    documentBadAutoNote.GetSequences exampleState
      = .error (breadcrumb ["sequence [3]", "combine", "play_note", "auto_note"]
          "Missing automation")) ∧
    ((∃ tags desc, FailsAt exampleState sequenceBogusEvery tags desc ∧
      documentBogusEvery.GetSequences exampleState
        = .error (breadcrumb (("sequence [" ++ toString 0 ++ "]") :: tags) desc)) ∧
    documentBogusEvery.GetSequences exampleState
      = .error (breadcrumb ["sequence [0]", "play_notes"] "Unknown duration type 'Bogus'")) ∧
    (∃ placeTags : List String,
      documentRepeatBadAutoVelocity.GetSequences exampleState
        = .error (breadcrumb (("sequence [" ++ toString 0 ++ "]") :: (["repeat"] ++ placeTags))
            "Missing automation")) :=
  ⟨⟨(compile_error_breadcrumb documentBadAutoNote exampleState 3 combineBadAutoNote
      "combine > play_note > auto_note > Missing automation" rfl
      (fun j hj => by
        have hcases : j = 0 ∨ j = 1 ∨ j = 2 := by omega
        rcases hcases with rfl | rfl | rfl <;> exact ⟨_, _, rfl, rfl⟩)
      rfl).1 (FailsAtAutoVelocity.not_combineBadAutoNote _),
    rfl⟩,
   ⟨(compile_error_breadcrumb documentBogusEvery exampleState 0 sequenceBogusEvery
      "play_notes > Unknown duration type 'Bogus'" rfl
      (fun j hj => absurd hj (Nat.not_lt_zero j))
      rfl).1 FailsAtAutoVelocity.not_sequenceBogusEvery,
    rfl⟩,
   (compile_error_breadcrumb documentRepeatBadAutoVelocity exampleState 0
      repeatBadAutoVelocity "repeat > play_note > auto_velocity > Missing automation" rfl
      (fun j hj => absurd hj (Nat.not_lt_zero j))
      rfl).2 ["repeat"] "Missing automation"
      (FailsAtAutoVelocity.repeat_body rfl rfl
        (FailsAtAutoVelocity.here rfl rfl rfl (fun n hn => by cases hn) rfl rfl))⟩

/-! ## All-or-nothing compilation (C11) -/

theorem forall₂_compiles_of_mem (seq : Sequencer) {l : List SequenceDef} {out : List Sequence}
    (h : List.Forall₂ (fun d n => SequenceDef.GetSequence seq d = .ok n) l out) :
    ∀ d, d ∈ l → ∃ n, SequenceDef.GetSequence seq d = .ok n := by
  induction h with
  | nil => intro d hd; cases hd
  | cons hd _ ih =>
    intro d hmem
    rcases List.mem_cons.1 hmem with rfl | hr
    · exact ⟨_, hd⟩
    · exact ih d hr

theorem SequencerDef.getSequencesLoop_success (seq : Sequencer) :
    ∀ (l : List SequenceDef) (i : Nat) (acc out : List Sequence),
      List.Forall₂ (fun d n => d.GetSequence seq = .ok n) l out →
      SequencerDef.getSequencesLoop seq l i acc = .ok (acc ++ out)
  | [], _, acc, out, h => by
    cases h
    simp [SequencerDef.getSequencesLoop]
  | d :: rest, i, acc, out, h => by
    cases h with
    | cons hd hrest =>
      simp only [SequencerDef.getSequencesLoop, hd]
      rw [SequencerDef.getSequencesLoop_success seq rest (i + 1) _ _ hrest]
      simp

theorem SequencerDef.compiles_or_first_failure (seq : Sequencer) :
    ∀ l : List SequenceDef,
      (∃ out, List.Forall₂ (fun d n => d.GetSequence seq = .ok n) l out) ∨
      (∃ (k : Nat) (d : SequenceDef) (e0 : String), l[k]? = some d ∧ d.GetSequence seq = .error e0 ∧
        ∀ j, j < k → ∃ (d1 : SequenceDef) (n : Sequence), l[j]? = some d1 ∧
          d1.GetSequence seq = .ok n)
  | [] => Or.inl ⟨[], List.Forall₂.nil⟩
  | d :: rest => by
    cases hd : d.GetSequence seq with
    | error e0 =>
      exact Or.inr ⟨0, d, e0, by simp, hd, fun j hj => absurd hj (Nat.not_lt_zero j)⟩
    | ok n =>
      rcases SequencerDef.compiles_or_first_failure seq rest with ⟨out, hout⟩ | ⟨k, d1, e0, hk, he, hfirst⟩
      · exact Or.inl ⟨n :: out, List.Forall₂.cons hd hout⟩
      · refine Or.inr ⟨k + 1, d1, e0, by simpa using hk, he, ?_⟩
        intro j hj
        cases j with
        | zero => exact ⟨d, n, by simp, hd⟩
        | succ j =>
          obtain ⟨d2, m, h2, hok⟩ := hfirst j (by omega)
          exact ⟨d2, m, by simpa using h2, hok⟩

/-- C11. `GetSequences` is all-or-nothing. Either some top-level definition fails to
compile, and then the result is an error (no list), wrapped with the index of the first
definition that fails; or the result is a list that holds exactly one compiled node per
definition, in the order of the definitions. It is an error exactly when at least one
top-level definition fails to compile. -/
theorem getSequences_all_or_nothing (s : SequencerDef) (seq : Sequencer) :
    ((∃ (i : Nat) (d : SequenceDef) (e0 : String), s.Sequences[i]? = some d ∧ d.GetSequence seq = .error e0 ∧
        (∀ j, j < i → ∃ (d1 : SequenceDef) (n : Sequence), s.Sequences[j]? = some d1 ∧
          d1.GetSequence seq = .ok n) ∧
        s.GetSequences seq = .error (WrapError ("sequence [" ++ toString i ++ "]") e0)) ∨
      (∃ l, s.GetSequences seq = .ok l ∧ l.length = s.Sequences.length ∧
        List.Forall₂ (fun d n => d.GetSequence seq = .ok n) s.Sequences l)) ∧
    ((∃ e, s.GetSequences seq = .error e) ↔
      ∃ d, d ∈ s.Sequences ∧ ∃ e0, d.GetSequence seq = .error e0) := by
  have hdich : (∃ (i : Nat) (d : SequenceDef) (e0 : String), s.Sequences[i]? = some d ∧ d.GetSequence seq = .error e0 ∧
        (∀ j, j < i → ∃ (d1 : SequenceDef) (n : Sequence), s.Sequences[j]? = some d1 ∧
          d1.GetSequence seq = .ok n) ∧
        s.GetSequences seq = .error (WrapError ("sequence [" ++ toString i ++ "]") e0)) ∨
      (∃ l, s.GetSequences seq = .ok l ∧ l.length = s.Sequences.length ∧
        List.Forall₂ (fun d n => d.GetSequence seq = .ok n) s.Sequences l) := by
    rcases SequencerDef.compiles_or_first_failure seq s.Sequences with
      ⟨out, hout⟩ | ⟨k, d, e0, hk, he, hfirst⟩
    · refine Or.inr ⟨out, ?_, hout.length_eq.symm, hout⟩
      have h := SequencerDef.getSequencesLoop_success seq s.Sequences 0 [] out hout
      simpa [SequencerDef.GetSequences] using h
    · refine Or.inl ⟨k, d, e0, hk, he, hfirst, ?_⟩
      have h := SequencerDef.getSequencesLoop_first_failure seq d e0 he s.Sequences k 0 []
        hk hfirst
      rw [Nat.zero_add] at h
      exact h
  refine ⟨hdich, ?_⟩
  constructor
  · rintro ⟨e, he⟩
    rcases hdich with ⟨i, d, e0, hi, hd, _, _⟩ | ⟨l, hl, _, _⟩
    · exact ⟨d, List.getElem?_mem hi, e0, hd⟩
    · rw [hl] at he
      cases he
  · rintro ⟨d, hmem, e0, hd⟩
    rcases hdich with ⟨i, d1, e1, _, _, _, herr⟩ | ⟨l, _, _, hall⟩
    · exact ⟨_, herr⟩
    · obtain ⟨n, hn⟩ := forall₂_compiles_of_mem seq hall d hmem
      rw [hn] at hd
      cases hd

/-! ## Successful reload (C12) -/

/-- C12. For a state with a source file whose document re-parses and whose sequences
compile (with durations resolved against the document's granularity), Reload gives the
state whose bpm, granularity and initial channel setup are the document's, whose
sequences are those compiled sequences and whose time is 0; no other field changes. -/
theorem reload_success (fs : FileSystem) (seq : Sequencer) (s : SequencerDef)
    (seqs : List Sequence) (hfile : seq.FromFile ≠ "")
    (hparse : NewSequencerDefFromFile fs seq.FromFile = .ok s)
    (hcompile : s.GetSequences (NewSequencer s.BPM s.Granularity) = .ok seqs) :
    seq.dispatchEvent fs ⟨EventType.ReloadSequencer⟩
      = { seq with Time := 0, BPM := s.BPM, Granularity := s.Granularity,
                   InitialChannelSetup := s.Channels.Channels, Sequences := seqs } := by
  have hc : s.GetSequences
      { seq with Time := 0, BPM := s.BPM, Granularity := s.Granularity,
                 InitialChannelSetup := s.Channels.Channels } = .ok seqs := by
    rw [← hcompile]
    exact SequencerDef.GetSequences_congr s _ _ rfl
  simp [Sequencer.dispatchEvent, hfile, hparse, hc]

/-- C12, witness: reloading `exampleState` (bpm 120, granularity 8, tick 7) from
`goodDocument` gives bpm 90, granularity 16, tick 0 and the `play_note` compiled at
granularity 16 (every 16 ticks, duration 8 ticks). -/
theorem reload_success_witness :
    exampleState.dispatchEvent goodDocumentFs ⟨EventType.ReloadSequencer⟩
      = { exampleState with
          Time := 0
          BPM := 90
          Granularity := 16
          InitialChannelSetup := []
          Sequences := [Sequence.PlayNoteEveryAutomation 16 8 0
            (IntAutomation.IntIdAutomation 60) (IntAutomation.IntIdAutomation 100)] } :=
  reload_success goodDocumentFs exampleState goodDocument _ (by decide) rfl rfl

/-! ## Initial channel setup (C15, C16) -/

theorem Sequencer.loadChannel_append (rt : Runtime) (seq : Sequencer) (c : ChannelDef)
    (s : List Synth.Event) : seq.loadChannel rt c s = s ++ seq.loadChannel rt c [] := by
  simp only [Sequencer.loadChannel]
  split <;> split <;> split <;> (try split) <;> (try split) <;>
    simp only [List.append_assoc, List.nil_append, List.append_nil]

theorem Sequencer.loadInstrumentsLoop_eq (rt : Runtime) (seq : Sequencer) :
    ∀ (l : List ChannelDef) (s : List Synth.Event),
      Sequencer.loadInstrumentsLoop rt seq l s
        = s ++ l.flatMap (fun c => seq.loadChannel rt c [])
  | [], s => by simp [Sequencer.loadInstrumentsLoop]
  | c :: rest, s => by
    simp only [Sequencer.loadInstrumentsLoop, List.flatMap_cons]
    rw [Sequencer.loadInstrumentsLoop_eq rt seq rest, Sequencer.loadChannel_append]
    simp only [List.append_assoc]

theorem Sequencer.loadChannel_block (rt : Runtime) (seq : Sequencer) (c : ChannelDef) :
    seq.loadChannel rt c []
      = (if c.Channel ≠ 9 then
          match c.Generator with
          | none => [Synth.Event.NewEvent .ProgramChange c.Channel [c.Instrument]]
          | some g =>
            match g.Validate with
            | some _ => []
            | none => [Synth.Event.NewInstrumentEvent .SetInstrument c.Channel g.Generator]
         else [])
        ++ (parameterEvents rt seq.BPM c ++ grainEvents c) := by
  simp only [Sequencer.loadChannel, parameterEvents, grainEvents]
  split <;> split <;> split <;> (try split) <;> (try split) <;>
    simp_all only [List.append_assoc, List.nil_append, List.append_nil, List.cons_append,
      List.singleton_append]

theorem parameterEvents_not_instrument (rt : Runtime) (bpm : ℚ) (c : ChannelDef) :
    ∀ e ∈ parameterEvents rt bpm c ++ grainEvents c, e.isInstrumentAssignment = false := by
  intro e he
  simp only [parameterEvents, grainEvents] at he
  split at he <;> split at he <;>
    simp only [List.append_nil, List.cons_append, List.nil_append, List.mem_cons,
      List.mem_singleton, List.not_mem_nil, or_false] at he <;>
    (casesm* _ ∨ _) <;> subst_vars <;>
    simp [Synth.Event.isInstrumentAssignment, Synth.Event.Type_]

/-- C15. `loadInstruments` emits one block of events per channel config, in config
order. Each block is made of instrument-assignment events (if any) followed by the
parameter events in exactly the order SetTremelo, SetReverb, SetLPFCutoff, SetHPFCutoff,
SetChannelVolume, SetChannelPanning, SetReverbFeedback, SetReverbTime, followed, if and
only if a grain config is present, by SetGrain, SetGrainGain, SetGrainSize,
SetGrainBirthRate, SetGrainSpread, SetGrainSpeed, SetGrainDensity, each carrying the
channel's number and configured value. When the reverb-time field is invalid only the
SetReverbTime event is missing from the block. -/
theorem load_instruments_blocks (rt : Runtime) (seq : Sequencer) (s : List Synth.Event) :
    seq.loadInstruments rt s
      = s ++ seq.InitialChannelSetup.flatMap (fun c => seq.loadChannel rt c []) ∧
    (∀ c : ChannelDef, ∃ pre : List Synth.Event,
      (∀ e ∈ pre, e.isInstrumentAssignment = true) ∧
      seq.loadChannel rt c [] = pre ++ parameterEvents rt seq.BPM c ++ grainEvents c ∧
      (seq.loadChannel rt c []).filter (fun e => !e.isInstrumentAssignment)
        = parameterEvents rt seq.BPM c ++ grainEvents c) ∧
    (∀ c : ChannelDef,
      (parameterEvents rt seq.BPM c).map Synth.Event.Type_
        = [.SetTremelo, .SetReverb, .SetLPFCutoff, .SetHPFCutoff, .SetChannelVolume,
            .SetChannelPanning, .SetReverbFeedback]
          ++ (match rt.ParseDuration c.ReverbTime seq.BPM with
              | .ok _ => [.SetReverbTime]
              | .error _ => []) ∧
      (grainEvents c).map Synth.Event.Type_
        = (if c.Grain.isSome then
            [.SetGrain, .SetGrainGain, .SetGrainSize, .SetGrainBirthRate, .SetGrainSpread,
              .SetGrainSpeed, .SetGrainDensity]
           else []) ∧
      (∀ e ∈ parameterEvents rt seq.BPM c ++ grainEvents c, e.Channel = c.Channel)) := by
  refine ⟨Sequencer.loadInstrumentsLoop_eq rt seq _ s, ?_, ?_⟩
  · intro c
    have hblock := Sequencer.loadChannel_block rt seq c
    have hrest := parameterEvents_not_instrument rt seq.BPM c
    refine ⟨_, ?_, by rw [hblock, List.append_assoc], ?_⟩
    · intro e he
      split at he
      · split at he
        · simp only [List.mem_singleton] at he
          subst he
          simp [Synth.Event.isInstrumentAssignment, Synth.Event.Type_]
        · split at he
          · cases he
          · simp only [List.mem_singleton] at he
            subst he
            simp [Synth.Event.isInstrumentAssignment, Synth.Event.Type_]
      · cases he
    · rw [hblock, List.filter_append]
      have h2 : (parameterEvents rt seq.BPM c ++ grainEvents c).filter
          (fun e => !e.isInstrumentAssignment)
          = parameterEvents rt seq.BPM c ++ grainEvents c := by
        rw [List.filter_eq_self]
        intro e he
        simp [hrest e he]
      rw [h2]
      have h1 : ∀ l : List Synth.Event, (∀ e ∈ l, e.isInstrumentAssignment = true) →
          l.filter (fun e => !e.isInstrumentAssignment) = [] := by
        intro l hl
        rw [List.filter_eq_nil_iff]
        intro e he
        simp [hl e he]
      rw [h1, List.nil_append]
      intro e he
      split at he
      · split at he
        · simp only [List.mem_singleton] at he
          subst he
          simp [Synth.Event.isInstrumentAssignment, Synth.Event.Type_]
        · split at he
          · cases he
          · simp only [List.mem_singleton] at he
            subst he
            simp [Synth.Event.isInstrumentAssignment, Synth.Event.Type_]
      · cases he
  · intro c
    refine ⟨?_, ?_, ?_⟩
    · simp only [parameterEvents]
      split <;> simp [Synth.Event.Type_]
    · simp only [grainEvents]
      split <;> simp_all [Synth.Event.Type_]
    · intro e he
      simp only [parameterEvents, grainEvents] at he
      split at he <;> split at he <;>
        simp only [List.append_nil, List.cons_append, List.nil_append, List.mem_cons,
          List.mem_singleton, List.not_mem_nil, or_false] at he <;>
        (casesm* _ ∨ _) <;> subst_vars <;> simp [Synth.Event.Channel]

/-- C16, counterexample. `invalidGeneratorChannel` is on channel 1 and has a generator
configured, but the generator fails validation: its block holds no instrument-assignment
event at all. -/
theorem invalid_generator_no_assignment :
    invalidGeneratorChannel.Channel ≠ 9 ∧
    invalidGeneratorChannel.Generator.isSome = true ∧
    exampleState.loadChannel exampleRuntime invalidGeneratorChannel []
      = [ Synth.Event.NewEvent .SetTremelo 1 [1],
          Synth.Event.NewEvent .SetReverb 1 [2],
          Synth.Event.NewEvent .SetLPFCutoff 1 [3],
          Synth.Event.NewEvent .SetHPFCutoff 1 [4],
          Synth.Event.NewEvent .SetChannelVolume 1 [100],
          Synth.Event.NewEvent .SetChannelPanning 1 [64],
          Synth.Event.NewFloatEvent .SetReverbFeedback 1 [1 / 4] ] ∧
    (exampleState.loadChannel exampleRuntime invalidGeneratorChannel []).filter
        Synth.Event.isInstrumentAssignment = [] := by
  refine ⟨by decide, rfl, rfl, ?_⟩
  decide

/-- C16, amended. A channel block begins with exactly one instrument-assignment event
when the channel is not 9 and either no generator is configured (`ProgramChange` carrying
the configured instrument) or the configured generator passes validation
(`SetInstrument`); it holds no instrument-assignment event when the channel is 9 or when
the configured generator fails validation. The rest of the block never holds one. -/
theorem instrument_assignment (rt : Runtime) (seq : Sequencer) (c : ChannelDef) :
    (c.Channel ≠ 9 → c.Generator = none →
      seq.loadChannel rt c []
        = Synth.Event.NewEvent .ProgramChange c.Channel [c.Instrument]
          :: (parameterEvents rt seq.BPM c ++ grainEvents c)) ∧
    (∀ g : GeneratorDef, c.Channel ≠ 9 → c.Generator = some g → g.Validate = none →
      seq.loadChannel rt c []
        = Synth.Event.NewInstrumentEvent .SetInstrument c.Channel g.Generator
          :: (parameterEvents rt seq.BPM c ++ grainEvents c)) ∧
    (∀ (g : GeneratorDef) (err : String), c.Channel ≠ 9 → c.Generator = some g →
      g.Validate = some err →
      seq.loadChannel rt c [] = parameterEvents rt seq.BPM c ++ grainEvents c) ∧
    (c.Channel = 9 →
      seq.loadChannel rt c [] = parameterEvents rt seq.BPM c ++ grainEvents c) ∧
    (∀ e ∈ parameterEvents rt seq.BPM c ++ grainEvents c,
      e.isInstrumentAssignment = false) := by
  have hblock := Sequencer.loadChannel_block rt seq c
  refine ⟨?_, ?_, ?_, ?_, parameterEvents_not_instrument rt seq.BPM c⟩
  · intro h9 hg
    rw [hblock]; simp [h9, hg]
  · intro g h9 hg hv
    rw [hblock]; simp [h9, hg, hv]
  · intro g err h9 hg hv
    rw [hblock]; simp [h9, hg, hv]
  · intro h9
    rw [hblock]; simp [h9]

/-! ## One tick (C14) -/

theorem Sequencer.invokeLoop_eq (rt : Runtime) (seq : Sequencer) :
    ∀ (l : List Sequence) (s : List Synth.Event),
      Sequencer.invokeLoop rt seq l s
        = s ++ l.flatMap (fun q => rt.Invoke q seq seq.Time seq.Time)
  | [], s => by simp [Sequencer.invokeLoop]
  | q :: rest, s => by
    simp only [Sequencer.invokeLoop, List.flatMap_cons]
    rw [Sequencer.invokeLoop_eq rt seq rest]
    simp only [List.append_assoc]

/-- The events of one tick: at tick 0 `SilenceAllChannels` and the channel blocks, then
the events of the top-level sequences in order. -/
theorem Sequencer.tick_events_eq (rt : Runtime) (seq : Sequencer) (s : List Synth.Event) :
    (seq.tick rt s).2
      = s ++ (if seq.Time = 0 then
               Synth.Event.NewEvent .SilenceAllChannels 0 []
                 :: seq.InitialChannelSetup.flatMap (fun c => seq.loadChannel rt c [])
              else [])
          ++ seq.Sequences.flatMap (fun q => rt.Invoke q seq seq.Time seq.Time) := by
  simp only [Sequencer.tick, Sequencer.invokeLoop_eq, Sequencer.loadInstruments,
    Sequencer.loadInstrumentsLoop_eq]
  split <;> simp

/-- C14, counterexample. At tick 2^64 - 1 the increment of the unsigned counter wraps:
after the tick the counter is 0, not 2^64. -/
theorem tick_wraps_at_last_tick :
    lastTickState.Time < UINT_SIZE ∧
    lastTickState.Time = 18446744073709551615 ∧
    (lastTickState.tick exampleRuntime []).1.Time = 0 ∧
    (lastTickState.tick exampleRuntime []).1.Time ≠ lastTickState.Time + 1 := by
  refine ⟨by decide, rfl, by decide, by decide⟩

/-- C14, amended. For every state the events emitted by one tick are: if time = 0,
`SilenceAllChannels` followed by the initial channel setup events, otherwise nothing;
then the events of each top-level sequence in declared order, each called with
counter = t = the current time. After that the counter is time + 1 reduced modulo 2^64,
which is exactly time + 1 for every time below 2^64 - 1. The first event of a freshly
started engine is `SilenceAllChannels`, whatever the setup list and the sequence list. -/
theorem tick_events (rt : Runtime) (seq : Sequencer) (s : List Synth.Event) :
    (seq.tick rt s).2
      = s ++ (if seq.Time = 0 then
               Synth.Event.NewEvent .SilenceAllChannels 0 [] :: seq.loadInstruments rt []
              else [])
          ++ seq.Sequences.flatMap (fun q => rt.Invoke q seq seq.Time seq.Time) ∧
    (seq.tick rt s).1 = { seq with Time := (seq.Time + 1) % UINT_SIZE } ∧
    (seq.Time + 1 < UINT_SIZE → (seq.tick rt s).1.Time = seq.Time + 1) ∧
    (seq.startInit.tick rt []).2.head?
      = some (Synth.Event.NewEvent .SilenceAllChannels 0 []) := by
  have hload : seq.loadInstruments rt []
      = seq.InitialChannelSetup.flatMap (fun c => seq.loadChannel rt c []) := by
    simp [Sequencer.loadInstruments, Sequencer.loadInstrumentsLoop_eq]
  refine ⟨?_, rfl, ?_, ?_⟩
  · rw [hload]; exact Sequencer.tick_events_eq rt seq s
  · intro h
    show (seq.Time + 1) % UINT_SIZE = seq.Time + 1
    exact Nat.mod_eq_of_lt h
  · rw [Sequencer.tick_events_eq]
    simp [Sequencer.startInit]

/-- C14, witness of the range condition: from tick 7 the tick leads to tick 8. -/
theorem tick_events_witness : (exampleState.tick exampleRuntime []).1.Time = 8 :=
  (tick_events exampleRuntime exampleState []).2.2.1 (by decide)

/-! ## The drain step (C19) -/

theorem Sequencer.drainLoop_no_quit (fs : FileSystem) :
    ∀ (q : List SequencerEvent) (seq : Sequencer),
      (∀ ev ∈ q, ev.Type_ ≠ EventType.QuitSequencer) →
      Sequencer.drainLoop fs q seq
        = ({ (q.foldl (fun st ev => st.dispatchEvent fs ev) seq) with Inputs := [] }, false)
  | [], seq, _ => by simp [Sequencer.drainLoop]
  | ev :: rest, seq, h => by
    have hev : ev.Type_ ≠ EventType.QuitSequencer := h ev (List.mem_cons_self _ _)
    simp only [Sequencer.drainLoop, hev, if_false, List.foldl_cons]
    exact Sequencer.drainLoop_no_quit fs rest _ (fun x hx => h x (List.mem_cons_of_mem _ hx))

theorem Sequencer.drainLoop_quit (fs : FileSystem) (post : List SequencerEvent) :
    ∀ (pre : List SequencerEvent) (seq : Sequencer),
      (∀ ev ∈ pre, ev.Type_ ≠ EventType.QuitSequencer) →
      Sequencer.drainLoop fs (pre ++ ⟨EventType.QuitSequencer⟩ :: post) seq
        = ({ (pre.foldl (fun st ev => st.dispatchEvent fs ev) seq) with Inputs := post }, true)
  | [], seq, _ => by simp [Sequencer.drainLoop]
  | ev :: rest, seq, h => by
    have hev : ev.Type_ ≠ EventType.QuitSequencer := h ev (List.mem_cons_self _ _)
    simp only [List.cons_append, Sequencer.drainLoop, hev, if_false, List.foldl_cons]
    exact Sequencer.drainLoop_quit fs post rest _
      (fun x hx => h x (List.mem_cons_of_mem _ hx))

theorem Sequencer.drainLoop_terminates_iff (fs : FileSystem) :
    ∀ (q : List SequencerEvent) (seq : Sequencer),
      (Sequencer.drainLoop fs q seq).2 = true ↔ ∃ ev ∈ q, ev.Type_ = EventType.QuitSequencer
  | [], seq => by simp [Sequencer.drainLoop]
  | ev :: rest, seq => by
    simp only [Sequencer.drainLoop]
    by_cases hev : ev.Type_ = EventType.QuitSequencer
    · simp [hev]
    · simp only [hev, if_false, List.mem_cons, exists_eq_or_imp, false_or]
      exact Sequencer.drainLoop_terminates_iff fs rest _

/-- C19. The drain applies the queued messages in FIFO order up to but not including the
first Quit. If the queue is `pre`, a Quit, `post` with no Quit in `pre`, the task returns,
the state is the one obtained by applying the messages of `pre` in order (the Quit changes
no field), and exactly the messages of `post` stay in the queue, not applied. If the queue
holds no Quit, every message is applied in order, the queue is left empty and the task
goes on. The task returns in the drain if and only if the queue holds a Quit. -/
theorem drain_fifo (fs : FileSystem) (seq : Sequencer) :
    (∀ pre post : List SequencerEvent,
      seq.Inputs = pre ++ ⟨EventType.QuitSequencer⟩ :: post →
      (∀ ev ∈ pre, ev.Type_ ≠ EventType.QuitSequencer) →
      seq.drain fs
        = ({ (pre.foldl (fun st ev => st.dispatchEvent fs ev) seq) with Inputs := post },
           true)) ∧
    ((∀ ev ∈ seq.Inputs, ev.Type_ ≠ EventType.QuitSequencer) →
      seq.drain fs
        = ({ (seq.Inputs.foldl (fun st ev => st.dispatchEvent fs ev) seq) with Inputs := [] },
           false)) ∧
    ((seq.drain fs).2 = true ↔ ∃ ev ∈ seq.Inputs, ev.Type_ = EventType.QuitSequencer) := by
  refine ⟨?_, ?_, ?_⟩
  · intro pre post hq hpre
    rw [Sequencer.drain, hq]
    exact Sequencer.drainLoop_quit fs post pre seq hpre
  · intro h
    exact Sequencer.drainLoop_no_quit fs seq.Inputs seq h
  · exact Sequencer.drainLoop_terminates_iff fs seq.Inputs seq

theorem tick_events_aux (rt : Runtime) (seq : Sequencer) (s : List Synth.Event) :
    (seq.tick rt s).2
      = s ++ (if seq.Time = 0 then
               Synth.Event.NewEvent .SilenceAllChannels 0 [] :: seq.loadInstruments rt []
              else [])
          ++ seq.Sequences.flatMap (fun q => rt.Invoke q seq seq.Time seq.Time) := by
  have hload : seq.loadInstruments rt []
      = seq.InitialChannelSetup.flatMap (fun c => seq.loadChannel rt c []) := by
    simp [Sequencer.loadInstruments, Sequencer.loadInstrumentsLoop_eq]
  rw [hload]; exact Sequencer.tick_events_eq rt seq s

/-- C19, witness: with IncreaseBPM, Quit, Restart queued, the drain applies the
IncreaseBPM only (bpm 130, the tick counter stays at 7), leaves the Restart in the queue
and the task returns. -/
theorem drain_fifo_witness :
    quitQueuedState.drain unreadableFs
      = ({ exampleState with BPM := 130, Inputs := [⟨EventType.RestartSequencer⟩] }, true) ∧
    (quitQueuedState.drain unreadableFs).1.Time = 7 := by
  have h := (drain_fifo unreadableFs quitQueuedState).1 [⟨EventType.IncreaseBPM⟩]
    [⟨EventType.RestartSequencer⟩] rfl (by decide)
  have hstate : ({ ([(⟨EventType.IncreaseBPM⟩ : SequencerEvent)].foldl
        (fun st ev => st.dispatchEvent unreadableFs ev) quitQueuedState) with
        Inputs := [⟨EventType.RestartSequencer⟩] } : Sequencer)
      = { exampleState with BPM := 130, Inputs := [⟨EventType.RestartSequencer⟩] } := by
    simp [Sequencer.dispatchEvent, quitQueuedState, exampleState, NewSequencer]
    norm_num
  rw [h, hstate]
  exact ⟨rfl, rfl⟩

/-! ## Restart (C13) -/

theorem Sequencer.dispatchEvent_time_zero (fs : FileSystem) (seq : Sequencer)
    (ev : SequencerEvent) (hfwd : ev.Type_ ≠ EventType.ForwardSequencer)
    (h0 : seq.Time = 0) : (seq.dispatchEvent fs ev).Time = 0 := by
  obtain ⟨ty⟩ := ev
  cases ty
  · simp [Sequencer.dispatchEvent]
  · simp only [Sequencer.dispatchEvent]
    simp only [reduceCtorEq, if_false, if_true]
    split
    · split
      · rfl
      · split <;> rfl
    · rfl
  · exact absurd rfl hfwd
  · simp only [Sequencer.dispatchEvent]
    simp only [reduceCtorEq, if_false, if_true, h0]
    split
    · rfl
    · show (0 + UINT_SIZE - toUint seq.Granularity * 16 % UINT_SIZE) % UINT_SIZE = 0
      unfold UINT_SIZE at *
      omega
  · simp [Sequencer.dispatchEvent, h0]
  · simp only [Sequencer.dispatchEvent]
    simp only [reduceCtorEq, if_false, if_true]
    split <;> exact h0
  · simp [Sequencer.dispatchEvent]

theorem Sequencer.foldl_time_zero (fs : FileSystem) :
    ∀ (q : List SequencerEvent) (seq : Sequencer),
      (∀ ev ∈ q, ev.Type_ ≠ EventType.ForwardSequencer) → seq.Time = 0 →
      (q.foldl (fun st ev => st.dispatchEvent fs ev) seq).Time = 0
  | [], seq, _, h0 => by simpa using h0
  | ev :: rest, seq, h, h0 => by
    simp only [List.foldl_cons]
    exact Sequencer.foldl_time_zero fs rest _
      (fun x hx => h x (List.mem_cons_of_mem _ hx))
      (Sequencer.dispatchEvent_time_zero fs seq ev (h ev (List.mem_cons_self _ _)) h0)

/-- C13, counterexample. With a Restart followed by a Forward in the queue, the Restart
is drained and the task goes on, but after the drain the counter is 128 (16 times the
granularity 8), and the next tick emits no `SilenceAllChannels` and no channel setup.
With a Restart followed by a Quit, the task returns in the drain: there is no next
tick. -/
theorem restart_then_forward :
    (restartForwardState.drain unreadableFs).2 = false ∧
    (restartForwardState.drain unreadableFs).1.Time = 128 ∧
    ((restartForwardState.drain unreadableFs).1.tick exampleRuntime []).2 = [] ∧
    (restartQuitState.drain unreadableFs).2 = true := by
  refine ⟨rfl, by decide, rfl, rfl⟩

/-- C13, amended. Dispatching a Restart sets time to 0. If a Restart is drained at the
end of a tick (the queue is `pre`, the Restart, `post`, with no Quit in `pre`) and no Quit
is queued behind it, the task goes on and the state after the drain is the one obtained
by applying `pre`, the Restart and `post` in order. If moreover no Forward is drained
after the Restart, time is 0 after the drain and the next tick emits
`SilenceAllChannels`, then the initial channel setup, then the events of the sequences
called with counter = t = 0. In any case the next tick re-emits that setup, before any
sequence event, whenever time is 0 after the drain, and emits only the events of the
sequences when it is not. -/
theorem restart_then_setup (fs : FileSystem) (rt : Runtime) (seq : Sequencer)
    (pre post : List SequencerEvent) (s : List Synth.Event)
    (hq : seq.Inputs = pre ++ ⟨EventType.RestartSequencer⟩ :: post)
    (hpre : ∀ ev ∈ pre, ev.Type_ ≠ EventType.QuitSequencer) :
    (∀ st : Sequencer, (st.dispatchEvent fs ⟨EventType.RestartSequencer⟩).Time = 0) ∧
    ((∀ ev ∈ post, ev.Type_ ≠ EventType.QuitSequencer) →
      (seq.drain fs).2 = false ∧
      (seq.drain fs).1
        = { (post.foldl (fun st ev => st.dispatchEvent fs ev)
              ((pre.foldl (fun st ev => st.dispatchEvent fs ev) seq).dispatchEvent fs
                ⟨EventType.RestartSequencer⟩)) with Inputs := [] }) ∧
    ((∀ ev ∈ post, ev.Type_ ≠ EventType.QuitSequencer) →
      (∀ ev ∈ post, ev.Type_ ≠ EventType.ForwardSequencer) →
      (seq.drain fs).1.Time = 0 ∧
      ((seq.drain fs).1.tick rt s).2
        = s ++ Synth.Event.NewEvent .SilenceAllChannels 0 []
              :: (seq.drain fs).1.loadInstruments rt []
            ++ (seq.drain fs).1.Sequences.flatMap
                (fun q => rt.Invoke q (seq.drain fs).1 0 0)) ∧
    ((seq.drain fs).1.Time = 0 →
      ((seq.drain fs).1.tick rt s).2
        = s ++ Synth.Event.NewEvent .SilenceAllChannels 0 []
              :: (seq.drain fs).1.loadInstruments rt []
            ++ (seq.drain fs).1.Sequences.flatMap
                (fun q => rt.Invoke q (seq.drain fs).1 0 0)) ∧
    ((seq.drain fs).1.Time ≠ 0 →
      ((seq.drain fs).1.tick rt s).2
        = s ++ (seq.drain fs).1.Sequences.flatMap
            (fun q => rt.Invoke q (seq.drain fs).1 (seq.drain fs).1.Time
              (seq.drain fs).1.Time)) := by
  have hrestart : ∀ st : Sequencer,
      (st.dispatchEvent fs ⟨EventType.RestartSequencer⟩).Time = 0 := by
    intro st
    simp [Sequencer.dispatchEvent]
  have hnq : (∀ ev ∈ post, ev.Type_ ≠ EventType.QuitSequencer) →
      ∀ ev ∈ seq.Inputs, ev.Type_ ≠ EventType.QuitSequencer := by
    intro hpost ev hev
    rw [hq] at hev
    rcases List.mem_append.1 hev with h | h
    · exact hpre ev h
    · rcases List.mem_cons.1 h with rfl | h
      · decide
      · exact hpost ev h
  have hstate : (∀ ev ∈ post, ev.Type_ ≠ EventType.QuitSequencer) →
      seq.drain fs
        = ({ (post.foldl (fun st ev => st.dispatchEvent fs ev)
              ((pre.foldl (fun st ev => st.dispatchEvent fs ev) seq).dispatchEvent fs
                ⟨EventType.RestartSequencer⟩)) with Inputs := [] }, false) := by
    intro hpost
    rw [Sequencer.drain, Sequencer.drainLoop_no_quit fs seq.Inputs seq (hnq hpost), hq]
    simp only [List.foldl_append, List.foldl_cons]
  have hzero : (seq.drain fs).1.Time = 0 →
      ((seq.drain fs).1.tick rt s).2
        = s ++ Synth.Event.NewEvent .SilenceAllChannels 0 []
              :: (seq.drain fs).1.loadInstruments rt []
            ++ (seq.drain fs).1.Sequences.flatMap
                (fun q => rt.Invoke q (seq.drain fs).1 0 0) := by
    intro htime
    rw [tick_events_aux rt (seq.drain fs).1 s, htime]
    simp
  refine ⟨hrestart, ?_, ?_, hzero, ?_⟩
  · intro hpost
    rw [hstate hpost]
    exact ⟨rfl, rfl⟩
  · intro hpost hfwd
    have htime : (seq.drain fs).1.Time = 0 := by
      rw [hstate hpost]
      exact Sequencer.foldl_time_zero fs post _ hfwd (hrestart _)
    exact ⟨htime, hzero htime⟩
  · intro htime
    rw [tick_events_aux rt (seq.drain fs).1 s]
    simp [htime]

/-- C13, witness: at `restartQueuedState` a Restart and an IncreaseBPM are queued. After
the drain the counter is 0, and the next tick emits `SilenceAllChannels`, the block of
the configured channel and then the (here empty) events of the sequences. -/
theorem restart_then_setup_witness :
    (restartQueuedState.drain unreadableFs).2 = false ∧
    (restartQueuedState.drain unreadableFs).1.Time = 0 ∧
    ((restartQueuedState.drain unreadableFs).1.tick exampleRuntime []).2
      = [ Synth.Event.NewEvent .SilenceAllChannels 0 [],
          Synth.Event.NewEvent .ProgramChange 1 [5],
          Synth.Event.NewEvent .SetTremelo 1 [1],
          Synth.Event.NewEvent .SetReverb 1 [2],
          Synth.Event.NewEvent .SetLPFCutoff 1 [3],
          Synth.Event.NewEvent .SetHPFCutoff 1 [4],
          Synth.Event.NewEvent .SetChannelVolume 1 [100],
          Synth.Event.NewEvent .SetChannelPanning 1 [64],
          Synth.Event.NewFloatEvent .SetReverbFeedback 1 [1 / 4] ] := by
  have h := restart_then_setup unreadableFs exampleRuntime restartQueuedState []
    [⟨EventType.IncreaseBPM⟩] [] rfl (by decide)
  have h2 := h.2.2.1 (by decide) (by decide)
  refine ⟨(h.2.1 (by decide)).1, h2.1, ?_⟩
  rw [h2.2]
  rfl

/-! ## Start (C17) -/

theorem Sequencer.startCalls_started :
    ∀ (n : Nat) (seq : Sequencer) (k : Nat), seq.Started = true →
      Sequencer.startCalls n seq k = (seq, k)
  | 0, _, _, _ => rfl
  | n + 1, seq, k, h => by
    have hs : seq.Start = (seq, 0) := by simp [Sequencer.Start, h]
    simp only [Sequencer.startCalls, hs, Nat.add_zero]
    exact Sequencer.startCalls_started n seq k h

/-- C17. `Start` on a sequencer that is not started sets `started` and spawns exactly one
tick task; on a started sequencer it changes no field and spawns nothing. So any number
n >= 1 of consecutive calls on a sequencer that is not started leaves exactly one tick
task spawned, and `started`, once true, stays true. -/
theorem start_idempotent (seq : Sequencer) :
    (seq.Started = false → seq.Start = ({ seq with Started := true }, 1)) ∧
    (seq.Started = true → seq.Start = (seq, 0)) ∧
    (∀ n : Nat, seq.Started = false →
      Sequencer.startCalls (n + 1) seq 0 = ({ seq with Started := true }, 1)) ∧
    (∀ n k : Nat, seq.Started = true → Sequencer.startCalls n seq k = (seq, k)) ∧
    (∀ n k : Nat, seq.Started = true → (Sequencer.startCalls n seq k).1.Started = true) := by
  refine ⟨?_, ?_, ?_, ?_, ?_⟩
  · intro h; simp [Sequencer.Start, h]
  · intro h; simp [Sequencer.Start, h]
  · intro n h
    have hs : seq.Start = ({ seq with Started := true }, 1) := by simp [Sequencer.Start, h]
    simp only [Sequencer.startCalls, hs, Nat.zero_add]
    exact Sequencer.startCalls_started n _ 1 rfl
  · intro n k h
    exact Sequencer.startCalls_started n seq k h
  · intro n k h
    rw [Sequencer.startCalls_started n seq k h]
    exact h

/-- C17, witness: three consecutive calls of `Start` on `exampleState`, which is not
started, spawn one tick task in total. -/
theorem start_idempotent_witness :
    exampleState.Started = false ∧
    Sequencer.startCalls 3 exampleState 0 = ({ exampleState with Started := true }, 1) :=
  ⟨rfl, (start_idempotent exampleState).2.2.1 2 rfl⟩

/-! ## Tick duration (C18) -/

theorem roundHalfEven_abs_sub_le (x : ℚ) : |(roundHalfEven x : ℚ) - x| ≤ 1 / 2 := by
  have h1 : (⌊x⌋ : ℚ) ≤ x := Int.floor_le x
  have h2 : x < (⌊x⌋ : ℚ) + 1 := Int.lt_floor_add_one x
  unfold roundHalfEven
  simp only
  rw [abs_le]
  split_ifs with ha hb hc
  · constructor <;> linarith
  · push_cast
    constructor <;> linarith
  · push_neg at ha hb
    constructor <;> linarith
  · push_neg at ha hb
    push_cast
    constructor <;> linarith

theorem roundHalfEven_eq_of_lt (x : ℚ) (m : Int) (h : |x - m| < 1 / 2) :
    roundHalfEven x = m := by
  rw [abs_lt] at h
  have hle := roundHalfEven_abs_sub_le x
  rw [abs_le] at hle
  have h1 : ((roundHalfEven x : Int) : ℚ) - m < 1 := by linarith [hle.2, h.1]
  have h2 : (-1 : ℚ) < ((roundHalfEven x : Int) : ℚ) - m := by linarith [hle.1, h.2]
  have h3 : roundHalfEven x - m < 1 := by exact_mod_cast h1
  have h4 : -1 < roundHalfEven x - m := by exact_mod_cast h2
  omega

theorem roundHalfEven_nonneg (x : ℚ) (h : 0 ≤ x) : 0 ≤ roundHalfEven x := by
  have hf : 0 ≤ ⌊x⌋ := Int.floor_nonneg.2 h
  unfold roundHalfEven
  simp only
  split_ifs <;> omega

theorem float64Quantum_pos (x : ℚ) : 0 < float64Quantum x := by
  unfold float64Quantum
  positivity

theorem float64Quantum_eq (x : ℚ) (e : Int) (hx : 0 < x) (h1 : (2 : ℚ) ^ e ≤ x)
    (h2 : x < (2 : ℚ) ^ (e + 1)) (he : -1022 ≤ e) :
    float64Quantum x = (2 : ℚ) ^ (e - 52) := by
  have hlog : Int.log 2 |x| = e := by
    rw [abs_of_pos hx]
    have ha : e ≤ Int.log 2 x := (Int.zpow_le_iff_le_log (R := ℚ) (by norm_num) hx).1
      (by exact_mod_cast h1)
    have hb : Int.log 2 x < e + 1 := (Int.lt_zpow_iff_log_lt (R := ℚ) (by norm_num) hx).1
      (by exact_mod_cast h2)
    omega
  unfold float64Quantum
  rw [hlog, max_eq_left he]

theorem two_zpow_succ (n : Int) : (2 : ℚ) ^ (n + 1) = 2 * (2 : ℚ) ^ n := by
  rw [zpow_add₀ (by norm_num), zpow_one, mul_comm]

/-- In the normal range half the quantum is at most `x * 2^-53`. -/
theorem float64Quantum_le (x : ℚ) (hx : (2 : ℚ) ^ (-1022 : Int) ≤ x) :
    float64Quantum x / 2 ≤ x * (2 : ℚ) ^ (-53 : Int) := by
  have hpos : 0 < x := lt_of_lt_of_le (by positivity) hx
  have hlog : -1022 ≤ Int.log 2 x :=
    (Int.zpow_le_iff_le_log (R := ℚ) (by norm_num) hpos).1 (by exact_mod_cast hx)
  have hle : ((2 : Nat) : ℚ) ^ Int.log 2 x ≤ x := Int.zpow_log_le_self (by norm_num) hpos
  have hle2 : (2 : ℚ) ^ Int.log 2 x ≤ x := by exact_mod_cast hle
  have h53 : (0 : ℚ) < (2 : ℚ) ^ (-53 : Int) := by positivity
  have hq : float64Quantum x = 2 * ((2 : ℚ) ^ Int.log 2 x * (2 : ℚ) ^ (-53 : Int)) := by
    unfold float64Quantum
    rw [abs_of_pos hpos, max_eq_left hlog,
      show Int.log 2 x - 52 = (Int.log 2 x + (-53)) + 1 by ring, two_zpow_succ,
      zpow_add₀ (by norm_num)]
  rw [hq, mul_div_cancel_left₀ _ (by norm_num)]
  exact mul_le_mul_of_nonneg_right hle2 h53.le

/-- For every positive value half the quantum is at most `x * 2^-53 + 2^-1075`. -/
theorem float64Quantum_le_add (x : ℚ) (hpos : 0 < x) :
    float64Quantum x / 2 ≤ x * (2 : ℚ) ^ (-53 : Int) + (2 : ℚ) ^ (-1075 : Int) := by
  have h0 : (0 : ℚ) < (2 : ℚ) ^ (-1075 : Int) := by positivity
  by_cases hn : (2 : ℚ) ^ (-1022 : Int) ≤ x
  · have := float64Quantum_le x hn
    linarith
  · push_neg at hn
    have hlog : Int.log 2 |x| ≤ -1022 := by
      rw [abs_of_pos hpos]
      have : Int.log 2 x < -1022 :=
        (Int.lt_zpow_iff_log_lt (R := ℚ) (by norm_num) hpos).1 (by exact_mod_cast hn)
      omega
    have hq : float64Quantum x = 2 * (2 : ℚ) ^ (-1075 : Int) := by
      unfold float64Quantum
      rw [max_eq_right hlog, show ((-1022 : Int) - 52) = -1075 + 1 by norm_num, two_zpow_succ]
    rw [hq, mul_div_cancel_left₀ _ (by norm_num)]
    have h1 : (0 : ℚ) ≤ x * (2 : ℚ) ^ (-53 : Int) := by positivity
    linarith

theorem roundFloat64_eq (x : ℚ) (y : ℚ)
    (hy : (roundHalfEven (x / float64Quantum x) : ℚ) * float64Quantum x = y)
    (hfin : |y| < (2 : ℚ) ^ (1024 : Nat)) : roundFloat64 x = some y := by
  unfold roundFloat64
  simp only [hy, if_pos hfin]

theorem roundFloat64_zero : roundFloat64 0 = some 0 := by
  apply roundFloat64_eq
  · have : roundHalfEven (0 / float64Quantum 0) = 0 := by
      rw [zero_div]
      exact roundHalfEven_eq_of_lt 0 0 (by norm_num)
    rw [this]
    simp
  · simp

/-- The rounding error is at most half a quantum. -/
theorem roundFloat64_error (x : ℚ) :
    |(roundHalfEven (x / float64Quantum x) : ℚ) * float64Quantum x - x|
      ≤ float64Quantum x / 2 := by
  have hq := float64Quantum_pos x
  have h := roundHalfEven_abs_sub_le (x / float64Quantum x)
  have : (roundHalfEven (x / float64Quantum x) : ℚ) * float64Quantum x - x
      = ((roundHalfEven (x / float64Quantum x) : ℚ) - x / float64Quantum x)
          * float64Quantum x := by
    rw [sub_mul, div_mul_cancel₀ _ hq.ne.symm]
  rw [this, abs_mul, abs_of_pos hq]
  calc |(roundHalfEven (x / float64Quantum x) : ℚ) - x / float64Quantum x| * float64Quantum x
      ≤ 1 / 2 * float64Quantum x := mul_le_mul_of_nonneg_right h hq.le
    _ = float64Quantum x / 2 := by ring

/-- Rounding in the normal range: the result is finite and within the relative error
`2^-53`. -/
theorem roundFloat64_normal (x : ℚ) (hlo : (2 : ℚ) ^ (-1022 : Int) ≤ x)
    (hhi : x ≤ (2 : ℚ) ^ (1023 : Nat)) :
    ∃ y, roundFloat64 x = some y ∧ x * (1 - (2 : ℚ) ^ (-53 : Int)) ≤ y ∧
      y ≤ x * (1 + (2 : ℚ) ^ (-53 : Int)) := by
  have hpos : 0 < x := lt_of_lt_of_le (by positivity) hlo
  have herr := roundFloat64_error x
  have hq2 := float64Quantum_le x hlo
  rw [abs_le] at herr
  have hu : (2 : ℚ) ^ (-53 : Int) ≤ 1 / 2 := by norm_num
  have h1024 : (2 : ℚ) ^ (1024 : Nat) = 2 * (2 : ℚ) ^ (1023 : Nat) := by
    rw [pow_succ, mul_comm]
  have hM : (0 : ℚ) < (2 : ℚ) ^ (1023 : Nat) := by positivity
  refine ⟨_, roundFloat64_eq x _ rfl ?_, ?_, ?_⟩
  · rw [abs_lt, h1024]
    generalize (2 : ℚ) ^ (-53 : Int) = c at hq2 hu
    generalize (2 : ℚ) ^ (1023 : Nat) = M at hhi hM
    generalize (roundHalfEven (x / float64Quantum x) : ℚ) * float64Quantum x = y at herr
    have hxu : x * c ≤ x * (1 / 2) := mul_le_mul_of_nonneg_left hu hpos.le
    constructor <;> linarith [herr.1, herr.2]
  · generalize (2 : ℚ) ^ (-53 : Int) = c at hq2 hu ⊢
    generalize (roundHalfEven (x / float64Quantum x) : ℚ) * float64Quantum x = y at herr ⊢
    linarith [herr.1]
  · generalize (2 : ℚ) ^ (-53 : Int) = c at hq2 hu ⊢
    generalize (roundHalfEven (x / float64Quantum x) : ℚ) * float64Quantum x = y at herr ⊢
    linarith [herr.2]

/-- Rounding of a non-negative value below `2^1023`: the result is finite, non-negative
and at most `x * (1 + 2^-53) + 2^-1075`. -/
theorem roundFloat64_nonneg (x : ℚ) (hlo : 0 ≤ x) (hhi : x ≤ (2 : ℚ) ^ (1023 : Nat)) :
    ∃ y, roundFloat64 x = some y ∧ 0 ≤ y ∧
      y ≤ x * (1 + (2 : ℚ) ^ (-53 : Int)) + (2 : ℚ) ^ (-1075 : Int) := by
  rcases eq_or_lt_of_le hlo with h0 | hpos
  · subst h0
    refine ⟨0, roundFloat64_zero, le_refl _, ?_⟩
    rw [zero_mul, zero_add]
    exact (zpow_pos (by norm_num) _).le
  have herr := roundFloat64_error x
  have hq2 := float64Quantum_le_add x hpos
  have hqpos := float64Quantum_pos x
  rw [abs_le] at herr
  have hy0 : (0 : ℚ) ≤ (roundHalfEven (x / float64Quantum x) : ℚ) * float64Quantum x := by
    have : 0 ≤ roundHalfEven (x / float64Quantum x) :=
      roundHalfEven_nonneg _ (div_nonneg hlo hqpos.le)
    have : (0 : ℚ) ≤ (roundHalfEven (x / float64Quantum x) : ℚ) := by exact_mod_cast this
    exact mul_nonneg this hqpos.le
  have hu : (2 : ℚ) ^ (-53 : Int) ≤ 1 / 4 := by norm_num
  have h1024 : (2 : ℚ) ^ (1024 : Nat) = 2 * (2 : ℚ) ^ (1023 : Nat) := by
    rw [pow_succ, mul_comm]
  have hsmall : (2 : ℚ) ^ (-1075 : Int) ≤ 1 :=
    zpow_le_one_of_nonpos₀ (by norm_num) (by norm_num)
  have hbig : (2 : ℚ) ≤ (2 : ℚ) ^ (1023 : Nat) := by
    have h1 : (1 : ℚ) ≤ (2 : ℚ) ^ (1022 : Nat) := one_le_pow₀ (by norm_num)
    rw [pow_succ]
    linarith
  refine ⟨_, roundFloat64_eq x _ rfl ?_, hy0, ?_⟩
  · rw [abs_of_nonneg hy0, h1024]
    generalize (2 : ℚ) ^ (-53 : Int) = c at hq2 hu
    generalize (2 : ℚ) ^ (-1075 : Int) = t at hq2 hsmall
    generalize (2 : ℚ) ^ (1023 : Nat) = M at hhi hbig
    generalize (roundHalfEven (x / float64Quantum x) : ℚ) * float64Quantum x = y at herr
    have hxu : x * c ≤ x * (1 / 4) := mul_le_mul_of_nonneg_left hu hlo
    linarith [herr.2]
  · generalize (2 : ℚ) ^ (-53 : Int) = c at hq2 hu ⊢
    generalize (2 : ℚ) ^ (-1075 : Int) = t at hq2 hsmall ⊢
    generalize (roundHalfEven (x / float64Quantum x) : ℚ) * float64Quantum x = y at herr ⊢
    linarith [herr.2]

/-- Evaluation of the rounding at a positive normal value with known exponent `e` and
known significand `m`. -/
theorem roundFloat64_eval (x : ℚ) (e m : Int) (hx : 0 < x) (h1 : (2 : ℚ) ^ e ≤ x)
    (h2 : x < (2 : ℚ) ^ (e + 1)) (he : -1022 ≤ e)
    (hm : |x / (2 : ℚ) ^ (e - 52) - m| < 1 / 2)
    (hfin : |(m : ℚ) * (2 : ℚ) ^ (e - 52)| < (2 : ℚ) ^ (1024 : Nat)) :
    roundFloat64 x = some ((m : ℚ) * (2 : ℚ) ^ (e - 52)) := by
  have hq := float64Quantum_eq x e hx h1 h2 he
  apply roundFloat64_eq _ _ _ hfin
  rw [hq, roundHalfEven_eq_of_lt _ m hm]

theorem float64_unit_eq : (2 : ℚ) ^ (-53 : Int) = 1 / 9007199254740992 := by norm_num

/-- Rounding in the normal range as a factor between `1 - 2^-53` and `1 + 2^-53`. -/
theorem roundFloat64_factor (x : ℚ) (hlo : (2 : ℚ) ^ (-1022 : Int) ≤ x)
    (hhi : x ≤ (2 : ℚ) ^ (1023 : Nat)) :
    ∃ f, roundFloat64 x = some (x * f) ∧ 1 - 1 / 9007199254740992 ≤ f ∧
      f ≤ 1 + 1 / 9007199254740992 := by
  have hpos : 0 < x := lt_of_lt_of_le (by positivity) hlo
  obtain ⟨y, hy, h1, h2⟩ := roundFloat64_normal x hlo hhi
  rw [float64_unit_eq] at h1 h2
  refine ⟨y / x, ?_, ?_, ?_⟩
  · rw [hy, mul_div_cancel₀ _ hpos.ne.symm]
  · rw [le_div_iff₀ hpos, mul_comm]
    exact h1
  · rw [div_le_iff₀ hpos, mul_comm]
    exact h2

theorem float64_eta_const : (2 : ℚ) ^ (-1075 : Int) ≤ 1 / 1000000000 := by
  have h : (2 : ℚ) ^ (-1075 : Int) ≤ (2 : ℚ) ^ (-30 : Int) :=
    zpow_le_zpow_right₀ (by norm_num) (by norm_num)
  have h2 : (2 : ℚ) ^ (-30 : Int) ≤ 1 / 1000000000 := by norm_num
  exact h.trans h2

/-- Rounding of a non-negative value below `2^1023`, with a coarse absolute term. -/
theorem roundFloat64_small (x : ℚ) (hlo : 0 ≤ x) (hhi : x ≤ (2 : ℚ) ^ (1023 : Nat)) :
    ∃ y, roundFloat64 x = some y ∧ 0 ≤ y ∧
      y ≤ x * (1 + 1 / 9007199254740992) + 1 / 1000000000 := by
  obtain ⟨y, hy, h1, h2⟩ := roundFloat64_nonneg x hlo hhi
  rw [float64_unit_eq] at h2
  exact ⟨y, hy, h1, h2.trans (add_le_add_left float64_eta_const _)⟩

theorem float64_lo_const : (2 : ℚ) ^ (-1022 : Int) ≤ 1 / 1000000000 := by
  have h : (2 : ℚ) ^ (-1022 : Int) ≤ (2 : ℚ) ^ (-30 : Int) :=
    zpow_le_zpow_right₀ (by norm_num) (by norm_num)
  have h2 : (2 : ℚ) ^ (-30 : Int) ≤ 1 / 1000000000 := by norm_num
  exact h.trans h2

theorem float64_hi_const :
    (1361129467683753853853498429727072845824 : ℚ) ≤ (2 : ℚ) ^ (1023 : Nat) := by
  have h : (2 : ℚ) ^ (130 : Nat) ≤ (2 : ℚ) ^ (1023 : Nat) :=
    pow_le_pow_right₀ (by norm_num) (by norm_num)
  have h130 : (2 : ℚ) ^ (130 : Nat) = 1361129467683753853853498429727072845824 := by norm_num
  rw [h130] at h
  exact h

/-- Four factors within `u` of 1 compose to a factor within `8 u` of 1. -/
theorem factor_bound (u f0 f1 f2 f3 : ℚ) (hu0 : 0 < u) (hu : u ≤ 1 / 100)
    (h0 : 1 - u ≤ f0 ∧ f0 ≤ 1 + u) (h1 : 1 - u ≤ f1 ∧ f1 ≤ 1 + u)
    (h2 : 1 - u ≤ f2 ∧ f2 ≤ 1 + u) (h3 : 1 - u ≤ f3 ∧ f3 ≤ 1 + u) :
    1 - 8 * u ≤ f1 / f0 * f2 * f3 ∧ f1 / f0 * f2 * f3 ≤ 1 + 8 * u := by
  have hf0 : 0 < f0 := by linarith [h0.1]
  have hf1 : 0 < f1 := by linarith [h1.1]
  have hf2 : 0 < f2 := by linarith [h2.1]
  have hf3 : 0 < f3 := by linarith [h3.1]
  have hlow : (0 : ℚ) ≤ 1 - u := by linarith
  have hp12 : f1 * f2 ≤ (1 + u) * (1 + u) := mul_le_mul h1.2 h2.2 hf2.le (by linarith)
  have hp : f1 * f2 * f3 ≤ (1 + u) * (1 + u) * (1 + u) :=
    mul_le_mul hp12 h3.2 hf3.le (by positivity)
  have hq12 : (1 - u) * (1 - u) ≤ f1 * f2 := mul_le_mul h1.1 h2.1 hlow hf1.le
  have hq : (1 - u) * (1 - u) * (1 - u) ≤ f1 * f2 * f3 :=
    mul_le_mul hq12 h3.1 hlow (by positivity)
  have heq : f1 / f0 * f2 * f3 = f1 * f2 * f3 / f0 := by
    field_simp
  rw [heq]
  constructor
  · rw [le_div_iff₀ hf0]
    have h8 : (0 : ℚ) ≤ 1 - 8 * u := by linarith
    have ha : (1 - 8 * u) * f0 ≤ (1 - 8 * u) * (1 + u) := mul_le_mul_of_nonneg_left h0.2 h8
    have hb : (1 - 8 * u) * (1 + u) ≤ (1 - u) * (1 - u) * (1 - u) := by
      nlinarith [sq_nonneg u, mul_pos hu0 hu0, mul_pos (mul_pos hu0 hu0) hu0]
    linarith
  · rw [div_le_iff₀ hf0]
    have h8 : (0 : ℚ) ≤ 1 + 8 * u := by linarith
    have ha : (1 + 8 * u) * (1 - u) ≤ (1 + 8 * u) * f0 := mul_le_mul_of_nonneg_left h0.1 h8
    have hb : (1 + u) * (1 + u) * (1 + u) ≤ (1 + 8 * u) * (1 - u) := by
      nlinarith [sq_nonneg u, mul_pos hu0 hu0, mul_pos (mul_pos hu0 hu0) hu0]
    linarith

/-- A factor within `1/100` of 1 divided by another one lies between 1/2 and 2. -/
theorem factor_crude (u f0 f1 : ℚ) (hu0 : 0 < u) (hu : u ≤ 1 / 100)
    (h0 : 1 - u ≤ f0 ∧ f0 ≤ 1 + u) (h1 : 1 - u ≤ f1 ∧ f1 ≤ 1 + u) :
    1 / 2 ≤ f1 / f0 ∧ f1 / f0 ≤ 2 := by
  have hf0 : 0 < f0 := by linarith [h0.1]
  constructor
  · rw [le_div_iff₀ hf0]
    linarith [h0.2, h1.1]
  · rw [div_le_iff₀ hf0]
    linarith [h0.1, h1.2]

theorem float64Div_eq (x y : ℚ) (hy : y ≠ 0) : float64Div x y = roundFloat64 (x / y) := by
  unfold float64Div
  rw [if_neg hy]

/-- The float64 computation of the tick duration when the exact duration `E` nanoseconds
is between 1/2 and 2^62: the computed value is finite and within the relative error
`2^-50` of `E`. -/
theorem tick_chain_normal (bpm : ℚ) (G : Int) (hbpm : 0 < bpm) (hg : 0 < G)
    (hgmax : G < INT_HALF) (hlo : 1 / 2 ≤ (60000 : ℚ) / bpm / (G : ℚ) * 1000000)
    (hhi : (60000 : ℚ) / bpm / (G : ℚ) * 1000000 ≤ 4611686018427387904) :
    ∃ c, ((float64Div 60000 bpm).bind fun b =>
        (roundFloat64 (G : ℚ)).bind fun g =>
          (float64Div b g).bind fun q => float64Mul q 1000000) = some c ∧
      (60000 : ℚ) / bpm / (G : ℚ) * 1000000 * (1 - 1 / 1125899906842624) ≤ c ∧
      c ≤ (60000 : ℚ) / bpm / (G : ℚ) * 1000000 * (1 + 1 / 1125899906842624) := by
  have hu0 : (0 : ℚ) < 1 / 9007199254740992 := by norm_num
  have hu : (1 : ℚ) / 9007199254740992 ≤ 1 / 100 := by norm_num
  have hG1 : (1 : ℚ) ≤ (G : ℚ) := by exact_mod_cast hg
  have hG2 : (G : ℚ) ≤ 9223372036854775808 := by
    have : G ≤ 9223372036854775808 := by unfold INT_HALF at hgmax; omega
    exact_mod_cast this
  have hGpos : (0 : ℚ) < (G : ℚ) := by linarith
  -- the exact quotient per tick, in milliseconds
  obtain ⟨R, hR⟩ : ∃ R : ℚ, R = (60000 : ℚ) / bpm / (G : ℚ) := ⟨_, rfl⟩
  rw [← hR] at hlo hhi ⊢
  have hA : (60000 : ℚ) / bpm = R * (G : ℚ) := by
    rw [hR]
    field_simp
    ring
  have hR1 : 1 / 2000000 ≤ R := by linarith
  have hR2 : R ≤ 8796093022208 := by linarith
  have hRpos : 0 < R := by linarith
  -- first division
  have hA1 : 1 / 2000000 ≤ R * (G : ℚ) := by
    have : 1 / 2000000 * 1 ≤ R * (G : ℚ) := mul_le_mul hR1 hG1 (by norm_num) hRpos.le
    linarith
  have hA2 : R * (G : ℚ) ≤ 8796093022208 * 9223372036854775808 :=
    mul_le_mul hR2 hG2 hGpos.le (by norm_num)
  obtain ⟨f1, ha, hf1⟩ := roundFloat64_factor (R * (G : ℚ)) (float64_lo_const.trans (by linarith))
    (le_trans (by linarith) float64_hi_const)
  -- conversion of the granularity
  obtain ⟨f0, hg0, hf0⟩ := roundFloat64_factor (G : ℚ) (float64_lo_const.trans (by linarith))
    (le_trans (by linarith) float64_hi_const)
  have hf0pos : 0 < f0 := by linarith [hf0.1]
  have hf1pos : 0 < f1 := by linarith [hf1.1]
  -- second division
  have hcr := factor_crude _ f0 f1 hu0 hu hf0 hf1
  have hQ : R * (G : ℚ) * f1 / ((G : ℚ) * f0) = R * (f1 / f0) := by
    field_simp
    ring
  have hrpos : 0 < f1 / f0 := div_pos hf1pos hf0pos
  have hQ1 : 1 / 4000000 ≤ R * (f1 / f0) := by
    have : 1 / 2000000 * (1 / 2) ≤ R * (f1 / f0) := mul_le_mul hR1 hcr.1 (by norm_num) hRpos.le
    linarith
  have hQ2 : R * (f1 / f0) ≤ 8796093022208 * 2 := mul_le_mul hR2 hcr.2 hrpos.le (by norm_num)
  obtain ⟨f2, hb, hf2⟩ := roundFloat64_factor (R * (f1 / f0)) (float64_lo_const.trans (by linarith))
    (le_trans (by linarith) float64_hi_const)
  have hf2pos : 0 < f2 := by linarith [hf2.1]
  -- multiplication
  have hP : R * (f1 / f0) * f2 * 1000000 = R * 1000000 * (f1 / f0 * f2) := by ring
  have hrf1 : 1 / 4 ≤ f1 / f0 * f2 := by
    have : 1 / 2 * (1 / 2) ≤ f1 / f0 * f2 :=
      mul_le_mul hcr.1 (by linarith [hf2.1]) (by norm_num) hrpos.le
    linarith
  have hrf2 : f1 / f0 * f2 ≤ 4 := by
    have : f1 / f0 * f2 ≤ 2 * 2 := mul_le_mul hcr.2 (by linarith [hf2.2]) hf2pos.le (by norm_num)
    linarith
  have hEpos : 0 < R * 1000000 := mul_pos hRpos (by norm_num)
  have hP1 : 1 / 8 ≤ R * 1000000 * (f1 / f0 * f2) := by
    have : 1 / 2 * (1 / 4) ≤ R * 1000000 * (f1 / f0 * f2) :=
      mul_le_mul hlo hrf1 (by norm_num) hEpos.le
    linarith
  have hP2 : R * 1000000 * (f1 / f0 * f2) ≤ 4611686018427387904 * 4 :=
    mul_le_mul hhi hrf2 (mul_pos hrpos hf2pos).le (by norm_num)
  obtain ⟨f3, hc, hf3⟩ := roundFloat64_factor (R * 1000000 * (f1 / f0 * f2))
    (float64_lo_const.trans (by linarith)) (le_trans (by linarith) float64_hi_const)
  have hfb := factor_bound _ f0 f1 f2 f3 hu0 hu hf0 hf1 hf2 hf3
  refine ⟨R * 1000000 * (f1 / f0 * f2 * f3), ?_, ?_, ?_⟩
  · rw [float64Div_eq _ _ hbpm.ne.symm, hA, ha, Option.some_bind, hg0, Option.some_bind,
      float64Div_eq _ _ (mul_pos hGpos hf0pos).ne.symm, hQ, hb, Option.some_bind]
    unfold float64Mul
    rw [hP, hc]
    congr 1
    ring
  · refine mul_le_mul_of_nonneg_left (le_trans ?_ hfb.1) hEpos.le
    norm_num
  · refine mul_le_mul_of_nonneg_left (le_trans hfb.2 ?_) hEpos.le
    norm_num

/-- The float64 computation of the tick duration when the exact duration is below half a
nanosecond: the computed value is finite, non-negative and below 1. -/
theorem tick_chain_small (bpm : ℚ) (G : Int) (hbpm : 0 < bpm) (hg : 0 < G)
    (hgmax : G < INT_HALF) (hhi : (60000 : ℚ) / bpm / (G : ℚ) * 1000000 < 1 / 2) :
    ∃ c, ((float64Div 60000 bpm).bind fun b =>
        (roundFloat64 (G : ℚ)).bind fun g =>
          (float64Div b g).bind fun q => float64Mul q 1000000) = some c ∧
      0 ≤ c ∧ c < 1 := by
  have hG1 : (1 : ℚ) ≤ (G : ℚ) := by exact_mod_cast hg
  have hG2 : (G : ℚ) ≤ 9223372036854775808 := by
    have : G ≤ 9223372036854775808 := by unfold INT_HALF at hgmax; omega
    exact_mod_cast this
  have hGpos : (0 : ℚ) < (G : ℚ) := by linarith
  obtain ⟨R, hR⟩ : ∃ R : ℚ, R = (60000 : ℚ) / bpm / (G : ℚ) := ⟨_, rfl⟩
  rw [← hR] at hhi
  have hA : (60000 : ℚ) / bpm = R * (G : ℚ) := by
    rw [hR]
    field_simp
    ring
  have hRpos : 0 < R := by
    rw [hR]
    exact div_pos (div_pos (by norm_num) hbpm) hGpos
  have hR2 : R ≤ 1 := by linarith
  have hA0 : 0 ≤ R * (G : ℚ) := (mul_pos hRpos hGpos).le
  have hA2 : R * (G : ℚ) ≤ 1 * 9223372036854775808 :=
    mul_le_mul hR2 hG2 hGpos.le (by norm_num)
  -- first division
  obtain ⟨a, ha, ha0, ha1⟩ := roundFloat64_small (R * (G : ℚ)) hA0
    (le_trans (by linarith) float64_hi_const)
  -- conversion of the granularity
  obtain ⟨f0, hg0, hf0⟩ := roundFloat64_factor (G : ℚ) (float64_lo_const.trans (by linarith))
    (le_trans (by linarith) float64_hi_const)
  have hf0pos : 0 < f0 := by linarith [hf0.1]
  have hgf : (99 / 100) * (G : ℚ) ≤ (G : ℚ) * f0 := by
    have : (G : ℚ) * (99 / 100) ≤ (G : ℚ) * f0 :=
      mul_le_mul_of_nonneg_left (by linarith [hf0.1]) hGpos.le
    linarith
  have hgfpos : 0 < (G : ℚ) * f0 := mul_pos hGpos hf0pos
  -- second division
  have hQ0 : 0 ≤ a / ((G : ℚ) * f0) := div_nonneg ha0 hgfpos.le
  have ha2 : a ≤ 101 / 100 * (R * (G : ℚ)) + 1 / 1000000000 := by linarith
  have hQ1 : a / ((G : ℚ) * f0) ≤ 103 / 100 * R + 102 / 100 * (1 / 1000000000) := by
    rw [div_le_iff₀ hgfpos]
    have h1 : (103 / 100 * R + 102 / 100 * (1 / 1000000000)) * ((99 / 100) * (G : ℚ))
        ≤ (103 / 100 * R + 102 / 100 * (1 / 1000000000)) * ((G : ℚ) * f0) :=
      mul_le_mul_of_nonneg_left hgf (by linarith)
    have h2 : (103 / 100 * R + 102 / 100 * (1 / 1000000000)) * ((99 / 100) * (G : ℚ))
        = 10197 / 10000 * (R * (G : ℚ)) + 10098 / 10000000000000 * (G : ℚ) := by ring
    linarith
  obtain ⟨b, hb, hb0, hb1⟩ := roundFloat64_small (a / ((G : ℚ) * f0)) hQ0
    (le_trans (by linarith) float64_hi_const)
  -- multiplication
  have hP0 : 0 ≤ b * 1000000 := mul_nonneg hb0 (by norm_num)
  have hP1 : b * 1000000 ≤ 53 / 100 := by linarith
  obtain ⟨c, hc, hc0, hc1⟩ := roundFloat64_small (b * 1000000) hP0
    (le_trans (by linarith) float64_hi_const)
  refine ⟨c, ?_, hc0, by linarith⟩
  rw [float64Div_eq _ _ hbpm.ne.symm, hA, ha, Option.some_bind, hg0, Option.some_bind,
    float64Div_eq _ _ hgfpos.ne.symm, hb, Option.some_bind]
  unfold float64Mul
  exact hc

theorem floatToInt64_range (x : Option ℚ) :
    -INT_HALF ≤ floatToInt64 x ∧ floatToInt64 x < INT_HALF := by
  unfold floatToInt64
  cases x with
  | none => exact ⟨le_refl _, by decide⟩
  | some v =>
    simp only
    split_ifs <;> first | assumption | exact ⟨le_refl _, by decide⟩

theorem floatToInt64_nonneg (c : ℚ) (h0 : 0 ≤ c) (h1 : c < 9223372036854775808) :
    floatToInt64 (some c) = ⌊c⌋ := by
  have hf0 : 0 ≤ ⌊c⌋ := Int.floor_nonneg.2 h0
  have hf1 : ⌊c⌋ < 9223372036854775808 := by
    rw [Int.floor_lt]
    exact_mod_cast h1
  unfold floatToInt64
  simp only [if_pos h0]
  rw [if_pos ⟨by unfold INT_HALF; omega, by unfold INT_HALF; omega⟩]

/-- Rounding of a positive value of the float64 grid gives the value itself. -/
theorem roundFloat64_exact (x : ℚ) (e m : Int) (hx : 0 < x) (h1 : (2 : ℚ) ^ e ≤ x)
    (h2 : x < (2 : ℚ) ^ (e + 1)) (he : -1022 ≤ e)
    (hm : x / (2 : ℚ) ^ (e - 52) = m) (hfin : x < (2 : ℚ) ^ (1024 : Nat)) :
    roundFloat64 x = some x := by
  have hq : (0 : ℚ) < (2 : ℚ) ^ (e - 52) := zpow_pos (by norm_num) _
  have hxm : (m : ℚ) * (2 : ℚ) ^ (e - 52) = x := by
    rw [← hm, div_mul_cancel₀ _ hq.ne.symm]
  have h := roundFloat64_eval x e m hx h1 h2 he (by rw [hm, sub_self, abs_zero]; norm_num)
    (by rw [hxm, abs_of_pos hx]; exact hfin)
  rw [h, hxm]

/-- With exact float64 operations the computed tick duration is the exact one,
truncated. -/
theorem tick_chain_exact (bpm : ℚ) (G : Int) (hbpm : 0 < bpm) (hg : 0 < G)
    (h1 : roundFloat64 ((60000 : ℚ) / bpm) = some ((60000 : ℚ) / bpm))
    (h2 : roundFloat64 (G : ℚ) = some (G : ℚ))
    (h3 : roundFloat64 ((60000 : ℚ) / bpm / (G : ℚ)) = some ((60000 : ℚ) / bpm / (G : ℚ)))
    (h4 : roundFloat64 ((60000 : ℚ) / bpm / (G : ℚ) * 1000000)
      = some ((60000 : ℚ) / bpm / (G : ℚ) * 1000000)) :
    ((float64Div 60000 bpm).bind fun b =>
        (roundFloat64 (G : ℚ)).bind fun g =>
          (float64Div b g).bind fun q => float64Mul q 1000000)
      = some ((60000 : ℚ) / bpm / (G : ℚ) * 1000000) := by
  have hGpos : (0 : ℚ) < (G : ℚ) := by exact_mod_cast hg
  rw [float64Div_eq _ _ hbpm.ne.symm, h1, Option.some_bind, h2, Option.some_bind,
    float64Div_eq _ _ hGpos.ne.symm, h3, Option.some_bind]
  unfold float64Mul
  exact h4

/-- C18, amended. For every positive bpm and positive granularity (a 64-bit `int`) whose
exact tick duration E = (60000 / bpm) / granularity milliseconds is at most 2^62
nanoseconds, the value computed by the tick loop, in nanoseconds: (1) differs from E by
less than 1 + E / 2^50; (2) is within one nanosecond of E truncated when E is below 2^50
nanoseconds; (3) is E truncated when the two float64 divisions, the conversion of the
granularity and the float64 multiplication are exact; (4) is 125,000,000 at bpm 120 and
granularity 4. (5) The loop sleeps if and only if the elapsed time does not exceed the
tick duration, and (6) then, for a non-negative elapsed time, for the tick duration
minus the elapsed time. -/
theorem tick_duration (seq : Sequencer) (hbpm : 0 < seq.BPM) (hg : 0 < seq.Granularity)
    (hgmax : seq.Granularity < INT_HALF)
    (hrange : (60000 : ℚ) / seq.BPM / (seq.Granularity : ℚ) * 1000000
      ≤ 4611686018427387904) :
    ((seq.millisecondsPerTick : ℚ)
        ≤ (60000 : ℚ) / seq.BPM / (seq.Granularity : ℚ) * 1000000
          + (60000 : ℚ) / seq.BPM / (seq.Granularity : ℚ) * 1000000 / 1125899906842624 ∧
      (60000 : ℚ) / seq.BPM / (seq.Granularity : ℚ) * 1000000
          - (60000 : ℚ) / seq.BPM / (seq.Granularity : ℚ) * 1000000 / 1125899906842624 - 1
        < (seq.millisecondsPerTick : ℚ)) ∧
    ((60000 : ℚ) / seq.BPM / (seq.Granularity : ℚ) * 1000000 < 1125899906842624 →
      ⌊(60000 : ℚ) / seq.BPM / (seq.Granularity : ℚ) * 1000000⌋ - 1
          ≤ seq.millisecondsPerTick ∧
      seq.millisecondsPerTick
          ≤ ⌊(60000 : ℚ) / seq.BPM / (seq.Granularity : ℚ) * 1000000⌋ + 1) ∧
    (roundFloat64 ((60000 : ℚ) / seq.BPM) = some ((60000 : ℚ) / seq.BPM) →
      roundFloat64 (seq.Granularity : ℚ) = some (seq.Granularity : ℚ) →
      roundFloat64 ((60000 : ℚ) / seq.BPM / (seq.Granularity : ℚ))
        = some ((60000 : ℚ) / seq.BPM / (seq.Granularity : ℚ)) →
      roundFloat64 ((60000 : ℚ) / seq.BPM / (seq.Granularity : ℚ) * 1000000)
        = some ((60000 : ℚ) / seq.BPM / (seq.Granularity : ℚ) * 1000000) →
      seq.millisecondsPerTick
        = ⌊(60000 : ℚ) / seq.BPM / (seq.Granularity : ℚ) * 1000000⌋) ∧
    (seq.BPM = 120 → seq.Granularity = 4 → seq.millisecondsPerTick = 125000000) ∧
    (∀ elapsed : Int,
      (seq.sleepFor elapsed).isSome = true ↔ elapsed ≤ seq.millisecondsPerTick) ∧
    (∀ elapsed : Int, 0 ≤ elapsed → elapsed ≤ seq.millisecondsPerTick →
      seq.sleepFor elapsed = some (seq.millisecondsPerTick - elapsed)) := by
  have hGpos : (0 : ℚ) < (seq.Granularity : ℚ) := by exact_mod_cast hg
  have hEpos : (0 : ℚ) < (60000 : ℚ) / seq.BPM / (seq.Granularity : ℚ) * 1000000 :=
    mul_pos (div_pos (div_pos (by norm_num) hbpm) hGpos) (by norm_num)
  have hexact : roundFloat64 ((60000 : ℚ) / seq.BPM) = some ((60000 : ℚ) / seq.BPM) →
      roundFloat64 (seq.Granularity : ℚ) = some (seq.Granularity : ℚ) →
      roundFloat64 ((60000 : ℚ) / seq.BPM / (seq.Granularity : ℚ))
        = some ((60000 : ℚ) / seq.BPM / (seq.Granularity : ℚ)) →
      roundFloat64 ((60000 : ℚ) / seq.BPM / (seq.Granularity : ℚ) * 1000000)
        = some ((60000 : ℚ) / seq.BPM / (seq.Granularity : ℚ) * 1000000) →
      seq.millisecondsPerTick
        = ⌊(60000 : ℚ) / seq.BPM / (seq.Granularity : ℚ) * 1000000⌋ := by
    intro h1 h2 h3 h4
    unfold Sequencer.millisecondsPerTick
    simp only
    rw [tick_chain_exact seq.BPM seq.Granularity hbpm hg h1 h2 h3 h4]
    exact floatToInt64_nonneg _ hEpos.le (by linarith)
  have hbounds : ((seq.millisecondsPerTick : ℚ)
        ≤ (60000 : ℚ) / seq.BPM / (seq.Granularity : ℚ) * 1000000
          + (60000 : ℚ) / seq.BPM / (seq.Granularity : ℚ) * 1000000 / 1125899906842624 ∧
      (60000 : ℚ) / seq.BPM / (seq.Granularity : ℚ) * 1000000
          - (60000 : ℚ) / seq.BPM / (seq.Granularity : ℚ) * 1000000 / 1125899906842624 - 1
        < (seq.millisecondsPerTick : ℚ)) := by
    generalize hE : (60000 : ℚ) / seq.BPM / (seq.Granularity : ℚ) * 1000000 = E at hrange hEpos
    by_cases hhalf : 1 / 2 ≤ E
    · obtain ⟨c, hc, hc1, hc2⟩ := tick_chain_normal seq.BPM seq.Granularity hbpm hg hgmax
        (by rw [hE]; exact hhalf) (by rw [hE]; exact hrange)
      rw [hE] at hc1 hc2
      have hc0 : 0 ≤ c := by nlinarith
      have hm : seq.millisecondsPerTick = ⌊c⌋ := by
        unfold Sequencer.millisecondsPerTick
        simp only
        rw [hc]
        exact floatToInt64_nonneg c hc0 (by linarith)
      rw [hm]
      have hfl1 : (⌊c⌋ : ℚ) ≤ c := Int.floor_le c
      have hfl2 : c < (⌊c⌋ : ℚ) + 1 := Int.lt_floor_add_one c
      constructor <;> linarith
    · push_neg at hhalf
      obtain ⟨c, hc, hc1, hc2⟩ := tick_chain_small seq.BPM seq.Granularity hbpm hg hgmax
        (by rw [hE]; exact hhalf)
      have hm : seq.millisecondsPerTick = 0 := by
        unfold Sequencer.millisecondsPerTick
        simp only
        rw [hc, floatToInt64_nonneg c hc1 (by linarith)]
        rw [Int.floor_eq_iff]
        constructor
        · exact_mod_cast hc1
        · simpa using hc2
      rw [hm]
      push_cast
      constructor <;> linarith
  refine ⟨hbounds, ?_, hexact, ?_, ?_, ?_⟩
  · intro hlt
    obtain ⟨hb1, hb2⟩ := hbounds
    generalize (60000 : ℚ) / seq.BPM / (seq.Granularity : ℚ) * 1000000 = E at *
    have hfl1 : (⌊E⌋ : ℚ) ≤ E := Int.floor_le E
    have hfl2 : E < (⌊E⌋ : ℚ) + 1 := Int.lt_floor_add_one E
    constructor
    · have : ((⌊E⌋ : Int) : ℚ) - 2 < (seq.millisecondsPerTick : ℚ) := by linarith
      have : ⌊E⌋ - 2 < seq.millisecondsPerTick := by exact_mod_cast this
      omega
    · have : (seq.millisecondsPerTick : ℚ) < ((⌊E⌋ : Int) : ℚ) + 2 := by linarith
      have : seq.millisecondsPerTick < ⌊E⌋ + 2 := by exact_mod_cast this
      omega
  · intro h120 h4
    have hr1 : roundFloat64 (500 : ℚ) = some 500 :=
      roundFloat64_exact 500 8 8796093022208000 (by norm_num) (by norm_num) (by norm_num)
        (by norm_num) (by norm_num) (by norm_num)
    have hr2 : roundFloat64 (4 : ℚ) = some 4 :=
      roundFloat64_exact 4 2 4503599627370496 (by norm_num) (by norm_num) (by norm_num)
        (by norm_num) (by norm_num) (by norm_num)
    have hr3 : roundFloat64 (125 : ℚ) = some 125 :=
      roundFloat64_exact 125 6 8796093022208000 (by norm_num) (by norm_num) (by norm_num)
        (by norm_num) (by norm_num) (by norm_num)
    have hr4 : roundFloat64 (125000000 : ℚ) = some 125000000 :=
      roundFloat64_exact 125000000 26 8388608000000000 (by norm_num) (by norm_num)
        (by norm_num) (by norm_num) (by norm_num) (by norm_num)
    have hv1 : (60000 : ℚ) / seq.BPM = 500 := by rw [h120]; norm_num
    have hv2 : (seq.Granularity : ℚ) = 4 := by rw [h4]; norm_num
    have h := hexact (by rw [hv1]; exact hr1) (by rw [hv2]; exact hr2)
      (by rw [hv1, hv2]; norm_num; exact hr3) (by rw [hv1, hv2]; norm_num; exact hr4)
    rw [h, hv1, hv2]
    have : (500 : ℚ) / 4 * 1000000 = ((125000000 : Int) : ℚ) := by norm_num
    rw [this, Int.floor_intCast]
  · intro elapsed
    simp only [Sequencer.sleepFor]
    split_ifs with h
    · simp; omega
    · simp; omega
  · intro elapsed h0 hle
    have hr := floatToInt64_range
      ((float64Div 60000 seq.BPM).bind fun b =>
        (roundFloat64 (seq.Granularity : ℚ)).bind fun g =>
          (float64Div b g).bind fun q => float64Mul q 1000000)
    have hr2 : seq.millisecondsPerTick < INT_HALF := hr.2
    simp only [Sequencer.sleepFor]
    rw [if_neg (by omega)]
    congr 1
    unfold wrapInt UINT_SIZE INT_HALF at *
    omega

theorem millisecondsPerTick_rounded (seq : Sequencer) (hb : seq.BPM = 3125)
    (hgr : seq.Granularity = 24) : seq.millisecondsPerTick = 799999 := by
  have h1 : float64Div 60000 3125 = some (5404319552844595 / 281474976710656) := by
    rw [float64Div_eq _ _ (by norm_num),
      roundFloat64_eval (60000 / 3125) 4 5404319552844595 (by norm_num) (by norm_num)
        (by norm_num) (by norm_num) (by norm_num [abs_lt]) (by norm_num [abs_lt])]
    norm_num
  have h2 : roundFloat64 (((24 : Int) : ℚ)) = some 24 := by
    have : (((24 : Int) : ℚ)) = 24 := by norm_num
    rw [this]
    exact roundFloat64_exact 24 4 6755399441055744 (by norm_num) (by norm_num) (by norm_num)
      (by norm_num) (by norm_num) (by norm_num)
  have h3 : float64Div (5404319552844595 / 281474976710656) 24
      = some (7205759403792793 / 9007199254740992) := by
    rw [float64Div_eq _ _ (by norm_num),
      roundFloat64_eval (5404319552844595 / 281474976710656 / 24) (-1) 7205759403792793
        (by norm_num) (by norm_num) (by norm_num) (by norm_num) (by norm_num [abs_lt])
        (by norm_num [abs_lt])]
    norm_num
  have h4 : float64Mul (7205759403792793 / 9007199254740992) 1000000
      = some (6871947673599999 / 8589934592) := by
    unfold float64Mul
    rw [roundFloat64_eval (7205759403792793 / 9007199254740992 * 1000000) 19 6871947673599999
        (by norm_num) (by norm_num) (by norm_num) (by norm_num) (by norm_num [abs_lt])
        (by norm_num [abs_lt])]
    norm_num
  unfold Sequencer.millisecondsPerTick
  simp only
  rw [hb, hgr, h1, Option.some_bind, h2, Option.some_bind, h3, Option.some_bind, h4,
    floatToInt64_nonneg _ (by norm_num) (by norm_num), Int.floor_eq_iff]
  constructor <;> norm_num

theorem millisecondsPerTick_slow (seq : Sequencer) (hsb : seq.BPM = 1 / 1073741824)
    (hsg : seq.Granularity = 1) : seq.millisecondsPerTick = -INT_HALF := by
  have s1 : float64Div 60000 (1 / 1073741824) = some 64424509440000 := by
    rw [float64Div_eq _ _ (by norm_num)]
    have : (60000 : ℚ) / (1 / 1073741824) = 64424509440000 := by norm_num
    rw [this]
    exact roundFloat64_exact 64424509440000 45 8246337208320000 (by norm_num) (by norm_num)
      (by norm_num) (by norm_num) (by norm_num) (by norm_num)
  have s2 : roundFloat64 (((1 : Int) : ℚ)) = some 1 := by
    have : (((1 : Int) : ℚ)) = 1 := by norm_num
    rw [this]
    exact roundFloat64_exact 1 0 4503599627370496 (by norm_num) (by norm_num) (by norm_num)
      (by norm_num) (by norm_num) (by norm_num)
  have s3 : float64Div 64424509440000 1 = some 64424509440000 := by
    rw [float64Div_eq _ _ (by norm_num), div_one]
    exact roundFloat64_exact 64424509440000 45 8246337208320000 (by norm_num) (by norm_num)
      (by norm_num) (by norm_num) (by norm_num) (by norm_num)
  have s4 : float64Mul 64424509440000 1000000 = some 64424509440000000000 := by
    unfold float64Mul
    have : (64424509440000 : ℚ) * 1000000 = 64424509440000000000 := by norm_num
    rw [this]
    exact roundFloat64_exact 64424509440000000000 65 7864320000000000 (by norm_num)
      (by norm_num) (by norm_num) (by norm_num) (by norm_num) (by norm_num)
  unfold Sequencer.millisecondsPerTick
  simp only
  rw [hsb, hsg, s1, Option.some_bind, s2, Option.some_bind, s3, Option.some_bind, s4]
  unfold floatToInt64
  have hfl : ⌊(64424509440000000000 : ℚ)⌋ = 64424509440000000000 := by
    have : (64424509440000000000 : ℚ) = ((64424509440000000000 : Int) : ℚ) := by norm_num
    rw [this, Int.floor_intCast]
  simp only [hfl]
  norm_num [INT_HALF]

/-- C18, counterexample. (1) At bpm 3125 and granularity 24 the exact tick duration is
800,000 nanoseconds, and the value computed with the three float64 operations and
truncated is 799,999. (2) At bpm 2^-30 and granularity 1 the exact tick duration is
60000 * 2^30 * 10^6 nanoseconds, which is not below 2^63 and so is no value of the 64-bit
type `time.Duration`; the computed `millisecondsPerTick` is -2^63. -/
theorem tick_duration_rounded :
    ((0 : ℚ) < roundedState.BPM ∧ (0 : Int) < roundedState.Granularity ∧
      ⌊(60000 : ℚ) / roundedState.BPM / (roundedState.Granularity : ℚ) * 1000000⌋ = 800000 ∧
      roundedState.millisecondsPerTick = 799999) ∧
    ((0 : ℚ) < slowState.BPM ∧ (0 : Int) < slowState.Granularity ∧
      ⌊(60000 : ℚ) / slowState.BPM / (slowState.Granularity : ℚ) * 1000000⌋
        = 64424509440000000000 ∧
      ¬ ((64424509440000000000 : Int) < INT_HALF) ∧
      slowState.millisecondsPerTick = -INT_HALF) := by
  have hb : roundedState.BPM = 3125 := rfl
  have hgr : roundedState.Granularity = 24 := rfl
  have hsb : slowState.BPM = 1 / 1073741824 := rfl
  have hsg : slowState.Granularity = 1 := rfl
  refine ⟨⟨by rw [hb]; norm_num, by decide, ?_, millisecondsPerTick_rounded _ rfl rfl⟩,
    ⟨by rw [hsb]; norm_num, by decide, ?_, by decide, millisecondsPerTick_slow _ rfl rfl⟩⟩
  · rw [hb, hgr]
    have : (60000 : ℚ) / 3125 / ((24 : Int) : ℚ) * 1000000 = ((800000 : Int) : ℚ) := by
      norm_num
    rw [this, Int.floor_intCast]
  · rw [hsb, hsg]
    have : (60000 : ℚ) / (1 / 1073741824) / ((1 : Int) : ℚ) * 1000000
        = ((64424509440000000000 : Int) : ℚ) := by norm_num
    rw [this, Int.floor_intCast]

/-- C18, witness: at bpm 120 and granularity 4 the tick duration is 125,000,000 ns, after
25 ms of work the loop sleeps 100 ms, and the tick duration is within one nanosecond of
the exact one. -/
theorem tick_duration_witness :
    cadenceState.millisecondsPerTick = 125000000 ∧
    cadenceState.sleepFor 25000000 = some (cadenceState.millisecondsPerTick - 25000000) ∧
    (⌊(60000 : ℚ) / cadenceState.BPM / (cadenceState.Granularity : ℚ) * 1000000⌋ - 1
        ≤ cadenceState.millisecondsPerTick ∧
      cadenceState.millisecondsPerTick
        ≤ ⌊(60000 : ℚ) / cadenceState.BPM / (cadenceState.Granularity : ℚ) * 1000000⌋ + 1) := by
  have hb : cadenceState.BPM = 120 := rfl
  have hgr : cadenceState.Granularity = 4 := rfl
  have h := tick_duration cadenceState (by rw [hb]; norm_num) (by decide) (by decide)
    (by rw [hb, hgr]; norm_num)
  have h125 := h.2.2.2.1 rfl rfl
  exact ⟨h125, h.2.2.2.2.2 25000000 (by decide) (by rw [h125]; decide),
    h.2.1 (by rw [hb, hgr]; norm_num)⟩

/-! ## Positive tempo (C20) -/

/-- C20, counterexample. `exampleState` has bpm 120; a Reload from a document that gives
no bpm (zero value 0) parses and compiles, and leaves bpm 0. -/
theorem reload_zero_bpm :
    (0 : ℚ) < exampleState.BPM ∧
    NewSequencerDefFromFile zeroBpmDocumentFs exampleState.FromFile = .ok zeroBpmDocument ∧
    (∃ seqs, zeroBpmDocument.GetSequences
      (NewSequencer zeroBpmDocument.BPM zeroBpmDocument.Granularity) = .ok seqs) ∧
    (exampleState.dispatchEvent zeroBpmDocumentFs ⟨EventType.ReloadSequencer⟩).BPM = 0 ∧
    ¬ ((0 : ℚ) < (exampleState.dispatchEvent zeroBpmDocumentFs
        ⟨EventType.ReloadSequencer⟩).BPM) := by
  have h : (exampleState.dispatchEvent zeroBpmDocumentFs ⟨EventType.ReloadSequencer⟩).BPM
      = 0 := rfl
  refine ⟨by decide, rfl, ⟨_, rfl⟩, h, ?_⟩
  rw [h]
  exact lt_irrefl 0

/-- C20, amended. For every state with bpm > 0, the state after `dispatchEvent` has
bpm > 0 for every control message other than Reload (Restart, Forward, Backward,
IncreaseBPM, DecreaseBPM, Quit). A Reload leaves bpm unchanged when there is no source
file or the re-parse fails, and otherwise sets bpm to the bpm of the parsed document, so
bpm > 0 holds after it exactly when the document's bpm is positive. -/
theorem bpm_positive (fs : FileSystem) (seq : Sequencer) (ev : SequencerEvent)
    (hpos : 0 < seq.BPM) :
    (ev.Type_ ≠ EventType.ReloadSequencer → 0 < (seq.dispatchEvent fs ev).BPM) ∧
    (ev.Type_ = EventType.ReloadSequencer →
      (seq.FromFile = "" ∨ ∃ err, NewSequencerDefFromFile fs seq.FromFile = .error err) →
      (seq.dispatchEvent fs ev).BPM = seq.BPM) ∧
    (∀ s : SequencerDef, ev.Type_ = EventType.ReloadSequencer → seq.FromFile ≠ "" →
      NewSequencerDefFromFile fs seq.FromFile = .ok s →
      (seq.dispatchEvent fs ev).BPM = s.BPM ∧
      (0 < (seq.dispatchEvent fs ev).BPM ↔ 0 < s.BPM)) := by
  obtain ⟨ty⟩ := ev
  refine ⟨?_, ?_, ?_⟩
  · intro hne
    cases ty
    · simpa [Sequencer.dispatchEvent] using hpos
    · exact absurd rfl hne
    · simpa [Sequencer.dispatchEvent] using hpos
    · simp only [Sequencer.dispatchEvent]
      simp only [reduceCtorEq, if_false, if_true]
      split <;> exact hpos
    · simp only [Sequencer.dispatchEvent]
      simp only [reduceCtorEq, if_false, if_true]
      show 0 < seq.BPM + 10
      linarith
    · simp only [Sequencer.dispatchEvent]
      simp only [reduceCtorEq, if_false, if_true]
      split
      · show (0 : ℚ) < 1
        norm_num
      · show 0 < seq.BPM - 10
        linarith
    · simpa [Sequencer.dispatchEvent] using hpos
  · intro hty hfail
    simp only at hty
    subst hty
    rcases hfail with hfile | ⟨err, herr⟩
    · simp [Sequencer.dispatchEvent, hfile]
    · by_cases hfile : seq.FromFile = ""
      · simp [Sequencer.dispatchEvent, hfile]
      · simp [Sequencer.dispatchEvent, hfile, herr]
  · intro s hty hfile hparse
    simp only at hty
    subst hty
    have hb : (seq.dispatchEvent fs ⟨EventType.ReloadSequencer⟩).BPM = s.BPM := by
      simp only [Sequencer.dispatchEvent]
      simp only [reduceCtorEq, if_false, if_true, ne_eq, hfile, not_false_eq_true, hparse]
      split <;> rfl
    exact ⟨hb, by rw [hb]⟩

/-- C20, witness: a DecreaseBPM at bpm 120 leaves a positive bpm, and a Reload from
`goodDocument` leaves the document's bpm, 90. -/
theorem bpm_positive_witness :
    0 < (exampleState.dispatchEvent unreadableFs ⟨EventType.DecreaseBPM⟩).BPM ∧
    (exampleState.dispatchEvent goodDocumentFs ⟨EventType.ReloadSequencer⟩).BPM
      = goodDocument.BPM :=
  ⟨(bpm_positive unreadableFs exampleState ⟨EventType.DecreaseBPM⟩ (by decide)).1
      (by decide),
   ((bpm_positive goodDocumentFs exampleState ⟨EventType.ReloadSequencer⟩ (by decide)).2.2
      goodDocument rfl (by decide) rfl).1⟩

/-! ## Frame of the control messages (C21) -/

/-- C21. For every state, `dispatchEvent` with Restart, Forward or Backward changes no
field other than `time`, and with IncreaseBPM or DecreaseBPM no field other than `bpm`:
granularity, sequences, initial channel setup, source file, `started`, the three register
banks (and the queue) are unchanged in all five cases. -/
theorem dispatch_frame (fs : FileSystem) (seq : Sequencer) :
    (∀ ev : SequencerEvent,
      (ev.Type_ = EventType.RestartSequencer ∨ ev.Type_ = EventType.ForwardSequencer
        ∨ ev.Type_ = EventType.BackwardSequencer) →
      seq.dispatchEvent fs ev = { seq with Time := (seq.dispatchEvent fs ev).Time }) ∧
    (∀ ev : SequencerEvent,
      (ev.Type_ = EventType.IncreaseBPM ∨ ev.Type_ = EventType.DecreaseBPM) →
      seq.dispatchEvent fs ev = { seq with BPM := (seq.dispatchEvent fs ev).BPM }) ∧
    (∀ ev : SequencerEvent,
      (ev.Type_ = EventType.RestartSequencer ∨ ev.Type_ = EventType.ForwardSequencer
        ∨ ev.Type_ = EventType.BackwardSequencer ∨ ev.Type_ = EventType.IncreaseBPM
        ∨ ev.Type_ = EventType.DecreaseBPM) →
      (seq.dispatchEvent fs ev).Granularity = seq.Granularity ∧
      (seq.dispatchEvent fs ev).Sequences = seq.Sequences ∧
      (seq.dispatchEvent fs ev).InitialChannelSetup = seq.InitialChannelSetup ∧
      (seq.dispatchEvent fs ev).FromFile = seq.FromFile ∧
      (seq.dispatchEvent fs ev).Started = seq.Started ∧
      (seq.dispatchEvent fs ev).IntRegisters = seq.IntRegisters ∧
      (seq.dispatchEvent fs ev).IntArrayRegisters = seq.IntArrayRegisters ∧
      (seq.dispatchEvent fs ev).FloatRegisters = seq.FloatRegisters ∧
      (seq.dispatchEvent fs ev).Inputs = seq.Inputs) := by
  have htime : ∀ ev : SequencerEvent,
      (ev.Type_ = EventType.RestartSequencer ∨ ev.Type_ = EventType.ForwardSequencer
        ∨ ev.Type_ = EventType.BackwardSequencer) →
      seq.dispatchEvent fs ev = { seq with Time := (seq.dispatchEvent fs ev).Time } := by
    rintro ⟨ty⟩ (h | h | h) <;> simp only at h <;> subst h
    · simp [Sequencer.dispatchEvent]
    · simp [Sequencer.dispatchEvent]
    · simp only [Sequencer.dispatchEvent]
      simp only [reduceCtorEq, if_false, if_true]
      split <;> rfl
  have hbpm : ∀ ev : SequencerEvent,
      (ev.Type_ = EventType.IncreaseBPM ∨ ev.Type_ = EventType.DecreaseBPM) →
      seq.dispatchEvent fs ev = { seq with BPM := (seq.dispatchEvent fs ev).BPM } := by
    rintro ⟨ty⟩ (h | h) <;> simp only at h <;> subst h
    · simp [Sequencer.dispatchEvent]
    · simp only [Sequencer.dispatchEvent]
      simp only [reduceCtorEq, if_false, if_true]
      split <;> rfl
  refine ⟨htime, hbpm, ?_⟩
  intro ev h
  rcases h with h | h | h | h | h
  · rw [htime ev (Or.inl h)]; exact ⟨rfl, rfl, rfl, rfl, rfl, rfl, rfl, rfl, rfl⟩
  · rw [htime ev (Or.inr (Or.inl h))]; exact ⟨rfl, rfl, rfl, rfl, rfl, rfl, rfl, rfl, rfl⟩
  · rw [htime ev (Or.inr (Or.inr h))]; exact ⟨rfl, rfl, rfl, rfl, rfl, rfl, rfl, rfl, rfl⟩
  · rw [hbpm ev (Or.inl h)]; exact ⟨rfl, rfl, rfl, rfl, rfl, rfl, rfl, rfl, rfl⟩
  · rw [hbpm ev (Or.inr h)]; exact ⟨rfl, rfl, rfl, rfl, rfl, rfl, rfl, rfl, rfl⟩

/-- C21, witness: a Forward on `exampleState` (tick 7, granularity 8) changes the counter
to 135 and nothing else. -/
theorem dispatch_frame_witness :
    exampleState.dispatchEvent unreadableFs ⟨EventType.ForwardSequencer⟩
      = { exampleState with Time := 135 } := by
  have h := (dispatch_frame unreadableFs exampleState).1 ⟨EventType.ForwardSequencer⟩
    (Or.inr (Or.inl rfl))
  rw [h]
  rfl

/-! ## Acceptance of play_note (C22) -/

theorem AutomationDef.GetAutomation_ok_iff (a : AutomationDef) :
    (∃ f, a.GetAutomation = .ok f) ↔ a.namesVariant = true := by
  unfold AutomationDef.GetAutomation AutomationDef.namesVariant
  cases a.BackAndForth <;> cases a.Cycle <;> cases a.Range <;> cases a.Sweep <;>
    cases a.FadeIn <;> simp

/-- The result of `PlayNoteEveryDef.GetSequence` once both durations have parsed and both
automations, where present, have been built. -/
theorem PlayNoteEveryDef_GetSequence_ok_iff (e : PlayNoteEveryDef) (seq : Sequencer)
    (s : Sequence) :
    e.GetSequence seq = .ok s ↔
      ∃ every duration noteF velocityF,
        parseDuration e.Every seq = .ok every ∧
        parseDuration e.Duration seq = .ok duration ∧
        ((∃ a, e.NoteAutomation = some a ∧ a.GetAutomation = .ok noteF) ∨
          (e.NoteAutomation = none ∧ e.Note ≠ 0 ∧
            noteF = IntAutomation.IntIdAutomation e.Note)) ∧
        ((∃ a, e.VelocityAutomation = some a ∧ a.GetAutomation = .ok velocityF) ∨
          (e.VelocityAutomation = none ∧ e.Velocity ≠ 0 ∧
            velocityF = IntAutomation.IntIdAutomation e.Velocity)) ∧
        s = Sequence.PlayNoteEveryAutomation every duration e.Channel noteF velocityF := by
  unfold PlayNoteEveryDef.GetSequence
  cases hev : parseDuration e.Every seq with
  | error err => simp
  | ok every =>
    cases hdur : parseDuration e.Duration seq with
    | error err => simp
    | ok duration =>
      cases hna : e.NoteAutomation with
      | some a =>
        cases hga : a.GetAutomation with
        | error err => simp [hga]
        | ok noteF =>
          cases hva : e.VelocityAutomation with
          | some v =>
            cases hgv : v.GetAutomation with
            | error err => simp [hga, hgv]
            | ok velocityF => simp [hga, hgv, eq_comm]
          | none =>
            by_cases hv0 : e.Velocity = 0
            · simp [hga, hv0]
            · simp [hga, hv0, eq_comm]
      | none =>
        by_cases hn0 : e.Note = 0
        · simp [hn0]
        · cases hva : e.VelocityAutomation with
          | some v =>
            cases hgv : v.GetAutomation with
            | error err => simp [hn0, hgv]
            | ok velocityF => simp [hn0, hgv, eq_comm]
          | none =>
            by_cases hv0 : e.Velocity = 0
            · simp [hn0, hv0]
            · simp [hn0, hv0, eq_comm]

/-- C22. `PlayNoteEveryDef.GetSequence` succeeds if and only if `every` and `duration`
both parse as durations, and `auto_note` is present and names at least one automation
variant or is absent with note != 0, and `auto_velocity` is present and names at least
one automation variant or is absent with velocity != 0. So a `play_note` with velocity 0
(or none) and no `auto_velocity` is rejected. On success the node is built from the parsed
`every` and `duration`, the given channel, and for note and velocity the automation if
present, else the constant literal. -/
theorem play_note_acceptance (e : PlayNoteEveryDef) (seq : Sequencer) :
    ((∃ s, e.GetSequence seq = .ok s) ↔
      (∃ every, parseDuration e.Every seq = .ok every) ∧
      (∃ duration, parseDuration e.Duration seq = .ok duration) ∧
      ((∃ a, e.NoteAutomation = some a ∧ a.namesVariant = true) ∨
        (e.NoteAutomation = none ∧ e.Note ≠ 0)) ∧
      ((∃ a, e.VelocityAutomation = some a ∧ a.namesVariant = true) ∨
        (e.VelocityAutomation = none ∧ e.Velocity ≠ 0))) ∧
    (e.VelocityAutomation = none → e.Velocity = 0 → ∃ err, e.GetSequence seq = .error err) ∧
    (∀ s, e.GetSequence seq = .ok s →
      ∃ every duration noteF velocityF,
        parseDuration e.Every seq = .ok every ∧
        parseDuration e.Duration seq = .ok duration ∧
        (∀ a, e.NoteAutomation = some a → a.GetAutomation = .ok noteF) ∧
        (e.NoteAutomation = none → noteF = IntAutomation.IntIdAutomation e.Note) ∧
        (∀ a, e.VelocityAutomation = some a → a.GetAutomation = .ok velocityF) ∧
        (e.VelocityAutomation = none → velocityF = IntAutomation.IntIdAutomation e.Velocity) ∧
        s = Sequence.PlayNoteEveryAutomation every duration e.Channel noteF velocityF) := by
  have hiff : (∃ s, e.GetSequence seq = .ok s) ↔
      (∃ every, parseDuration e.Every seq = .ok every) ∧
      (∃ duration, parseDuration e.Duration seq = .ok duration) ∧
      ((∃ a, e.NoteAutomation = some a ∧ a.namesVariant = true) ∨
        (e.NoteAutomation = none ∧ e.Note ≠ 0)) ∧
      ((∃ a, e.VelocityAutomation = some a ∧ a.namesVariant = true) ∨
        (e.VelocityAutomation = none ∧ e.Velocity ≠ 0)) := by
    constructor
    · rintro ⟨s, hs⟩
      obtain ⟨every, duration, noteF, velocityF, hev, hdur, hn, hv, _⟩ :=
        (PlayNoteEveryDef_GetSequence_ok_iff e seq s).1 hs
      refine ⟨⟨every, hev⟩, ⟨duration, hdur⟩, ?_, ?_⟩
      · rcases hn with ⟨a, ha, hga⟩ | ⟨ha, hne, _⟩
        · exact Or.inl ⟨a, ha, (AutomationDef.GetAutomation_ok_iff a).1 ⟨_, hga⟩⟩
        · exact Or.inr ⟨ha, hne⟩
      · rcases hv with ⟨a, ha, hga⟩ | ⟨ha, hne, _⟩
        · exact Or.inl ⟨a, ha, (AutomationDef.GetAutomation_ok_iff a).1 ⟨_, hga⟩⟩
        · exact Or.inr ⟨ha, hne⟩
    · rintro ⟨⟨every, hev⟩, ⟨duration, hdur⟩, hn, hv⟩
      have hn1 : ∃ noteF, (∃ a, e.NoteAutomation = some a ∧ a.GetAutomation = .ok noteF) ∨
          (e.NoteAutomation = none ∧ e.Note ≠ 0 ∧
            noteF = IntAutomation.IntIdAutomation e.Note) := by
        rcases hn with ⟨a, ha, hnv⟩ | ⟨ha, hne⟩
        · obtain ⟨f, hf⟩ := (AutomationDef.GetAutomation_ok_iff a).2 hnv
          exact ⟨f, Or.inl ⟨a, ha, hf⟩⟩
        · exact ⟨_, Or.inr ⟨ha, hne, rfl⟩⟩
      have hv1 : ∃ velocityF,
          (∃ a, e.VelocityAutomation = some a ∧ a.GetAutomation = .ok velocityF) ∨
          (e.VelocityAutomation = none ∧ e.Velocity ≠ 0 ∧
            velocityF = IntAutomation.IntIdAutomation e.Velocity) := by
        rcases hv with ⟨a, ha, hnv⟩ | ⟨ha, hne⟩
        · obtain ⟨f, hf⟩ := (AutomationDef.GetAutomation_ok_iff a).2 hnv
          exact ⟨f, Or.inl ⟨a, ha, hf⟩⟩
        · exact ⟨_, Or.inr ⟨ha, hne, rfl⟩⟩
      obtain ⟨noteF, hnf⟩ := hn1
      obtain ⟨velocityF, hvf⟩ := hv1
      exact ⟨_, (PlayNoteEveryDef_GetSequence_ok_iff e seq _).2
        ⟨every, duration, noteF, velocityF, hev, hdur, hnf, hvf, rfl⟩⟩
  refine ⟨hiff, ?_, ?_⟩
  · intro hva hv0
    cases hres : e.GetSequence seq with
    | error err => exact ⟨err, rfl⟩
    | ok s =>
      exfalso
      obtain ⟨_, _, _, hv⟩ := hiff.1 ⟨s, hres⟩
      rcases hv with ⟨a, ha, _⟩ | ⟨_, hne⟩
      · rw [hva] at ha; cases ha
      · exact hne hv0
  · intro s hs
    obtain ⟨every, duration, noteF, velocityF, hev, hdur, hn, hv, hnode⟩ :=
      (PlayNoteEveryDef_GetSequence_ok_iff e seq s).1 hs
    refine ⟨every, duration, noteF, velocityF, hev, hdur, ?_, ?_, ?_, ?_, hnode⟩
    · intro a ha
      rcases hn with ⟨a1, ha1, hga⟩ | ⟨hnone, _, _⟩
      · rw [ha] at ha1; cases ha1; exact hga
      · rw [ha] at hnone; cases hnone
    · intro hnone
      rcases hn with ⟨a1, ha1, _⟩ | ⟨_, _, hf⟩
      · rw [hnone] at ha1; cases ha1
      · exact hf
    · intro a ha
      rcases hv with ⟨a1, ha1, hga⟩ | ⟨hnone, _, _⟩
      · rw [ha] at ha1; cases ha1; exact hga
      · rw [ha] at hnone; cases hnone
    · intro hnone
      rcases hv with ⟨a1, ha1, _⟩ | ⟨_, _, hf⟩
      · rw [hnone] at ha1; cases ha1
      · exact hf

/-- C22, witness: the scenario's `play_note` without a velocity is rejected, and the
`play_note` with a cycling `auto_note` and literal velocity 100 compiles (at granularity
8) to the node with the cycle automation for the note and the constant 100 for the
velocity. -/
theorem play_note_acceptance_witness :
    (∃ err, playNoteNoVelocity.GetSequence exampleState = .error err) ∧
    playNoteNoVelocity.GetSequence exampleState
      = .error "play_note > missing velocity or auto_velocity" ∧
    (∃ s, playNoteCycle.GetSequence exampleState = .ok s) ∧
    playNoteCycle.GetSequence exampleState
      = .ok (Sequence.PlayNoteEveryAutomation 8 4 0
          (IntAutomation.IntCycleAutomation [60, 64, 67])
          (IntAutomation.IntIdAutomation 100)) :=
  ⟨(play_note_acceptance playNoteNoVelocity exampleState).2.1 rfl rfl, rfl,
   (play_note_acceptance playNoteCycle exampleState).1.2
      ⟨⟨_, rfl⟩, ⟨_, rfl⟩, Or.inl ⟨_, rfl, rfl⟩, Or.inr ⟨rfl, by decide⟩⟩,
   rfl⟩

end Bleep
